import Mathlib

/-!
# PushPawn: push-resolution statics

A shallow embedding of `Source/PushPawn/Private/PushStatics.cpp`, of
`FPushPawnAbilityTargetData::NetSerialize` and of the net-sync members of
`UPushPawn_Scan_Base`, and the properties proved about them.

Conventions of the embedding

* `float` values are elements of an ordered field: functions that only add,
  multiply, divide and compare are generic in the field `α` (and run on `ℚ`);
  functions that reach a square root, an arc cosine or a sine/cosine are
  stated over `ℝ`. Rounding, NaN and infinities are outside the model, except
  that a division by zero is made visible through `floatDiv`.
* Pointers that the source dereferences without a test are plain values;
  pointers that the source tests for null are `Option`s.
* Out-parameters become components of the returned tuple.
* A fatal failure (`check`, `CastChecked`, a null dereference) is the result
  `none` of a function returning an `Option`.
* C++ overloads get a suffix naming the argument type (`_Pushee`, `_Pawn`).
* Process-wide console variables are passed explicitly as `FPushPawnCVars`.
-/

namespace PushPawn

/-! ## Definitions -/

section EngineTypes

/-- Engine type `FVector`: a three-component vector. -/
structure FVector (α : Type) where
  X : α
  Y : α
  Z : α

/-- Engine type `FRotator`: pitch, yaw and roll in degrees. -/
structure FRotator (α : Type) where
  Pitch : α
  Yaw : α
  Roll : α

/-- Engine type `AActor`, reduced to the accessors the statics read:
`GetActorLocation`, `GetActorRotation`, `GetSimpleCollisionRadius` and
`GetActorForwardVector`. -/
structure AActor (α : Type) where
  ActorLocation : FVector α
  ActorRotation : FRotator α
  SimpleCollisionRadius : α
  ActorForwardVector : FVector α

/-- Engine type `UPawnMovementComponent`, reduced to `IsMovingOnGround`. -/
structure UPawnMovementComponent where
  MovingOnGround : Bool

/-- Engine type `APawn`: an actor with a velocity (`GetVelocity`) and a
movement component that may be null (`GetMovementComponent`). -/
structure APawn (α : Type) extends AActor α where
  Velocity : FVector α
  MovementComponent : Option UPawnMovementComponent

/-- Interface `IPusheeInstigator`, reduced to the three accessors the statics
call: `IsPusheeMovingOnGround`, `GetPusheeVelocity`, `GetPusheeAcceleration`. -/
structure IPusheeInstigator (α : Type) where
  PusheeMovingOnGround : Bool
  PusheeVelocity : FVector α
  PusheeAcceleration : FVector α

/-- Console variables of namespace `FPushPawnCVars` (`PushStatics.cpp` 21-38).
Both are `false` by default; a shipping build behaves as if both were
`false`. -/
structure FPushPawnCVars where
  bPushPawnVelocityStrengthScalarDisabled : Bool
  bPushPawnDistanceStrengthScalarDisabled : Bool

/-- Modelled from the spec: `FPushPawnActionParams` (declared in `PushTypes.h`,
which is not among the sources): base strength scalar, optional
velocity-to-strength curve, optional distance-to-strength curve. A curve is
the function `UCurveFloat::GetFloatValue` samples; a null curve is `none`. -/
structure FPushPawnActionParams (α : Type) where
  StrengthScalar : α
  VelocityToStrengthCurve : Option (α → α)
  DistanceToStrengthCurve : Option (α → α)

end EngineTypes

section Generic

variable {α : Type} [LinearOrderedField α]

/-- IEEE division as far as the model observes it: `none` stands for the
non-finite result (NaN or an infinity) of dividing by zero. -/
def floatDiv (A B : α) : Option α :=
  if B = 0 then none else some (A / B)

/-- `SafeDivide` (`PushStatics.cpp` 40-44). -/
def SafeDivide (A B : α) : Option α :=
  if B ≠ 0 then floatDiv A B else some 0

/-- `UPushStatics::GetNormalizedPushDistance` (`PushStatics.cpp` 172-177). -/
def GetNormalizedPushDistance (Pushee Pusher : AActor α) (DistanceBetween : α) : Option α :=
  let CombinedRadius := Pushee.SimpleCollisionRadius + Pusher.SimpleCollisionRadius
  let NormalizedDistance := SafeDivide DistanceBetween CombinedRadius
  NormalizedDistance

/-- `UPushStatics::IsPawnMovingOnGround` (`PushStatics.cpp` 137-140). -/
def IsPawnMovingOnGround (Pawn : APawn α) : Bool :=
  match Pawn.MovementComponent with
  | some MovementComponent => MovementComponent.MovingOnGround
  | none => false

/-- `UPushStatics::IsPusheeMovingOnGround` (`PushStatics.cpp` 142-145). -/
def IsPusheeMovingOnGround (Pushee : IPusheeInstigator α) : Bool :=
  Pushee.PusheeMovingOnGround

/-- `UPushStatics::GetPawnGroundVelocity` (`PushStatics.cpp` 147-152). -/
def GetPawnGroundVelocity (Pawn : APawn α) : FVector α :=
  let Velocity := Pawn.Velocity
  if IsPawnMovingOnGround Pawn then Velocity else ⟨Velocity.X, Velocity.Y, 0⟩

/-- `UPushStatics::GetPusheeGroundVelocity` (`PushStatics.cpp` 154-158). -/
def GetPusheeGroundVelocity (Pushee : IPusheeInstigator α) : FVector α :=
  let Velocity := Pushee.PusheeVelocity
  if Pushee.PusheeMovingOnGround then Velocity else ⟨Velocity.X, Velocity.Y, 0⟩

end Generic

section Real

/-- Engine function `FVector::Size`: the Euclidean length. -/
noncomputable def FVector.Size (V : FVector ℝ) : ℝ :=
  Real.sqrt (V.X * V.X + V.Y * V.Y + V.Z * V.Z)

/-- `UPushStatics::GetPawnGroundSpeed` (`PushStatics.cpp` 160-164). -/
noncomputable def GetPawnGroundSpeed (Pawn : APawn ℝ) : ℝ :=
  (GetPawnGroundVelocity Pawn).Size

/-- `UPushStatics::GetPusheeGroundSpeed` (`PushStatics.cpp` 166-170). -/
noncomputable def GetPusheeGroundSpeed (Pushee : IPusheeInstigator ℝ) : ℝ :=
  (GetPusheeGroundVelocity Pushee).Size

/-- `UPushStatics::GetPushStrength` (`PushStatics.cpp` 179-225). -/
noncomputable def GetPushStrength (CVars : FPushPawnCVars) (Pushee : APawn ℝ) (Distance : ℝ)
    (Params : FPushPawnActionParams ℝ) : ℝ :=
  let Strength := Params.StrengthScalar
  let Strength :=
    match Params.VelocityToStrengthCurve with
    | some VelocityToStrengthCurve =>
      let bEvaluateVelocityToStrengthCurve :=
        if CVars.bPushPawnVelocityStrengthScalarDisabled then false else true
      if bEvaluateVelocityToStrengthCurve then
        let PusheeSpeed := GetPawnGroundSpeed Pushee
        Strength * VelocityToStrengthCurve PusheeSpeed
      else Strength
    | none => Strength
  let Strength :=
    match Params.DistanceToStrengthCurve with
    | some DistanceToStrengthCurve =>
      let bEvaluateDistanceToStrengthCurve :=
        if CVars.bPushPawnDistanceStrengthScalarDisabled then false else true
      if bEvaluateDistanceToStrengthCurve then
        Strength * DistanceToStrengthCurve Distance
      else Strength
    | none => Strength
  Strength

/-- `UPushStatics::CalculatePushStrength` (`PushStatics.cpp` 227-235). -/
noncomputable def CalculatePushStrength (CVars : FPushPawnCVars) (Pushee : APawn ℝ)
    (bOverrideStrength : Bool) (StrengthScalar NormalizedDistance : ℝ)
    (Params : FPushPawnActionParams ℝ) : ℝ :=
  if bOverrideStrength then StrengthScalar
  else GetPushStrength CVars Pushee NormalizedDistance Params * StrengthScalar

end Real

section DirectionTypes

/-- Modelled from the spec: `EPushCardinal_4Way` (declared in `PushTypes.h`,
which is not among the sources): the four cardinal buckets. -/
inductive EPushCardinal_4Way where
  | Forward
  | Right
  | Backward
  | Left
deriving DecidableEq, Repr

/-- Modelled from the spec: `EPushCardinal_8Way` (declared in `PushTypes.h`,
which is not among the sources): the eight cardinal buckets. -/
inductive EPushCardinal_8Way where
  | Forward
  | ForwardRight
  | Right
  | BackwardRight
  | Backward
  | BackwardLeft
  | Left
  | ForwardLeft
deriving DecidableEq, Repr

/-- Modelled from the spec: `EValidPushDirection` (declared in `PushTypes.h`,
which is not among the sources): the validity output channel of the
classifiers. -/
inductive EValidPushDirection where
  | ValidDirection
  | InvalidDirection
deriving DecidableEq, Repr

/-- Engine type `FMatrix`, reduced to the three axis rows that
`GetScaledAxis` reads (rows 0, 1 and 2, first three columns). -/
structure FMatrix (α : Type) where
  XAxis : FVector α
  YAxis : FVector α
  ZAxis : FVector α

end DirectionTypes

section GenericVector

variable {α : Type} [LinearOrderedField α]

/-- Engine constant `UE_SMALL_NUMBER` (1.e-8). -/
def UE_SMALL_NUMBER : α := 1 / 100000000

/-- Engine constant `UE_KINDA_SMALL_NUMBER` (1.e-4). -/
def UE_KINDA_SMALL_NUMBER : α := 1 / 10000

/-- Engine operator `FVector::operator-`. -/
def FVector.sub (A B : FVector α) : FVector α :=
  ⟨A.X - B.X, A.Y - B.Y, A.Z - B.Z⟩

/-- Engine function `FVector::DotProduct`. -/
def FVector.DotProduct (A B : FVector α) : α :=
  A.X * B.X + A.Y * B.Y + A.Z * B.Z

/-- Engine function `FVector::IsNearlyZero(Tolerance)`: every component is
within the tolerance of zero. The source always calls it with the default
tolerance `UE_KINDA_SMALL_NUMBER`, except in `IsPusheeAccelerating`. -/
def FVector.IsNearlyZero (V : FVector α) (Tolerance : α) : Bool :=
  decide (|V.X| ≤ Tolerance) && decide (|V.Y| ≤ Tolerance) && decide (|V.Z| ≤ Tolerance)

/-- Engine function `FMath::Abs`. -/
def FMath.Abs (A : α) : α := |A|

end GenericVector

section RealDirection

/-- Engine function `FMath::InvSqrt`. -/
noncomputable def FMath.InvSqrt (A : ℝ) : ℝ := 1 / Real.sqrt A

/-- Engine function `FVector::GetSafeNormal2D(Tolerance)` with the default
zero-vector fallback: the vector with its Z dropped, scaled to unit length;
the zero vector when the planar squared length is below the tolerance. -/
noncomputable def FVector.GetSafeNormal2D (V : FVector ℝ) (Tolerance : ℝ) : FVector ℝ :=
  let SquareSum := V.X * V.X + V.Y * V.Y
  if SquareSum = 1 then
    if V.Z = 0 then V else ⟨V.X, V.Y, 0⟩
  else if SquareSum < Tolerance then ⟨0, 0, 0⟩
  else
    let Scale := FMath.InvSqrt SquareSum
    ⟨V.X * Scale, V.Y * Scale, 0⟩

/-- Engine function `FMath::DegreesToRadians`. -/
noncomputable def FMath.DegreesToRadians (Deg : ℝ) : ℝ := Deg * (Real.pi / 180)

/-- Engine function `FMath::RadiansToDegrees`. -/
noncomputable def FMath.RadiansToDegrees (Rad : ℝ) : ℝ := Rad * (180 / Real.pi)

/-- Engine function `FMath::Acos`: the arc cosine of the argument clamped to
`[-1, 1]`. -/
noncomputable def FMath.Acos (Value : ℝ) : ℝ :=
  Real.arccos (if Value < -1 then -1 else if Value < 1 then Value else 1)

/-- Engine constructor `FRotationMatrix(Rot)`: the rotation part of
`FRotationTranslationMatrix`. -/
noncomputable def FRotationMatrix (Rot : FRotator ℝ) : FMatrix ℝ :=
  let SP := Real.sin (FMath.DegreesToRadians Rot.Pitch)
  let CP := Real.cos (FMath.DegreesToRadians Rot.Pitch)
  let SY := Real.sin (FMath.DegreesToRadians Rot.Yaw)
  let CY := Real.cos (FMath.DegreesToRadians Rot.Yaw)
  let SR := Real.sin (FMath.DegreesToRadians Rot.Roll)
  let CR := Real.cos (FMath.DegreesToRadians Rot.Roll)
  { XAxis := ⟨CP * CY, CP * SY, SP⟩
    YAxis := ⟨SR * SP * CY - CR * SY, SR * SP * SY + CR * CY, -SR * CP⟩
    ZAxis := ⟨-(CR * SP * CY + SR * SY), CY * SR - CR * SP * SY, CR * CP⟩ }

/-- `UPushStatics::CalculatePushDirection` (`PushStatics.cpp` 284-309). -/
noncomputable def CalculatePushDirection (Direction : FVector ℝ) (BaseRotation : FRotator ℝ) : ℝ :=
  if !Direction.IsNearlyZero UE_KINDA_SMALL_NUMBER then
    let RotMatrix := FRotationMatrix BaseRotation
    let ForwardVector := RotMatrix.XAxis
    let RightVector := RotMatrix.YAxis
    let NormalizedVel := Direction.GetSafeNormal2D UE_SMALL_NUMBER
    let ForwardCosAngle := FVector.DotProduct ForwardVector NormalizedVel
    let ForwardDeltaDegree := FMath.RadiansToDegrees (FMath.Acos ForwardCosAngle)
    let RightCosAngle := FVector.DotProduct RightVector NormalizedVel
    let ForwardDeltaDegree :=
      if RightCosAngle < 0 then ForwardDeltaDegree * (-1) else ForwardDeltaDegree
    ForwardDeltaDegree
  else 0

/-- `UPushStatics::GetPushDirection_4Way` (`PushStatics.cpp` 311-344); the
out-parameter `ValidPushDirection` is the second component. -/
noncomputable def GetPushDirection_4Way (FromActor ToActor : AActor ℝ) :
    EPushCardinal_4Way × EValidPushDirection :=
  let Direction :=
    (FromActor.ActorLocation.sub ToActor.ActorLocation).GetSafeNormal2D UE_SMALL_NUMBER
  if Direction.IsNearlyZero UE_KINDA_SMALL_NUMBER then
    (EPushCardinal_4Way.Forward, EValidPushDirection.InvalidDirection)
  else
    let Rotation := CalculatePushDirection Direction ToActor.ActorRotation
    let RotationAbs := FMath.Abs Rotation
    if RotationAbs ≥ 45 ∧ RotationAbs ≤ 135 then
      (if Rotation > 0 then EPushCardinal_4Way.Right else EPushCardinal_4Way.Left,
        EValidPushDirection.ValidDirection)
    else if RotationAbs ≤ 45 then
      (EPushCardinal_4Way.Forward, EValidPushDirection.ValidDirection)
    else
      (EPushCardinal_4Way.Backward, EValidPushDirection.ValidDirection)

/-- `UPushStatics::GetPushDirection_8Way` (`PushStatics.cpp` 346-397); the
out-parameter `ValidPushDirection` is the second component. -/
noncomputable def GetPushDirection_8Way (FromActor ToActor : AActor ℝ) :
    EPushCardinal_8Way × EValidPushDirection :=
  let Direction :=
    (FromActor.ActorLocation.sub ToActor.ActorLocation).GetSafeNormal2D UE_SMALL_NUMBER
  if Direction.IsNearlyZero UE_KINDA_SMALL_NUMBER then
    (EPushCardinal_8Way.Forward, EValidPushDirection.InvalidDirection)
  else
    let Rotation := CalculatePushDirection Direction ToActor.ActorRotation
    let RotationAbs := FMath.Abs Rotation
    if RotationAbs ≥ 67.5 ∧ RotationAbs ≤ 112.5 then
      (if Rotation > 0 then EPushCardinal_8Way.Right else EPushCardinal_8Way.Left,
        EValidPushDirection.ValidDirection)
    else if RotationAbs ≤ 22.5 then
      (EPushCardinal_8Way.Forward, EValidPushDirection.ValidDirection)
    else if RotationAbs ≥ 157.5 then
      (EPushCardinal_8Way.Backward, EValidPushDirection.ValidDirection)
    else if RotationAbs ≤ 67.5 then
      (if Rotation > 0 then EPushCardinal_8Way.ForwardRight else EPushCardinal_8Way.ForwardLeft,
        EValidPushDirection.ValidDirection)
    else if RotationAbs ≥ 112.5 then
      (if Rotation > 0 then EPushCardinal_8Way.BackwardRight
        else EPushCardinal_8Way.BackwardLeft,
        EValidPushDirection.ValidDirection)
    else
      (EPushCardinal_8Way.Forward, EValidPushDirection.ValidDirection)

end RealDirection

section Discovery

/-- Engine type `UClass*` as held by a `TSubclassOf`: the identity of a class. -/
abbrev UClassPtr := Nat

/-- Engine type `UObject*` restricted to non-null pointers: the identity of an
actor or component. A nullable pointer is an `Option UObjectPtr`. -/
abbrev UObjectPtr := Nat

/-- Modelled from the spec: `FPushQuery` (declared in `PushQuery.h`, which is
not among the sources), reduced to the requesting avatar. The weak pointer
`RequestingAvatar` is `some` actor exactly when `IsValid()` holds. -/
structure FPushQuery (α : Type) where
  RequestingAvatar : Option (AActor α)

/-- Modelled from the spec: `FPushOption` (declared in `PushOption.h`, which is
not among the sources): ability-to-grant reference, pushee world position,
forward vector, pusher world position, under the member names that
`GatherPushOptions` assigns. -/
structure FPushOption (α : Type) where
  PushAbilityToGrant : Option UClassPtr
  PusheeActorLocation : FVector α
  PusheeForwardVector : FVector α
  PusherActorLocation : FVector α

/-- Modelled from the spec: `FPushOptionBuilder` (declared in `IPush.h`, which
is not among the sources): the list of options proposed so far. -/
structure FPushOptionBuilder (α : Type) where
  Options : List (FPushOption α)

/-- Modelled from the spec: `FPushOptionBuilder::AddPushOption` (declared in
`IPush.h`, which is not among the sources): the option is added at the end of
the builder's list. -/
def FPushOptionBuilder.AddPushOption {α : Type} (OptionBuilder : FPushOptionBuilder α)
    (Push : FPushOption α) : FPushOptionBuilder α :=
  ⟨OptionBuilder.Options ++ [Push]⟩

/-- `UPushStatics::GatherPushOptions` (`PushStatics.cpp` 539-553); the builder
after the call is the second component. -/
def GatherPushOptions {α : Type} (PushAbilityToGrant : Option UClassPtr)
    (PusherPawn : Option (APawn α)) (PushQuery : FPushQuery α)
    (OptionBuilder : FPushOptionBuilder α) : Bool × FPushOptionBuilder α :=
  match PushAbilityToGrant, PusherPawn, PushQuery.RequestingAvatar with
  | some Ability, some Pusher, some RequestingAvatar =>
    let Push : FPushOption α :=
      { PushAbilityToGrant := some Ability
        PusheeActorLocation := RequestingAvatar.ActorLocation
        PusheeForwardVector := Pusher.ActorForwardVector
        PusherActorLocation := Pusher.ActorLocation }
    (true, OptionBuilder.AddPushOption Push)
  | _, _, _ => (false, OptionBuilder)

/-- Engine type `TScriptInterface<IPusherTarget>`: an object pointer and the
interface pointer obtained from it. -/
structure TScriptInterface where
  ObjectPointer : Option UObjectPtr
  InterfacePointer : Option UObjectPtr
deriving DecidableEq, Repr

/-- Engine constructor `TScriptInterface<IPusherTarget>(UObject*)`: stores the
object and the result of `Cast<IPusherTarget>`, which is null for a null object
and for an object that does not implement the interface. `Implements` tells
which objects implement `IPusherTarget`. -/
def TScriptInterface.ofObject (Implements : UObjectPtr → Bool) (Object : Option UObjectPtr) :
    TScriptInterface :=
  { ObjectPointer := Object
    InterfacePointer := Object.filter Implements }

/-- Engine operator `TScriptInterface::operator bool`: the interface pointer
is not null. -/
def TScriptInterface.isSet (I : TScriptInterface) : Bool :=
  I.InterfacePointer.isSome

/-- Engine function `TArray::AddUnique`: adds the item at the end unless an
equal item is already in the array. -/
def AddUnique {β : Type} [DecidableEq β] (Array : List β) (Item : β) : List β :=
  if Item ∈ Array then Array else Array ++ [Item]

/-- Engine type `FOverlapResult`, reduced to `GetActor` and `GetComponent`,
both of which may be null. -/
structure FOverlapResult where
  Actor : Option UObjectPtr
  Component : Option UObjectPtr
deriving DecidableEq, Repr

/-- `UPushStatics::AppendPushTargetsFromOverlapResults` (`PushStatics.cpp`
668-687); the array `OutPushTargets` after the call is the result. -/
def AppendPushTargetsFromOverlapResults (Implements : UObjectPtr → Bool)
    (OverlapResults : List FOverlapResult) (OutPushTargets : List TScriptInterface) :
    List TScriptInterface :=
  OverlapResults.foldl
    (fun OutPushTargets Overlap =>
      let PushActor := TScriptInterface.ofObject Implements Overlap.Actor
      let OutPushTargets :=
        if PushActor.isSet then AddUnique OutPushTargets PushActor else OutPushTargets
      let PushComponent := TScriptInterface.ofObject Implements Overlap.Component
      let OutPushTargets :=
        if PushComponent.isSet then AddUnique OutPushTargets PushComponent else OutPushTargets
      OutPushTargets)
    OutPushTargets

end Discovery

section Capabilities

/-- Engine object model, reduced to what capability resolution reads: which
objects `Cast<IPusherTarget>` and `Cast<IPusheeInstigator>` succeed on, the
components an actor owns (in the order the engine enumerates them), and which
components are of class `UPusherComponent` and `UPusheeComponent`. -/
structure FObjectGraph where
  ImplementsPusherTarget : UObjectPtr → Bool
  ImplementsPusheeInstigator : UObjectPtr → Bool
  Components : UObjectPtr → List UObjectPtr
  IsPusherComponent : UObjectPtr → Bool
  IsPusheeComponent : UObjectPtr → Bool

/-- `UPushStatics::GetPusheeInstigator` (`PushStatics.cpp` 399-437, both
overloads have the same body); the result is the object the interface pointer
points into, `none` for a null pointer. -/
def GetPusheeInstigator (G : FObjectGraph) (Actor : Option UObjectPtr) : Option UObjectPtr :=
  match Actor with
  | none => none
  | some Actor =>
    if G.ImplementsPusheeInstigator Actor then some Actor
    else
      match (G.Components Actor).find? G.IsPusheeComponent with
      | some Component => if G.ImplementsPusheeInstigator Component then some Component else none
      | none => none

/-- `UPushStatics::GetPusherTarget` (`PushStatics.cpp` 439-477, both overloads
have the same body); the result is the object the interface pointer points
into, `none` for a null pointer. -/
def GetPusherTarget (G : FObjectGraph) (Actor : Option UObjectPtr) : Option UObjectPtr :=
  match Actor with
  | none => none
  | some Actor =>
    if G.ImplementsPusherTarget Actor then some Actor
    else
      match (G.Components Actor).find? G.IsPusherComponent with
      | some Component => if G.ImplementsPusherTarget Component then some Component else none
      | none => none

/-- `UPushStatics::GetPushTargetsFromActor` (`PushStatics.cpp` 651-666); the
array `OutPushTargets` after the call is the result.
`GetComponentsByInterface(UPusheeInstigator::StaticClass())` is the list of
owned components that implement the pushee-instigator interface. -/
def GetPushTargetsFromActor (G : FObjectGraph) (Actor : Option UObjectPtr)
    (OutPushTargets : List TScriptInterface) : List TScriptInterface :=
  let PushActor := TScriptInterface.ofObject G.ImplementsPusherTarget Actor
  let OutPushTargets := if PushActor.isSet then OutPushTargets ++ [PushActor] else OutPushTargets
  let PushComponents : List UObjectPtr :=
    match Actor with
    | some Actor => (G.Components Actor).filter G.ImplementsPusheeInstigator
    | none => []
  PushComponents.foldl
    (fun OutPushTargets PushComponent =>
      OutPushTargets ++ [TScriptInterface.ofObject G.ImplementsPusherTarget (some PushComponent)])
    OutPushTargets

/-- `UPushStatics::AppendPushTargetsFromHitResult` (`PushStatics.cpp` 689-705),
the sibling of `GetPushTargetsFromActor` for a hit result; `HitActor` is
`HitResult.GetActor()`. -/
def AppendPushTargetsFromHitResult (G : FObjectGraph) (HitActor : Option UObjectPtr)
    (OutPushTargets : List TScriptInterface) : List TScriptInterface :=
  let PushActor := TScriptInterface.ofObject G.ImplementsPusherTarget HitActor
  let OutPushTargets :=
    if PushActor.isSet then AddUnique OutPushTargets PushActor else OutPushTargets
  let PusherComponent : Option UObjectPtr :=
    match HitActor with
    | some Actor => (G.Components Actor).find? G.IsPusherComponent
    | none => none
  let PushComponent := TScriptInterface.ofObject G.ImplementsPusherTarget PusherComponent
  if PushComponent.isSet then AddUnique OutPushTargets PushComponent else OutPushTargets

/-- An object graph with one actor, 1, that implements neither interface and
owns the components 2 and 3; component 2 implements only the pushee-instigator
interface (a `UPusheeComponent`), component 3 only the pusher-target interface
(a `UPusherComponent`). -/
def MixedActorGraph : FObjectGraph :=
  { ImplementsPusherTarget := fun o => o == 3
    ImplementsPusheeInstigator := fun o => o == 2
    Components := fun o => if o == 1 then [2, 3] else []
    IsPusherComponent := fun o => o == 3
    IsPusheeComponent := fun o => o == 2 }

end Capabilities

section Scan

/-- Modelled from the spec: `FPushPawnScanParams` (declared in `PushTypes.h`,
which is not among the sources): base scan rate, accelerated scan rate,
scan-range scalar, accelerated scan-range scalar, under the member names the
statics read. -/
structure FPushPawnScanParams (α : Type) where
  ScanRate : α
  ScanRateAccel : α
  ScanRangeScalar : α
  ScanRangeAccelScalar : α

/-- Engine function `FVector::GetSafeNormal(Tolerance)` with the default
zero-vector fallback: the vector scaled to unit length; the zero vector when
the squared length is below the tolerance. -/
noncomputable def FVector.GetSafeNormal (V : FVector ℝ) (Tolerance : ℝ) : FVector ℝ :=
  let SquareSum := V.X * V.X + V.Y * V.Y + V.Z * V.Z
  if SquareSum = 1 then V
  else if SquareSum < Tolerance then ⟨0, 0, 0⟩
  else
    let Scale := FMath.InvSqrt SquareSum
    ⟨V.X * Scale, V.Y * Scale, V.Z * Scale⟩

/-- `UPushStatics::GetPushPawnAcceleration(const IPusheeInstigator*)`
(`PushStatics.cpp` 479-482). -/
noncomputable def GetPushPawnAcceleration (Pushee : Option (IPusheeInstigator ℝ)) : FVector ℝ :=
  match Pushee with
  | some Pushee => Pushee.PusheeAcceleration.GetSafeNormal UE_SMALL_NUMBER
  | none => ⟨0, 0, 0⟩

/-- `UPushStatics::GetPushPawnAcceleration(APawn*)` (`PushStatics.cpp`
484-488). `Interface` gives the accessors of the pushee-instigator interface
on the object that `GetPusheeInstigator` resolves. -/
noncomputable def GetPushPawnAcceleration_Pawn (G : FObjectGraph)
    (Interface : UObjectPtr → IPusheeInstigator ℝ) (Pushee : Option UObjectPtr) : FVector ℝ :=
  match GetPusheeInstigator G Pushee with
  | some PusheeInstigator =>
    (Interface PusheeInstigator).PusheeAcceleration.GetSafeNormal UE_SMALL_NUMBER
  | none => ⟨0, 0, 0⟩

/-- `UPushStatics::IsPusheeAccelerating(const FVector&)` (`PushStatics.cpp`
500-503). -/
noncomputable def IsPusheeAccelerating (Acceleration : FVector ℝ) : Bool :=
  !(Acceleration.GetSafeNormal UE_SMALL_NUMBER).IsNearlyZero (1 / 10)

/-- `UPushStatics::IsPusheeAccelerating(const IPusheeInstigator*)`
(`PushStatics.cpp` 490-493). -/
noncomputable def IsPusheeAccelerating_Pushee (Pushee : Option (IPusheeInstigator ℝ)) : Bool :=
  IsPusheeAccelerating (GetPushPawnAcceleration Pushee)

/-- `UPushStatics::IsPusheeAccelerating(APawn*)` (`PushStatics.cpp` 495-498). -/
noncomputable def IsPusheeAccelerating_Pawn (G : FObjectGraph)
    (Interface : UObjectPtr → IPusheeInstigator ℝ) (Pushee : Option UObjectPtr) : Bool :=
  IsPusheeAccelerating (GetPushPawnAcceleration_Pawn G Interface Pushee)

/-- `UPushStatics::GetPushPawnScanRate(const FVector&, ...)` (`PushStatics.cpp`
515-518). -/
noncomputable def GetPushPawnScanRate (Acceleration : FVector ℝ)
    (ScanParams : FPushPawnScanParams ℝ) : ℝ :=
  if IsPusheeAccelerating Acceleration then ScanParams.ScanRateAccel else ScanParams.ScanRate

/-- `UPushStatics::GetPushPawnScanRate(const IPusheeInstigator*, ...)`
(`PushStatics.cpp` 505-508). -/
noncomputable def GetPushPawnScanRate_Pushee (Pushee : Option (IPusheeInstigator ℝ))
    (ScanParams : FPushPawnScanParams ℝ) : ℝ :=
  GetPushPawnScanRate (GetPushPawnAcceleration Pushee) ScanParams

/-- `UPushStatics::GetPushPawnScanRate(APawn*, ...)` (`PushStatics.cpp`
510-513). -/
noncomputable def GetPushPawnScanRate_Pawn (G : FObjectGraph)
    (Interface : UObjectPtr → IPusheeInstigator ℝ) (Pushee : Option UObjectPtr)
    (ScanParams : FPushPawnScanParams ℝ) : ℝ :=
  GetPushPawnScanRate (GetPushPawnAcceleration_Pawn G Interface Pushee) ScanParams

/-- `UPushStatics::GetPushPawnScanRange(const FVector&, ...)` (`PushStatics.cpp`
532-537). -/
noncomputable def GetPushPawnScanRange (Acceleration : FVector ℝ) (BaseScanRange : ℝ)
    (ScanParams : FPushPawnScanParams ℝ) : ℝ :=
  BaseScanRange *
    (if IsPusheeAccelerating Acceleration then ScanParams.ScanRangeAccelScalar
      else ScanParams.ScanRangeScalar)

/-- `UPushStatics::GetPushPawnScanRange(const IPusheeInstigator*, ...)`
(`PushStatics.cpp` 520-524). -/
noncomputable def GetPushPawnScanRange_Pushee (Pushee : Option (IPusheeInstigator ℝ))
    (BaseScanRange : ℝ) (ScanParams : FPushPawnScanParams ℝ) : ℝ :=
  GetPushPawnScanRange (GetPushPawnAcceleration Pushee) BaseScanRange ScanParams

/-- `UPushStatics::GetPushPawnScanRange(APawn*, ...)` (`PushStatics.cpp`
526-530). -/
noncomputable def GetPushPawnScanRange_Pawn (G : FObjectGraph)
    (Interface : UObjectPtr → IPusheeInstigator ℝ) (Pushee : Option UObjectPtr)
    (BaseScanRange : ℝ) (ScanParams : FPushPawnScanParams ℝ) : ℝ :=
  GetPushPawnScanRange (GetPushPawnAcceleration_Pawn G Interface Pushee) BaseScanRange ScanParams

end Scan

section CollisionShape

/-- Modelled from the spec: `EPushCollisionType` (declared in `PushTypes.h`,
which is not among the sources): the shape kinds capsule, box, sphere and
none. -/
inductive EPushCollisionType where
  | None
  | Capsule
  | Box
  | Sphere
deriving DecidableEq, Repr

/-- Engine type `USceneComponent` with its subclasses `UCapsuleComponent`,
`UBoxComponent` and `USphereComponent`, reduced to the class (what `IsA` and
`CastChecked` test) and the scaled dimensions the statics read; `Other` is a
scene component of any other class. -/
inductive USceneComponent (α : Type) where
  | Capsule (ScaledCapsuleRadius ScaledCapsuleHalfHeight : α)
  | Box (ScaledBoxExtent : FVector α)
  | Sphere (ScaledSphereRadius : α)
  | Other

/-- Engine type `AActor`, reduced to the live root component
(`GetRootComponent`) and the root component of the class default object
(`GetClass()->GetDefaultObject<AActor>()->GetRootComponent()`); either may be
null. -/
structure AShapeActor (α : Type) where
  RootComponent : Option (USceneComponent α)
  DefaultRootComponent : Option (USceneComponent α)

/-- Engine type `FCollisionShape`; a default-constructed shape is a `Line`. -/
inductive FCollisionShape (α : Type) where
  | Line
  | Box (HalfExtentX HalfExtentY HalfExtentZ : α)
  | Sphere (Radius : α)
  | Capsule (Radius HalfHeight : α)

variable {α : Type} [LinearOrderedField α]

/-- Engine function `FCollisionShape::IsNearlyZero`: a box whose three half
extents, a sphere or a capsule whose radius, do not exceed
`UE_KINDA_SMALL_NUMBER`; any other shape. -/
def FCollisionShape.IsNearlyZero : FCollisionShape α → Bool
  | FCollisionShape.Box X Y Z =>
    decide (X ≤ UE_KINDA_SMALL_NUMBER) && decide (Y ≤ UE_KINDA_SMALL_NUMBER)
      && decide (Z ≤ UE_KINDA_SMALL_NUMBER)
  | FCollisionShape.Sphere Radius => decide (Radius ≤ UE_KINDA_SMALL_NUMBER)
  | FCollisionShape.Capsule Radius _ => decide (Radius ≤ UE_KINDA_SMALL_NUMBER)
  | FCollisionShape.Line => true

/-- Engine function `FVector::GetAbsMax`. -/
def FVector.GetAbsMax (V : FVector α) : α :=
  max (max |V.X| |V.Y|) |V.Z|

/-- `UPushStatics::GetPusheeCollisionShapeType` (`PushStatics.cpp` 555-571);
`none` is the failure of dereferencing a null root component. -/
def GetPusheeCollisionShapeType (Actor : AShapeActor α) : Option EPushCollisionType :=
  match Actor.RootComponent with
  | none => none
  | some (USceneComponent.Capsule _ _) => some EPushCollisionType.Capsule
  | some (USceneComponent.Box _) => some EPushCollisionType.Box
  | some (USceneComponent.Sphere _) => some EPushCollisionType.Sphere
  | some USceneComponent.Other => some EPushCollisionType.None

/-- `UPushStatics::GetDefaultPusheeCollisionShape` (`PushStatics.cpp` 573-604),
without the out-parameter `OutShapeRotation`; `none` is a fatal failure: a
`CastChecked` on a component of another class, or a null component. -/
def GetDefaultPusheeCollisionShape (Actor : AShapeActor α)
    (OptionalShapeType : EPushCollisionType) (OptionalComponent : Option (USceneComponent α)) :
    Option (FCollisionShape α) :=
  match (if OptionalShapeType = EPushCollisionType.None then GetPusheeCollisionShapeType Actor
          else some OptionalShapeType) with
  | none => none
  | some OptionalShapeType =>
    match (match OptionalComponent with
            | some Component => some Component
            | none => Actor.DefaultRootComponent) with
    | none => none
    | some Component =>
      match OptionalShapeType with
      | EPushCollisionType.Capsule =>
        match Component with
        | USceneComponent.Capsule ScaledCapsuleRadius ScaledCapsuleHalfHeight =>
          let Radius := ScaledCapsuleRadius
          let HalfHeight := max Radius ScaledCapsuleHalfHeight
          some (FCollisionShape.Capsule Radius HalfHeight)
        | _ => none
      | EPushCollisionType.Box =>
        match Component with
        | USceneComponent.Box ScaledBoxExtent =>
          some (FCollisionShape.Box ScaledBoxExtent.X ScaledBoxExtent.Y ScaledBoxExtent.Z)
        | _ => none
      | EPushCollisionType.Sphere =>
        match Component with
        | USceneComponent.Sphere ScaledSphereRadius =>
          some (FCollisionShape.Sphere ScaledSphereRadius)
        | _ => none
      | EPushCollisionType.None => some FCollisionShape.Line

/-- `UPushStatics::GetMaxDefaultCollisionShapeSize` (`PushStatics.cpp`
606-625); `none` is a fatal failure inside
`GetDefaultPusheeCollisionShape`. -/
def GetMaxDefaultCollisionShapeSize (Actor : Option (AShapeActor α))
    (SpecificShapeType : EPushCollisionType) : Option α :=
  match Actor with
  | some Actor =>
    match GetDefaultPusheeCollisionShape Actor SpecificShapeType none with
    | none => none
    | some CollisionShape =>
      if !CollisionShape.IsNearlyZero then
        match CollisionShape with
        | FCollisionShape.Box X Y Z => some (FVector.GetAbsMax ⟨X, Y, Z⟩)
        | FCollisionShape.Sphere Radius => some Radius
        | FCollisionShape.Capsule Radius HalfHeight => some (max Radius HalfHeight)
        | FCollisionShape.Line => some 0
      else some 0
  | none => some 0

/-- An actor whose class default root is a capsule of radius 34 and half height
88, with the given live root component. -/
def CapsuleClassActor {α : Type} [LinearOrderedField α] (LiveRoot : USceneComponent α) :
    AShapeActor α :=
  { RootComponent := some LiveRoot
    DefaultRootComponent := some (USceneComponent.Capsule 34 88) }

end CollisionShape

section EventData

/-- `FPushPawnAbilityTargetData` (`PushPawnAbilityTargetData.h` 13-54):
direction, distance and strength scalar. -/
structure FPushPawnAbilityTargetData (α : Type) where
  Direction : FVector α
  Distance : α
  StrengthScalar : α

/-- Modelled from the spec: `FPushPawnStrengthTargetData` (not declared in the
sources): the second payload segment, carrying the override flag alongside a
duplicate strength scalar. -/
structure FPushPawnStrengthTargetData (α : Type) where
  StrengthScalar : α
  bOverrideStrength : Bool

/-- Engine type `FGameplayAbilityTargetData`, the polymorphic base of the two
payload segments; the constructor is the dynamic type of the object. -/
inductive FGameplayAbilityTargetData (α : Type) where
  | PushPawn (Data : FPushPawnAbilityTargetData α)
  | Strength (Data : FPushPawnStrengthTargetData α)

/-- Engine type `FGameplayEventData`, reduced to its target-data handle: an
array of shared pointers, each of which may be null. -/
structure FGameplayEventData (α : Type) where
  TargetData : List (Option (FGameplayAbilityTargetData α))

/-- Engine function `FGameplayAbilityTargetDataHandle::Get(Index)`: the
pointer at a valid index, null otherwise. -/
def FGameplayEventData.GetTargetData {α : Type} (EventData : FGameplayEventData α)
    (Index : Nat) : Option (FGameplayAbilityTargetData α) :=
  match EventData.TargetData[Index]? with
  | some Data => Data
  | none => none

/-- `UPushStatics::GetPushDataFromEventData` (`PushStatics.cpp` 80-117). The
four out-parameters `PushDirection`, `DistanceBetween`, `StrengthScalar`,
`bOverrideStrength` are the components of the result. `none` is a fatal
failure: the `check(RawData)` on a missing first segment, or a `static_cast`
applied to a segment of the other dynamic type. -/
noncomputable def GetPushDataFromEventData (EventData : FGameplayEventData ℝ) (bForce2D : Bool) :
    Option (FVector ℝ × ℝ × ℝ × Bool) :=
  match EventData.GetTargetData 0 with
  | none => none
  | some (FGameplayAbilityTargetData.Strength _) => none
  | some (FGameplayAbilityTargetData.PushPawn PushTargetData) =>
    let PushDirection :=
      if bForce2D then PushTargetData.Direction.GetSafeNormal2D UE_SMALL_NUMBER
      else PushTargetData.Direction.GetSafeNormal UE_SMALL_NUMBER
    let DistanceBetween := PushTargetData.Distance
    match EventData.GetTargetData 1 with
    | some (FGameplayAbilityTargetData.Strength PushStrengthTargetData) =>
      some (PushDirection, DistanceBetween, PushStrengthTargetData.StrengthScalar,
        PushStrengthTargetData.bOverrideStrength)
    | some (FGameplayAbilityTargetData.PushPawn _) => none
    | none => some (PushDirection, DistanceBetween, 1, false)

end EventData

section NetSync

/-- `UPushPawn_Scan_Base` (`PushPawn_Scan_Base.h` 19-96), reduced to its
net-sync members: the five configuration properties and the three state
members. The counter is an `int32`; its overflow is outside the model. -/
structure UPushPawn_Scan_Base (α : Type) where
  bEnableWaitForNetSync : Bool
  MaxPushesUntilNetSync : Int
  MinNetSyncDelay : α
  NetSyncDelayAfterPush : α
  NetSyncDelayWithoutPush : α
  TriggeredPushesSinceLastNetSync : Int
  LastPushTime : α
  LastNetSyncTime : α

variable {α : Type} [LinearOrderedField α]

/-- Modelled from the spec: `UPushPawn_Scan_Base::ShouldWaitForNetSync`
(declared in `PushPawn_Scan_Base.h` 134-140; its body is not among the
sources). True when net-sync is enabled and any of: the push count has reached
`MaxPushesUntilNetSync` and `MinNetSyncDelay` has passed since the last push;
`NetSyncDelayAfterPush` has passed since the last push; `NetSyncDelayWithoutPush`
has passed since the last sync. Each of the three thresholds is disabled by
the value 0. `Now` is the world time the body reads. -/
def ShouldWaitForNetSync (Ability : UPushPawn_Scan_Base α) (Now : α) : Bool :=
  Ability.bEnableWaitForNetSync &&
    ((decide (Ability.MaxPushesUntilNetSync ≠ 0)
        && decide (Ability.TriggeredPushesSinceLastNetSync ≥ Ability.MaxPushesUntilNetSync)
        && decide (Now - Ability.LastPushTime ≥ Ability.MinNetSyncDelay))
      || (decide (Ability.NetSyncDelayAfterPush ≠ 0)
        && decide (Now - Ability.LastPushTime ≥ Ability.NetSyncDelayAfterPush))
      || (decide (Ability.NetSyncDelayWithoutPush ≠ 0)
        && decide (Now - Ability.LastNetSyncTime ≥ Ability.NetSyncDelayWithoutPush)))

/-- Modelled from the spec: `UPushPawn_Scan_Base::ConsumeWaitForNetSync`
(declared in `PushPawn_Scan_Base.h` 142-143; its body is not among the
sources): resets the pushes-since-last-sync counter to 0 and sets
`LastNetSyncTime` to now. -/
def ConsumeWaitForNetSync (Ability : UPushPawn_Scan_Base α) (Now : α) : UPushPawn_Scan_Base α :=
  { Ability with TriggeredPushesSinceLastNetSync := 0, LastNetSyncTime := Now }

/-- Modelled from the spec: the bookkeeping of a push event in
`UPushPawn_Scan_Base::TriggerPush` (declared in `PushPawn_Scan_Base.h` 109-110;
its body is not among the sources): increments the pushes-since-last-sync
counter and records `LastPushTime`. -/
def TriggerPush (Ability : UPushPawn_Scan_Base α) (Now : α) : UPushPawn_Scan_Base α :=
  { Ability with
    TriggeredPushesSinceLastNetSync := Ability.TriggeredPushesSinceLastNetSync + 1
    LastPushTime := Now }

/-- The net-sync members with the default configuration of the header
(enabled, 6 pushes, delays 1, 5 and 12 seconds), after the given number of
pushes, the last of them at `LastPushTime`, the last sync at
`LastNetSyncTime`. -/
def DefaultScanAbility {α : Type} [LinearOrderedField α] (Pushes : Int)
    (LastPushTime LastNetSyncTime : α) : UPushPawn_Scan_Base α :=
  { bEnableWaitForNetSync := true
    MaxPushesUntilNetSync := 6
    MinNetSyncDelay := 1
    NetSyncDelayAfterPush := 5
    NetSyncDelayWithoutPush := 12
    TriggeredPushesSinceLastNetSync := Pushes
    LastPushTime := LastPushTime
    LastNetSyncTime := LastNetSyncTime }

end NetSync

section NetSerialization

/-- One field in a network archive: an unsigned integer written by
`SerializeInt`, or the four bytes of a `float` written by `operator<<`. -/
inductive FArchiveItem (α : Type) where
  | Int (Value : Nat)
  | Float (Value : α)

/-- Engine type `FArchive` as a network bit stream, at the granularity of
fields: a saving archive holds the fields written so far, a loading archive
the fields still to be read. Reading past the end (or reading a field of the
other kind) sets the error flag and yields zero, as the engine bit reader
does on overflow. -/
structure FArchive (α : Type) where
  ArIsSaving : Bool
  ArIsError : Bool
  Items : List (FArchiveItem α)

variable {α : Type} [LinearOrderedField α] [FloorRing α]

/-- Engine operator `FArchive::operator<<(float&)`; the first component is the
value of the variable after the call. -/
def FArchive.SerializeFloat (Ar : FArchive α) (Value : α) : α × FArchive α :=
  if Ar.ArIsSaving then (Value, { Ar with Items := Ar.Items ++ [FArchiveItem.Float Value] })
  else
    match Ar.Items with
    | FArchiveItem.Float Stored :: Rest => (Stored, { Ar with Items := Rest })
    | _ => (0, { Ar with ArIsError := true })

/-- Engine function `FArchive::SerializeInt(Value, ValueMax)`; the first
component is the value of the variable after the call. The bound `ValueMax`
only fixes the number of bits of the field and is left out. -/
def FArchive.SerializeInt (Ar : FArchive α) (Value : Nat) : Nat × FArchive α :=
  if Ar.ArIsSaving then (Value, { Ar with Items := Ar.Items ++ [FArchiveItem.Int Value] })
  else
    match Ar.Items with
    | FArchiveItem.Int Stored :: Rest => (Stored, { Ar with Items := Rest })
    | _ => (0, { Ar with ArIsError := true })

/-- Engine function `FMath::RoundToInt`: the floor of the value plus one
half. -/
def FMath.RoundToInt (F : α) : Int := ⌊F + 1 / 2⌋

/-- Engine function `FMath::TruncToInt`: rounding toward zero. -/
def FMath.TruncToInt (F : α) : Int := if 0 ≤ F then ⌊F⌋ else ⌈F⌉

/-- Engine function `WriteFixedCompressedFloat<MaxValue, NumBits>`; the
result is the success flag (not clamped) and the archive after the call. The
cast of the biased value to `uint32` is the remainder modulo `2 ^ 32`, and
the test `static_cast<int32>(Delta) > 0` reads that word as signed. -/
def WriteFixedCompressedFloat (MaxValue NumBits : Nat) (Value : α) (Ar : FArchive α) :
    Bool × FArchive α :=
  let MaxBitValue : Nat := 2 ^ (NumBits - 1) - 1
  let Bias : Nat := 2 ^ (NumBits - 1)
  let MaxDelta : Nat := 2 ^ NumBits - 1
  let ScaledValue : Int :=
    if MaxValue > MaxBitValue then
      FMath.TruncToInt (((MaxBitValue : α) / (MaxValue : α)) * Value)
    else
      FMath.RoundToInt ((((MaxBitValue / MaxValue : Nat) : α)) * Value)
  let Delta : Nat := ((ScaledValue + (Bias : Int)) % 2 ^ 32).toNat
  let clamp : Bool := decide (Delta > MaxDelta)
  let Delta : Nat :=
    if Delta > MaxDelta then (if 0 < Delta ∧ Delta < 2 ^ 31 then MaxDelta else 0) else Delta
  (!clamp, (Ar.SerializeInt Delta).2)

/-- Engine function `ReadFixedCompressedFloat<MaxValue, NumBits>`; the result
is the value read and the archive after the call. -/
def ReadFixedCompressedFloat (MaxValue NumBits : Nat) (Ar : FArchive α) : α × FArchive α :=
  let MaxBitValue : Nat := 2 ^ (NumBits - 1) - 1
  let Bias : Nat := 2 ^ (NumBits - 1)
  let Delta := (Ar.SerializeInt 0).1
  let Ar := (Ar.SerializeInt 0).2
  let UnscaledValue : α := (((Delta : Int) - (Bias : Int) : Int) : α)
  if MaxValue > MaxBitValue then
    (UnscaledValue * ((MaxValue : α) / (MaxBitValue : α)), Ar)
  else
    (UnscaledValue * (1 / (((MaxBitValue / MaxValue : Nat) : α))), Ar)

/-- Engine function `SerializeFixedVector<MaxValue, NumBits>`; the result is
the vector after the call, the success flag and the archive after the call. -/
def SerializeFixedVector (MaxValue NumBits : Nat) (Vector : FVector α) (Ar : FArchive α) :
    FVector α × Bool × FArchive α :=
  if Ar.ArIsSaving then
    let WX := WriteFixedCompressedFloat MaxValue NumBits Vector.X Ar
    let WY := WriteFixedCompressedFloat MaxValue NumBits Vector.Y WX.2
    let WZ := WriteFixedCompressedFloat MaxValue NumBits Vector.Z WY.2
    (Vector, WX.1 && WY.1 && WZ.1, WZ.2)
  else
    let RX := ReadFixedCompressedFloat MaxValue NumBits Ar
    let RY := ReadFixedCompressedFloat MaxValue NumBits RX.2
    let RZ := ReadFixedCompressedFloat MaxValue NumBits RY.2
    (⟨RX.1, RY.1, RZ.1⟩, true, RZ.2)

/-- Engine function `FVector_NetQuantizeNormal::NetSerialize`: 16 bits per
component for the range -1 to 1; the result is the vector after the call, the
out-parameter `bOutSuccess` and the archive after the call. -/
def FVector_NetQuantizeNormal.NetSerialize (Vector : FVector α) (Ar : FArchive α) :
    FVector α × Bool × FArchive α :=
  SerializeFixedVector 1 16 Vector Ar

/-- `FPushPawnAbilityTargetData::NetSerialize`
(`PushPawnAbilityTargetData.h` 42-48); the result is the object after the
call, the archive after the call, the out-parameter `bOutSuccess` and the
returned flag. -/
def FPushPawnAbilityTargetData.NetSerialize (Data : FPushPawnAbilityTargetData α)
    (Ar : FArchive α) : FPushPawnAbilityTargetData α × FArchive α × Bool × Bool :=
  let D := FVector_NetQuantizeNormal.NetSerialize Data.Direction Ar
  let Direction := D.1
  let bOutSuccess := D.2.1
  let Ar := D.2.2
  let S := Ar.SerializeFloat Data.Distance
  let Distance := S.1
  let Ar := S.2
  let T := Ar.SerializeFloat Data.StrengthScalar
  let StrengthScalar := T.1
  let Ar := T.2
  (⟨Direction, Distance, StrengthScalar⟩, Ar, bOutSuccess, true)

end NetSerialization

section StrengthSimple

/-- `UPushStatics::GetPushStrengthSimple` (`PushStatics.cpp` 237-282). -/
noncomputable def GetPushStrengthSimple (CVars : FPushPawnCVars) (Pushee : APawn ℝ)
    (VelocityToStrengthCurve DistanceToStrengthCurve : Option (ℝ → ℝ)) (Distance : ℝ)
    (StrengthScalar : ℝ) : ℝ :=
  let Strength := StrengthScalar
  let Strength :=
    match VelocityToStrengthCurve with
    | some VelocityToStrengthCurve =>
      let bEvaluateVelocityToStrengthCurve :=
        if CVars.bPushPawnVelocityStrengthScalarDisabled then false else true
      if bEvaluateVelocityToStrengthCurve then
        let PusheeSpeed := GetPawnGroundSpeed Pushee
        Strength * VelocityToStrengthCurve PusheeSpeed
      else Strength
    | none => Strength
  let Strength :=
    match DistanceToStrengthCurve with
    | some DistanceToStrengthCurve =>
      let bEvaluateDistanceToStrengthCurve :=
        if CVars.bPushPawnDistanceStrengthScalarDisabled then false else true
      if bEvaluateDistanceToStrengthCurve then
        Strength * DistanceToStrengthCurve Distance
      else Strength
    | none => Strength
  Strength

end StrengthSimple

section ReturnSites

/-- `UPushStatics::GetPushDirection_8Way` (`PushStatics.cpp` 346-397) once
more, with the source line of the `return` statement that produced the result
as a third output: 357 (direction nearly zero), 368, 374, 380, 386, 392 (the
five range checks) or 396 (the trailing default). -/
noncomputable def GetPushDirection_8Way_Traced (FromActor ToActor : AActor ℝ) :
    EPushCardinal_8Way × EValidPushDirection × Nat :=
  let Direction :=
    (FromActor.ActorLocation.sub ToActor.ActorLocation).GetSafeNormal2D UE_SMALL_NUMBER
  if Direction.IsNearlyZero UE_KINDA_SMALL_NUMBER then
    (EPushCardinal_8Way.Forward, EValidPushDirection.InvalidDirection, 357)
  else
    let Rotation := CalculatePushDirection Direction ToActor.ActorRotation
    let RotationAbs := FMath.Abs Rotation
    if RotationAbs ≥ 67.5 ∧ RotationAbs ≤ 112.5 then
      (if Rotation > 0 then EPushCardinal_8Way.Right else EPushCardinal_8Way.Left,
        EValidPushDirection.ValidDirection, 368)
    else if RotationAbs ≤ 22.5 then
      (EPushCardinal_8Way.Forward, EValidPushDirection.ValidDirection, 374)
    else if RotationAbs ≥ 157.5 then
      (EPushCardinal_8Way.Backward, EValidPushDirection.ValidDirection, 380)
    else if RotationAbs ≤ 67.5 then
      (if Rotation > 0 then EPushCardinal_8Way.ForwardRight else EPushCardinal_8Way.ForwardLeft,
        EValidPushDirection.ValidDirection, 386)
    else if RotationAbs ≥ 112.5 then
      (if Rotation > 0 then EPushCardinal_8Way.BackwardRight
        else EPushCardinal_8Way.BackwardLeft,
        EValidPushDirection.ValidDirection, 392)
    else
      (EPushCardinal_8Way.Forward, EValidPushDirection.ValidDirection, 396)

end ReturnSites

section ConcreteInputs

/-- A pawn walking up an incline: movement component reports moving on ground,
velocity (3, 4, 12). -/
def InclinePawn {α : Type} [LinearOrderedField α] : APawn α :=
  { ActorLocation := ⟨0, 0, 0⟩, ActorRotation := ⟨0, 0, 0⟩, SimpleCollisionRadius := 34,
    ActorForwardVector := ⟨1, 0, 0⟩, Velocity := ⟨3, 4, 12⟩,
    MovementComponent := some ⟨true⟩ }

/-- A pawn in the air: movement component reports not moving on ground,
velocity (3, 4, 12). -/
def AirbornePawn {α : Type} [LinearOrderedField α] : APawn α :=
  { ActorLocation := ⟨0, 0, 0⟩, ActorRotation := ⟨0, 0, 0⟩, SimpleCollisionRadius := 34,
    ActorForwardVector := ⟨1, 0, 0⟩, Velocity := ⟨3, 4, 12⟩,
    MovementComponent := some ⟨false⟩ }

/-- A pushee on the ground with velocity (3, 4, 12) that accelerates along X:
acceleration (2, 0, 0). -/
def AcceleratingPushee {α : Type} [LinearOrderedField α] : IPusheeInstigator α :=
  { PusheeMovingOnGround := true, PusheeVelocity := ⟨3, 4, 12⟩,
    PusheeAcceleration := ⟨2, 0, 0⟩ }

/-- A pushee moving on ground with velocity (3, 4, 12). -/
def InclinePushee {α : Type} [LinearOrderedField α] : IPusheeInstigator α :=
  { PusheeMovingOnGround := true, PusheeVelocity := ⟨3, 4, 12⟩,
    PusheeAcceleration := ⟨0, 0, 0⟩ }

/-- An actor standing at `(X, Y, Z)` with the zero rotation, collision radius
34 and forward vector along X. -/
def ActorAt {α : Type} [LinearOrderedField α] (X Y Z : α) : AActor α :=
  { ActorLocation := ⟨X, Y, Z⟩, ActorRotation := ⟨0, 0, 0⟩, SimpleCollisionRadius := 34,
    ActorForwardVector := ⟨1, 0, 0⟩ }

end ConcreteInputs

/-! ## Theorems -/

/-- C1: `GetNormalizedPushDistance` returns `rawDistance / r` when the combined
collision radius `r` is positive and `0` when it is zero, for every
`rawDistance` (non-negative or not); it never performs a division by zero (the
result is never the non-finite `none`). -/
theorem GetNormalizedPushDistance_spec {α : Type} [LinearOrderedField α]
    (Pushee Pusher : AActor α) (rawDistance : α) :
    (0 < Pushee.SimpleCollisionRadius + Pusher.SimpleCollisionRadius →
        GetNormalizedPushDistance Pushee Pusher rawDistance
          = some (rawDistance / (Pushee.SimpleCollisionRadius + Pusher.SimpleCollisionRadius)))
    ∧ (Pushee.SimpleCollisionRadius + Pusher.SimpleCollisionRadius = 0 →
        GetNormalizedPushDistance Pushee Pusher rawDistance = some 0)
    ∧ GetNormalizedPushDistance Pushee Pusher rawDistance ≠ none := by
  refine ⟨fun hr => ?_, fun hr => ?_, ?_⟩
  · simp [GetNormalizedPushDistance, SafeDivide, floatDiv, ne_of_gt hr]
  · simp [GetNormalizedPushDistance, SafeDivide, hr]
  · by_cases hr : Pushee.SimpleCollisionRadius + Pusher.SimpleCollisionRadius = 0
    · simp [GetNormalizedPushDistance, SafeDivide, hr]
    · simp [GetNormalizedPushDistance, SafeDivide, floatDiv, hr]

/-- Witness for C1: two actors of radius 34 at raw distance 17 give 17 / 68, and
two actors of radius 0 give 0. -/
theorem GetNormalizedPushDistance_spec_witness :
    GetNormalizedPushDistance (⟨⟨0, 0, 0⟩, ⟨0, 0, 0⟩, 34, ⟨1, 0, 0⟩⟩ : AActor ℚ)
        ⟨⟨17, 0, 0⟩, ⟨0, 0, 0⟩, 34, ⟨1, 0, 0⟩⟩ 17 = some (17 / (34 + 34))
    ∧ GetNormalizedPushDistance (⟨⟨0, 0, 0⟩, ⟨0, 0, 0⟩, 0, ⟨1, 0, 0⟩⟩ : AActor ℚ)
        ⟨⟨17, 0, 0⟩, ⟨0, 0, 0⟩, 0, ⟨1, 0, 0⟩⟩ 17 = some 0 :=
  ⟨(GetNormalizedPushDistance_spec (⟨⟨0, 0, 0⟩, ⟨0, 0, 0⟩, 34, ⟨1, 0, 0⟩⟩ : AActor ℚ)
      ⟨⟨17, 0, 0⟩, ⟨0, 0, 0⟩, 34, ⟨1, 0, 0⟩⟩ 17).1 (by norm_num),
   (GetNormalizedPushDistance_spec (⟨⟨0, 0, 0⟩, ⟨0, 0, 0⟩, 0, ⟨1, 0, 0⟩⟩ : AActor ℚ)
      ⟨⟨17, 0, 0⟩, ⟨0, 0, 0⟩, 0, ⟨1, 0, 0⟩⟩ 17).2.1 (by norm_num)⟩

/-- C2: `CalculatePushStrength` returns `strengthScalar` unchanged when
`overrideStrength` is set, whatever the curves, parameters and console
variables, and `GetPushStrength(...) * strengthScalar` when it is not. -/
theorem CalculatePushStrength_spec (CVars : FPushPawnCVars) (Pushee : APawn ℝ)
    (strengthScalar normalizedDistance : ℝ) (Params : FPushPawnActionParams ℝ) :
    CalculatePushStrength CVars Pushee true strengthScalar normalizedDistance Params
        = strengthScalar
    ∧ CalculatePushStrength CVars Pushee false strengthScalar normalizedDistance Params
        = GetPushStrength CVars Pushee normalizedDistance Params * strengthScalar := by
  constructor <;> simp [CalculatePushStrength]

/-- The ground speed of a pawn that has no movement component and moves at
600 units/s along X is 600. -/
theorem GetPawnGroundSpeed_of_600 :
    GetPawnGroundSpeed
      { ActorLocation := ⟨0, 0, 0⟩, ActorRotation := ⟨0, 0, 0⟩, SimpleCollisionRadius := 34,
        ActorForwardVector := ⟨1, 0, 0⟩, Velocity := ⟨600, 0, 0⟩,
        MovementComponent := none } = 600 := by
  show Real.sqrt ((600 : ℝ) * 600 + 0 * 0 + 0 * 0) = 600
  rw [show ((600 : ℝ) * 600 + 0 * 0 + 0 * 0) = 600 * 600 by norm_num]
  exact Real.sqrt_mul_self (by norm_num)

/-- C3: `GetPushStrength` equals `Params.StrengthScalar * V * D`, where `V` is
the velocity curve sampled at the pawn's ground speed when that curve is
configured and its toggle is enabled (1 otherwise) and `D` is the distance
curve sampled at the distance when that curve is configured and its toggle is
enabled (1 otherwise). With both curves absent the result is
`Params.StrengthScalar`. In the scenario (ground speed 600, velocity curve
`min (x / 600) 1`, no distance curve) the curve multiplier is 1, so the push
strength is the base scalar, the non-overridden resolved strength is
`base * 1 * strengthScalar`, and for base scalar 1 and `strengthScalar` 2 it
is 2. -/
theorem GetPushStrength_spec (CVars : FPushPawnCVars) (Pushee : APawn ℝ) (distance : ℝ)
    (Params : FPushPawnActionParams ℝ) :
    GetPushStrength CVars Pushee distance Params
        = Params.StrengthScalar
          * (match Params.VelocityToStrengthCurve with
              | some velocityCurve =>
                if CVars.bPushPawnVelocityStrengthScalarDisabled then 1
                else velocityCurve (GetPawnGroundSpeed Pushee)
              | none => 1)
          * (match Params.DistanceToStrengthCurve with
              | some distanceCurve =>
                if CVars.bPushPawnDistanceStrengthScalarDisabled then 1
                else distanceCurve distance
              | none => 1)
    ∧ (Params.VelocityToStrengthCurve = none → Params.DistanceToStrengthCurve = none →
        GetPushStrength CVars Pushee distance Params = Params.StrengthScalar)
    ∧ (GetPawnGroundSpeed Pushee = 600 →
        (∀ base : ℝ,
          GetPushStrength CVars Pushee distance ⟨base, some (fun x => min (x / 600) 1), none⟩
            = base * 1)
        ∧ (∀ base strengthScalar : ℝ,
          CalculatePushStrength CVars Pushee false strengthScalar distance
            ⟨base, some (fun x => min (x / 600) 1), none⟩ = base * 1 * strengthScalar)
        ∧ CalculatePushStrength CVars Pushee false 2 distance
            ⟨1, some (fun x => min (x / 600) 1), none⟩ = 2) := by
  obtain ⟨k, vc, dc⟩ := Params
  obtain ⟨bv, bd⟩ := CVars
  refine ⟨?_, ?_, ?_⟩
  · cases vc <;> cases dc <;> cases bv <;> cases bd <;> simp [GetPushStrength]
  · intro hv hd
    simp only at hv hd
    subst hv; subst hd
    simp [GetPushStrength]
  · intro hs
    refine ⟨?_, ?_, ?_⟩
    · intro base
      cases bv <;> simp [GetPushStrength, hs]
    · intro base strengthScalar
      cases bv <;> simp [CalculatePushStrength, GetPushStrength, hs]
    · cases bv <;> simp [CalculatePushStrength, GetPushStrength, hs]

/-- Witness for C3: a pawn moving at 600 units/s along X, default console
variables, normalized distance 1/2. -/
theorem GetPushStrength_spec_witness :
    (∀ base : ℝ,
      GetPushStrength ⟨false, false⟩
        { ActorLocation := ⟨0, 0, 0⟩, ActorRotation := ⟨0, 0, 0⟩, SimpleCollisionRadius := 34,
          ActorForwardVector := ⟨1, 0, 0⟩, Velocity := ⟨600, 0, 0⟩,
          MovementComponent := none } (1 / 2)
        ⟨base, some (fun x => min (x / 600) 1), none⟩ = base * 1)
    ∧ (∀ base strengthScalar : ℝ,
      CalculatePushStrength ⟨false, false⟩
        { ActorLocation := ⟨0, 0, 0⟩, ActorRotation := ⟨0, 0, 0⟩, SimpleCollisionRadius := 34,
          ActorForwardVector := ⟨1, 0, 0⟩, Velocity := ⟨600, 0, 0⟩,
          MovementComponent := none } false strengthScalar (1 / 2)
        ⟨base, some (fun x => min (x / 600) 1), none⟩ = base * 1 * strengthScalar)
    ∧ CalculatePushStrength ⟨false, false⟩
        { ActorLocation := ⟨0, 0, 0⟩, ActorRotation := ⟨0, 0, 0⟩, SimpleCollisionRadius := 34,
          ActorForwardVector := ⟨1, 0, 0⟩, Velocity := ⟨600, 0, 0⟩,
          MovementComponent := none } false 2 (1 / 2)
        ⟨1, some (fun x => min (x / 600) 1), none⟩ = 2 :=
  (GetPushStrength_spec ⟨false, false⟩
    { ActorLocation := ⟨0, 0, 0⟩, ActorRotation := ⟨0, 0, 0⟩, SimpleCollisionRadius := 34,
      ActorForwardVector := ⟨1, 0, 0⟩, Velocity := ⟨600, 0, 0⟩,
      MovementComponent := none } (1 / 2) ⟨1, none, none⟩).2.2 GetPawnGroundSpeed_of_600

/-- Square root of a sum of three squares given as products. -/
theorem sqrt_three_products (x y z : ℝ) :
    Real.sqrt (x * x + y * y + z * z) = Real.sqrt (x ^ 2 + y ^ 2 + z ^ 2) := by
  congr 1; ring

/-- Square root of a sum of two squares given as products, the third being 0. -/
theorem sqrt_two_products (x y : ℝ) :
    Real.sqrt (x * x + y * y + 0 * 0) = Real.sqrt (x ^ 2 + y ^ 2) := by
  congr 1; ring

/-- C4 (counterexample): a pawn moving on the ground with velocity (3, 4, 12)
has ground speed 13, the full 3D speed, and not the horizontal-only speed 5;
the same pawn in the air has ground speed 5, the horizontal-only speed, and not
the full 3D speed 13. -/
theorem GroundSpeed_claim_counterexample :
    (IsPawnMovingOnGround (InclinePawn : APawn ℝ) = true
      ∧ GetPawnGroundSpeed InclinePawn = 13
      ∧ Real.sqrt ((InclinePawn : APawn ℝ).Velocity.X ^ 2 + (InclinePawn : APawn ℝ).Velocity.Y ^ 2)
          = 5
      ∧ GetPawnGroundSpeed InclinePawn
          ≠ Real.sqrt ((InclinePawn : APawn ℝ).Velocity.X ^ 2
              + (InclinePawn : APawn ℝ).Velocity.Y ^ 2))
    ∧ (IsPawnMovingOnGround (AirbornePawn : APawn ℝ) = false
      ∧ GetPawnGroundSpeed AirbornePawn = 5
      ∧ Real.sqrt ((AirbornePawn : APawn ℝ).Velocity.X ^ 2 + (AirbornePawn : APawn ℝ).Velocity.Y ^ 2
          + (AirbornePawn : APawn ℝ).Velocity.Z ^ 2) = 13
      ∧ GetPawnGroundSpeed AirbornePawn
          ≠ Real.sqrt ((AirbornePawn : APawn ℝ).Velocity.X ^ 2
              + (AirbornePawn : APawn ℝ).Velocity.Y ^ 2
              + (AirbornePawn : APawn ℝ).Velocity.Z ^ 2)) := by
  have h13 : Real.sqrt ((3 : ℝ) * 3 + 4 * 4 + 12 * 12) = 13 := by
    rw [show ((3 : ℝ) * 3 + 4 * 4 + 12 * 12) = 13 * 13 by norm_num]
    exact Real.sqrt_mul_self (by norm_num)
  have h5 : Real.sqrt ((3 : ℝ) * 3 + 4 * 4 + 0 * 0) = 5 := by
    rw [show ((3 : ℝ) * 3 + 4 * 4 + 0 * 0) = 5 * 5 by norm_num]
    exact Real.sqrt_mul_self (by norm_num)
  have g13 : GetPawnGroundSpeed (InclinePawn : APawn ℝ) = 13 := h13
  have g5 : GetPawnGroundSpeed (AirbornePawn : APawn ℝ) = 5 := h5
  have s5 : Real.sqrt ((3 : ℝ) ^ 2 + 4 ^ 2) = 5 := by
    rw [← sqrt_two_products]; exact h5
  have s13 : Real.sqrt ((3 : ℝ) ^ 2 + 4 ^ 2 + 12 ^ 2) = 13 := by
    rw [← sqrt_three_products]; exact h13
  refine ⟨⟨rfl, g13, s5, ?_⟩, ⟨rfl, g5, s13, ?_⟩⟩
  · rw [g13]
    show (13 : ℝ) ≠ Real.sqrt ((3 : ℝ) ^ 2 + 4 ^ 2)
    rw [s5]; norm_num
  · rw [g5]
    show (5 : ℝ) ≠ Real.sqrt ((3 : ℝ) ^ 2 + 4 ^ 2 + 12 ^ 2)
    rw [s13]; norm_num

/-- C4 (amended): the ground speed is the full 3D speed
`sqrt (vx^2 + vy^2 + vz^2)` when the pawn (or pushee) is moving on the ground,
and the horizontal-only speed `sqrt (vx^2 + vy^2)` otherwise. -/
theorem GroundSpeed_spec (Pawn : APawn ℝ) (Pushee : IPusheeInstigator ℝ) :
    (IsPawnMovingOnGround Pawn = true →
      GetPawnGroundSpeed Pawn
        = Real.sqrt (Pawn.Velocity.X ^ 2 + Pawn.Velocity.Y ^ 2 + Pawn.Velocity.Z ^ 2))
    ∧ (IsPawnMovingOnGround Pawn = false →
      GetPawnGroundSpeed Pawn = Real.sqrt (Pawn.Velocity.X ^ 2 + Pawn.Velocity.Y ^ 2))
    ∧ (IsPusheeMovingOnGround Pushee = true →
      GetPusheeGroundSpeed Pushee
        = Real.sqrt (Pushee.PusheeVelocity.X ^ 2 + Pushee.PusheeVelocity.Y ^ 2
            + Pushee.PusheeVelocity.Z ^ 2))
    ∧ (IsPusheeMovingOnGround Pushee = false →
      GetPusheeGroundSpeed Pushee
        = Real.sqrt (Pushee.PusheeVelocity.X ^ 2 + Pushee.PusheeVelocity.Y ^ 2)) := by
  refine ⟨fun h => ?_, fun h => ?_, fun h => ?_, fun h => ?_⟩
  · simp only [GetPawnGroundSpeed, GetPawnGroundVelocity, h, if_true, FVector.Size]
    exact sqrt_three_products _ _ _
  · simp only [GetPawnGroundSpeed, GetPawnGroundVelocity, h, FVector.Size]
    exact sqrt_two_products _ _
  · simp only [IsPusheeMovingOnGround] at h
    simp only [GetPusheeGroundSpeed, GetPusheeGroundVelocity, h, if_true, FVector.Size]
    exact sqrt_three_products _ _ _
  · simp only [IsPusheeMovingOnGround] at h
    simp only [GetPusheeGroundSpeed, GetPusheeGroundVelocity, h, FVector.Size]
    exact sqrt_two_products _ _

/-- Witness for C4 (amended): the pawn on the incline and the pushee on the
incline get the full 3D speed, the airborne pawn the horizontal-only speed. -/
theorem GroundSpeed_spec_witness :
    GetPawnGroundSpeed (InclinePawn : APawn ℝ)
        = Real.sqrt ((InclinePawn : APawn ℝ).Velocity.X ^ 2 + (InclinePawn : APawn ℝ).Velocity.Y ^ 2
            + (InclinePawn : APawn ℝ).Velocity.Z ^ 2)
    ∧ GetPawnGroundSpeed (AirbornePawn : APawn ℝ)
        = Real.sqrt ((AirbornePawn : APawn ℝ).Velocity.X ^ 2
            + (AirbornePawn : APawn ℝ).Velocity.Y ^ 2)
    ∧ GetPusheeGroundSpeed (InclinePushee : IPusheeInstigator ℝ)
        = Real.sqrt ((InclinePushee : IPusheeInstigator ℝ).PusheeVelocity.X ^ 2
            + (InclinePushee : IPusheeInstigator ℝ).PusheeVelocity.Y ^ 2
            + (InclinePushee : IPusheeInstigator ℝ).PusheeVelocity.Z ^ 2) :=
  ⟨(GroundSpeed_spec InclinePawn InclinePushee).1 rfl,
   (GroundSpeed_spec AirbornePawn InclinePushee).2.1 rfl,
   (GroundSpeed_spec InclinePawn InclinePushee).2.2.1 rfl⟩

/-! ### Direction classifier: engine arithmetic -/

/-- The clamp inside `FMath::Acos` does not change the arc cosine. -/
theorem FMath.Acos_eq_arccos (x : ℝ) : FMath.Acos x = Real.arccos x := by
  unfold FMath.Acos
  split_ifs with h1 h2
  · rw [Real.arccos_neg_one, Real.arccos_of_le_neg_one h1.le]
  · rfl
  · rw [Real.arccos_one, Real.arccos_of_one_le (not_lt.mp h2)]

/-- An arc cosine converted to degrees is at least 0. -/
theorem RadiansToDegrees_Acos_nonneg (x : ℝ) : 0 ≤ FMath.RadiansToDegrees (FMath.Acos x) := by
  rw [FMath.Acos_eq_arccos]
  unfold FMath.RadiansToDegrees
  exact mul_nonneg (Real.arccos_nonneg x) (div_nonneg (by norm_num) Real.pi_pos.le)

/-- An arc cosine converted to degrees is at most 180. -/
theorem RadiansToDegrees_Acos_le (x : ℝ) : FMath.RadiansToDegrees (FMath.Acos x) ≤ 180 := by
  rw [FMath.Acos_eq_arccos]
  unfold FMath.RadiansToDegrees
  have hpi : 0 < Real.pi := Real.pi_pos
  have h : Real.arccos x * (180 / Real.pi) ≤ Real.pi * (180 / Real.pi) :=
    mul_le_mul_of_nonneg_right (Real.arccos_le_pi x) (div_nonneg (by norm_num) hpi.le)
  have e : Real.pi * (180 / Real.pi) = 180 := by field_simp
  linarith

/-- The value of `CalculatePushDirection` on a direction that is not nearly
zero, with the two dot products named. -/
theorem CalculatePushDirection_of_not_nearlyZero (Direction : FVector ℝ)
    (BaseRotation : FRotator ℝ)
    (h : Direction.IsNearlyZero UE_KINDA_SMALL_NUMBER = false) :
    CalculatePushDirection Direction BaseRotation
      = if FVector.DotProduct (FRotationMatrix BaseRotation).YAxis
            (Direction.GetSafeNormal2D UE_SMALL_NUMBER) < 0
        then FMath.RadiansToDegrees (FMath.Acos
              (FVector.DotProduct (FRotationMatrix BaseRotation).XAxis
                (Direction.GetSafeNormal2D UE_SMALL_NUMBER))) * (-1)
        else FMath.RadiansToDegrees (FMath.Acos
              (FVector.DotProduct (FRotationMatrix BaseRotation).XAxis
                (Direction.GetSafeNormal2D UE_SMALL_NUMBER))) := by
  unfold CalculatePushDirection
  simp only [h, Bool.not_false, if_true]

/-- C8: `CalculatePushDirection` returns a value in `[-180, 180]`. It is 0 when
the direction is nearly zero; otherwise its magnitude is the arc cosine, in
degrees, of the dot product of the forward axis with the normalized horizontal
direction, and the value is the negated magnitude when the dot product of the
right axis with the normalized horizontal direction is below 0 and the
magnitude itself when it is not. -/
theorem CalculatePushDirection_spec (Direction : FVector ℝ) (BaseRotation : FRotator ℝ) :
    (-180 ≤ CalculatePushDirection Direction BaseRotation
      ∧ CalculatePushDirection Direction BaseRotation ≤ 180)
    ∧ (Direction.IsNearlyZero UE_KINDA_SMALL_NUMBER = true →
        CalculatePushDirection Direction BaseRotation = 0)
    ∧ (Direction.IsNearlyZero UE_KINDA_SMALL_NUMBER = false →
        |CalculatePushDirection Direction BaseRotation|
            = Real.arccos (FVector.DotProduct (FRotationMatrix BaseRotation).XAxis
                (Direction.GetSafeNormal2D UE_SMALL_NUMBER)) * (180 / Real.pi)
        ∧ (FVector.DotProduct (FRotationMatrix BaseRotation).YAxis
              (Direction.GetSafeNormal2D UE_SMALL_NUMBER) < 0 →
            CalculatePushDirection Direction BaseRotation
              = -(Real.arccos (FVector.DotProduct (FRotationMatrix BaseRotation).XAxis
                  (Direction.GetSafeNormal2D UE_SMALL_NUMBER)) * (180 / Real.pi)))
        ∧ (¬ FVector.DotProduct (FRotationMatrix BaseRotation).YAxis
              (Direction.GetSafeNormal2D UE_SMALL_NUMBER) < 0 →
            CalculatePushDirection Direction BaseRotation
              = Real.arccos (FVector.DotProduct (FRotationMatrix BaseRotation).XAxis
                  (Direction.GetSafeNormal2D UE_SMALL_NUMBER)) * (180 / Real.pi))) := by
  have hz : Direction.IsNearlyZero UE_KINDA_SMALL_NUMBER = true →
      CalculatePushDirection Direction BaseRotation = 0 := by
    intro h
    unfold CalculatePushDirection
    simp only [h, Bool.not_true]
    rfl
  have key := CalculatePushDirection_of_not_nearlyZero Direction BaseRotation
  have hn := RadiansToDegrees_Acos_nonneg
    (FVector.DotProduct (FRotationMatrix BaseRotation).XAxis
      (Direction.GetSafeNormal2D UE_SMALL_NUMBER))
  have hl := RadiansToDegrees_Acos_le
    (FVector.DotProduct (FRotationMatrix BaseRotation).XAxis
      (Direction.GetSafeNormal2D UE_SMALL_NUMBER))
  have hdeg : FMath.RadiansToDegrees (FMath.Acos
      (FVector.DotProduct (FRotationMatrix BaseRotation).XAxis
        (Direction.GetSafeNormal2D UE_SMALL_NUMBER)))
      = Real.arccos (FVector.DotProduct (FRotationMatrix BaseRotation).XAxis
        (Direction.GetSafeNormal2D UE_SMALL_NUMBER)) * (180 / Real.pi) := by
    rw [FMath.Acos_eq_arccos]; rfl
  refine ⟨?_, hz, ?_⟩
  · cases h : Direction.IsNearlyZero UE_KINDA_SMALL_NUMBER with
    | true => rw [hz h]; constructor <;> norm_num
    | false =>
      rw [key h]
      split_ifs <;> constructor <;> linarith
  · intro h
    rw [key h, ← hdeg]
    refine ⟨?_, fun hr => ?_, fun hr => ?_⟩
    · split_ifs
      · rw [mul_neg_one, abs_neg, abs_of_nonneg hn]
      · exact abs_of_nonneg hn
    · rw [if_pos hr]; ring
    · rw [if_neg hr]

/-- A vector whose planar part has unit length is not nearly zero. -/
theorem IsNearlyZero_of_planar_unit (x y z : ℝ) (h : x * x + y * y = 1) :
    (⟨x, y, z⟩ : FVector ℝ).IsNearlyZero UE_KINDA_SMALL_NUMBER = false := by
  simp only [FVector.IsNearlyZero, UE_KINDA_SMALL_NUMBER, Bool.and_eq_false_imp,
    Bool.and_eq_true, decide_eq_true_eq, decide_eq_false_iff_not, not_le]
  rintro ⟨hx, hy⟩
  exfalso
  rw [abs_le] at hx hy
  nlinarith [hx.1, hx.2, hy.1, hy.2]

/-- A planar vector of unit length is its own planar safe normal. -/
theorem GetSafeNormal2D_of_planar_unit (x y : ℝ) (h : x * x + y * y = 1) :
    (⟨x, y, 0⟩ : FVector ℝ).GetSafeNormal2D UE_SMALL_NUMBER = ⟨x, y, 0⟩ := by
  simp only [FVector.GetSafeNormal2D, h, if_true]

/-- The forward and right axes of the rotation matrix of the zero rotator. -/
theorem FRotationMatrix_zero :
    (FRotationMatrix ⟨0, 0, 0⟩).XAxis = ⟨1, 0, 0⟩
    ∧ (FRotationMatrix ⟨0, 0, 0⟩).YAxis = ⟨0, 1, 0⟩ := by
  simp [FRotationMatrix, FMath.DegreesToRadians]

/-- The signed angle of a planar unit direction `(x, y, 0)` against the zero
rotator: the arc cosine of `x` in degrees, negated when `y < 0`. -/
theorem CalculatePushDirection_planar_unit (x y : ℝ) (h : x * x + y * y = 1) :
    CalculatePushDirection ⟨x, y, 0⟩ ⟨0, 0, 0⟩
      = if y < 0 then -(Real.arccos x * (180 / Real.pi))
        else Real.arccos x * (180 / Real.pi) := by
  rw [CalculatePushDirection_of_not_nearlyZero _ _ (IsNearlyZero_of_planar_unit x y 0 h),
    GetSafeNormal2D_of_planar_unit x y h, FRotationMatrix_zero.1, FRotationMatrix_zero.2]
  simp only [FVector.DotProduct, FMath.Acos_eq_arccos, FMath.RadiansToDegrees]
  simp only [one_mul, zero_mul, mul_zero, add_zero, zero_add, mul_neg, mul_one]

/-- Signed angle of the direction straight ahead: 0 degrees. -/
theorem CalculatePushDirection_ahead : CalculatePushDirection ⟨1, 0, 0⟩ ⟨0, 0, 0⟩ = 0 := by
  rw [CalculatePushDirection_planar_unit 1 0 (by norm_num)]
  simp [Real.arccos_one]

/-- Signed angle of the direction to the right: 90 degrees. -/
theorem CalculatePushDirection_right : CalculatePushDirection ⟨0, 1, 0⟩ ⟨0, 0, 0⟩ = 90 := by
  rw [CalculatePushDirection_planar_unit 0 1 (by norm_num)]
  have hpi : Real.pi ≠ 0 := Real.pi_ne_zero
  rw [if_neg (by norm_num), Real.arccos_zero]
  field_simp
  ring

/-- Signed angle of the direction to the left: -90 degrees. -/
theorem CalculatePushDirection_left : CalculatePushDirection ⟨0, -1, 0⟩ ⟨0, 0, 0⟩ = -90 := by
  rw [CalculatePushDirection_planar_unit 0 (-1) (by norm_num)]
  have hpi : Real.pi ≠ 0 := Real.pi_ne_zero
  rw [if_pos (by norm_num), Real.arccos_zero]
  field_simp
  ring

/-- Signed angle of the direction straight behind: 180 degrees. -/
theorem CalculatePushDirection_behind : CalculatePushDirection ⟨-1, 0, 0⟩ ⟨0, 0, 0⟩ = 180 := by
  rw [CalculatePushDirection_planar_unit (-1) 0 (by norm_num)]
  have hpi : Real.pi ≠ 0 := Real.pi_ne_zero
  rw [if_neg (by norm_num), Real.arccos_neg_one]
  field_simp

/-- Witness for C8: the zero direction gives 0, and the direction to the left
of an unrotated base gives the negated arc cosine. -/
theorem CalculatePushDirection_spec_witness :
    CalculatePushDirection ⟨0, 0, 0⟩ ⟨0, 0, 0⟩ = 0
    ∧ CalculatePushDirection ⟨0, -1, 0⟩ ⟨0, 0, 0⟩
        = -(Real.arccos (FVector.DotProduct (FRotationMatrix ⟨0, 0, 0⟩).XAxis
            ((⟨0, -1, 0⟩ : FVector ℝ).GetSafeNormal2D UE_SMALL_NUMBER)) * (180 / Real.pi)) :=
  ⟨(CalculatePushDirection_spec ⟨0, 0, 0⟩ ⟨0, 0, 0⟩).2.1
      (by simp [FVector.IsNearlyZero, UE_KINDA_SMALL_NUMBER]),
   ((CalculatePushDirection_spec ⟨0, -1, 0⟩ ⟨0, 0, 0⟩).2.2
      (IsNearlyZero_of_planar_unit 0 (-1) 0 (by norm_num))).2.1
      (by rw [GetSafeNormal2D_of_planar_unit 0 (-1) (by norm_num), FRotationMatrix_zero.2]
          norm_num [FVector.DotProduct])⟩

/-! ### Direction classifier: the cardinal buckets -/

/-- The planar offset from an unrotated actor at the origin to an actor at a
planar unit position is that position. -/
theorem planar_offset_of_unit (x y : ℝ) (h : x * x + y * y = 1) :
    ((ActorAt x y 0).ActorLocation.sub (ActorAt (0 : ℝ) 0 0).ActorLocation).GetSafeNormal2D
      UE_SMALL_NUMBER = ⟨x, y, 0⟩ := by
  simp only [ActorAt, FVector.sub, sub_zero]
  exact GetSafeNormal2D_of_planar_unit x y h

/-- The result of `GetPushDirection_4Way` once the planar offset is known not
to be nearly zero. -/
theorem GetPushDirection_4Way_of_valid (FromActor ToActor : AActor ℝ) (a : ℝ)
    (hvalid : ((FromActor.ActorLocation.sub ToActor.ActorLocation).GetSafeNormal2D
      UE_SMALL_NUMBER).IsNearlyZero UE_KINDA_SMALL_NUMBER = false)
    (ha : a = CalculatePushDirection
      ((FromActor.ActorLocation.sub ToActor.ActorLocation).GetSafeNormal2D UE_SMALL_NUMBER)
      ToActor.ActorRotation) :
    GetPushDirection_4Way FromActor ToActor
      = if 45 ≤ |a| ∧ |a| ≤ 135 then
          (if 0 < a then EPushCardinal_4Way.Right else EPushCardinal_4Way.Left,
            EValidPushDirection.ValidDirection)
        else if |a| ≤ 45 then
          (EPushCardinal_4Way.Forward, EValidPushDirection.ValidDirection)
        else (EPushCardinal_4Way.Backward, EValidPushDirection.ValidDirection) := by
  unfold GetPushDirection_4Way
  simp only [hvalid, Bool.false_eq_true, if_false, ← ha, FMath.Abs, ge_iff_le, gt_iff_lt]

/-- C5: for an actor pair whose planar offset is not nearly zero, with `a` the
signed angle from `CalculatePushDirection`, `GetPushDirection_4Way` returns
Forward when `|a| < 45`, Right when `45 < |a| < 135` and `a > 0`, Left when
`45 < |a| < 135` and `a < 0`, Backward when `|a| > 135`; in particular
0 gives Forward, 90 Right, -90 Left and 180 Backward. -/
theorem GetPushDirection_4Way_spec (FromActor ToActor : AActor ℝ) (a : ℝ)
    (hvalid : ((FromActor.ActorLocation.sub ToActor.ActorLocation).GetSafeNormal2D
      UE_SMALL_NUMBER).IsNearlyZero UE_KINDA_SMALL_NUMBER = false)
    (ha : a = CalculatePushDirection
      ((FromActor.ActorLocation.sub ToActor.ActorLocation).GetSafeNormal2D UE_SMALL_NUMBER)
      ToActor.ActorRotation) :
    (|a| < 45 → (GetPushDirection_4Way FromActor ToActor).1 = EPushCardinal_4Way.Forward)
    ∧ (45 < |a| → |a| < 135 → 0 < a →
        (GetPushDirection_4Way FromActor ToActor).1 = EPushCardinal_4Way.Right)
    ∧ (45 < |a| → |a| < 135 → a < 0 →
        (GetPushDirection_4Way FromActor ToActor).1 = EPushCardinal_4Way.Left)
    ∧ (135 < |a| → (GetPushDirection_4Way FromActor ToActor).1 = EPushCardinal_4Way.Backward)
    ∧ (a = 0 → (GetPushDirection_4Way FromActor ToActor).1 = EPushCardinal_4Way.Forward)
    ∧ (a = 90 → (GetPushDirection_4Way FromActor ToActor).1 = EPushCardinal_4Way.Right)
    ∧ (a = -90 → (GetPushDirection_4Way FromActor ToActor).1 = EPushCardinal_4Way.Left)
    ∧ (a = 180 → (GetPushDirection_4Way FromActor ToActor).1 = EPushCardinal_4Way.Backward) := by
  rw [GetPushDirection_4Way_of_valid FromActor ToActor a hvalid ha]
  have hF : |a| < 45 → (if 45 ≤ |a| ∧ |a| ≤ 135 then
          (if 0 < a then EPushCardinal_4Way.Right else EPushCardinal_4Way.Left,
            EValidPushDirection.ValidDirection)
        else if |a| ≤ 45 then
          (EPushCardinal_4Way.Forward, EValidPushDirection.ValidDirection)
        else (EPushCardinal_4Way.Backward, EValidPushDirection.ValidDirection)).1
        = EPushCardinal_4Way.Forward := by
    intro h
    rw [if_neg (by rintro ⟨h1, _⟩; linarith), if_pos h.le]
  have hR : 45 < |a| → |a| < 135 → 0 < a → (if 45 ≤ |a| ∧ |a| ≤ 135 then
          (if 0 < a then EPushCardinal_4Way.Right else EPushCardinal_4Way.Left,
            EValidPushDirection.ValidDirection)
        else if |a| ≤ 45 then
          (EPushCardinal_4Way.Forward, EValidPushDirection.ValidDirection)
        else (EPushCardinal_4Way.Backward, EValidPushDirection.ValidDirection)).1
        = EPushCardinal_4Way.Right := by
    intro h1 h2 h3
    rw [if_pos ⟨h1.le, h2.le⟩, if_pos h3]
  have hL : 45 < |a| → |a| < 135 → a < 0 → (if 45 ≤ |a| ∧ |a| ≤ 135 then
          (if 0 < a then EPushCardinal_4Way.Right else EPushCardinal_4Way.Left,
            EValidPushDirection.ValidDirection)
        else if |a| ≤ 45 then
          (EPushCardinal_4Way.Forward, EValidPushDirection.ValidDirection)
        else (EPushCardinal_4Way.Backward, EValidPushDirection.ValidDirection)).1
        = EPushCardinal_4Way.Left := by
    intro h1 h2 h3
    rw [if_pos ⟨h1.le, h2.le⟩, if_neg (not_lt.mpr h3.le)]
  have hB : 135 < |a| → (if 45 ≤ |a| ∧ |a| ≤ 135 then
          (if 0 < a then EPushCardinal_4Way.Right else EPushCardinal_4Way.Left,
            EValidPushDirection.ValidDirection)
        else if |a| ≤ 45 then
          (EPushCardinal_4Way.Forward, EValidPushDirection.ValidDirection)
        else (EPushCardinal_4Way.Backward, EValidPushDirection.ValidDirection)).1
        = EPushCardinal_4Way.Backward := by
    intro h
    rw [if_neg (by rintro ⟨_, h2⟩; linarith), if_neg (by linarith)]
  refine ⟨hF, hR, hL, hB, fun h => hF ?_, fun h => hR ?_ ?_ ?_, fun h => hL ?_ ?_ ?_,
    fun h => hB ?_⟩ <;> rw [h] <;> norm_num

/-- Witness for C5: with an unrotated actor at the origin, an actor straight
ahead is classified Forward, one to the right Right, one to the left Left and
one straight behind Backward. -/
theorem GetPushDirection_4Way_spec_witness :
    (GetPushDirection_4Way (ActorAt 1 0 0) (ActorAt 0 0 0)).1 = EPushCardinal_4Way.Forward
    ∧ (GetPushDirection_4Way (ActorAt 0 1 0) (ActorAt 0 0 0)).1 = EPushCardinal_4Way.Right
    ∧ (GetPushDirection_4Way (ActorAt 0 (-1) 0) (ActorAt 0 0 0)).1 = EPushCardinal_4Way.Left
    ∧ (GetPushDirection_4Way (ActorAt (-1) 0 0) (ActorAt 0 0 0)).1
        = EPushCardinal_4Way.Backward :=
  ⟨(GetPushDirection_4Way_spec (ActorAt 1 0 0) (ActorAt 0 0 0) 0
      (by rw [planar_offset_of_unit 1 0 (by norm_num)]
          exact IsNearlyZero_of_planar_unit 1 0 0 (by norm_num))
      (by rw [planar_offset_of_unit 1 0 (by norm_num)]
          exact CalculatePushDirection_ahead.symm)).2.2.2.2.1 rfl,
   (GetPushDirection_4Way_spec (ActorAt 0 1 0) (ActorAt 0 0 0) 90
      (by rw [planar_offset_of_unit 0 1 (by norm_num)]
          exact IsNearlyZero_of_planar_unit 0 1 0 (by norm_num))
      (by rw [planar_offset_of_unit 0 1 (by norm_num)]
          exact CalculatePushDirection_right.symm)).2.2.2.2.2.1 rfl,
   (GetPushDirection_4Way_spec (ActorAt 0 (-1) 0) (ActorAt 0 0 0) (-90)
      (by rw [planar_offset_of_unit 0 (-1) (by norm_num)]
          exact IsNearlyZero_of_planar_unit 0 (-1) 0 (by norm_num))
      (by rw [planar_offset_of_unit 0 (-1) (by norm_num)]
          exact CalculatePushDirection_left.symm)).2.2.2.2.2.2.1 rfl,
   (GetPushDirection_4Way_spec (ActorAt (-1) 0 0) (ActorAt 0 0 0) 180
      (by rw [planar_offset_of_unit (-1) 0 (by norm_num)]
          exact IsNearlyZero_of_planar_unit (-1) 0 0 (by norm_num))
      (by rw [planar_offset_of_unit (-1) 0 (by norm_num)]
          exact CalculatePushDirection_behind.symm)).2.2.2.2.2.2.2 rfl⟩

/-- The result of `GetPushDirection_8Way` once the planar offset is known not
to be nearly zero. -/
theorem GetPushDirection_8Way_of_valid (FromActor ToActor : AActor ℝ) (a : ℝ)
    (hvalid : ((FromActor.ActorLocation.sub ToActor.ActorLocation).GetSafeNormal2D
      UE_SMALL_NUMBER).IsNearlyZero UE_KINDA_SMALL_NUMBER = false)
    (ha : a = CalculatePushDirection
      ((FromActor.ActorLocation.sub ToActor.ActorLocation).GetSafeNormal2D UE_SMALL_NUMBER)
      ToActor.ActorRotation) :
    GetPushDirection_8Way FromActor ToActor
      = if 67.5 ≤ |a| ∧ |a| ≤ 112.5 then
          (if 0 < a then EPushCardinal_8Way.Right else EPushCardinal_8Way.Left,
            EValidPushDirection.ValidDirection)
        else if |a| ≤ 22.5 then
          (EPushCardinal_8Way.Forward, EValidPushDirection.ValidDirection)
        else if 157.5 ≤ |a| then
          (EPushCardinal_8Way.Backward, EValidPushDirection.ValidDirection)
        else if |a| ≤ 67.5 then
          (if 0 < a then EPushCardinal_8Way.ForwardRight else EPushCardinal_8Way.ForwardLeft,
            EValidPushDirection.ValidDirection)
        else if 112.5 ≤ |a| then
          (if 0 < a then EPushCardinal_8Way.BackwardRight
            else EPushCardinal_8Way.BackwardLeft,
            EValidPushDirection.ValidDirection)
        else (EPushCardinal_8Way.Forward, EValidPushDirection.ValidDirection) := by
  unfold GetPushDirection_8Way
  simp only [hvalid, Bool.false_eq_true, if_false, ← ha, FMath.Abs, ge_iff_le, gt_iff_lt]

/-- The value √2 / 2 squared twice over sums to 1. -/
theorem half_sqrt_two_unit :
    (Real.sqrt 2 / 2) * (Real.sqrt 2 / 2) + (Real.sqrt 2 / 2) * (Real.sqrt 2 / 2) = 1 := by
  have h : Real.sqrt 2 * Real.sqrt 2 = 2 := Real.mul_self_sqrt (by norm_num)
  nlinarith [h]

/-- The value √2 / 2 and its negation, squared, sum to 1. -/
theorem half_sqrt_two_unit_neg :
    (Real.sqrt 2 / 2) * (Real.sqrt 2 / 2) + (-(Real.sqrt 2 / 2)) * (-(Real.sqrt 2 / 2)) = 1 := by
  have h : Real.sqrt 2 * Real.sqrt 2 = 2 := Real.mul_self_sqrt (by norm_num)
  nlinarith [h]

/-- The arc cosine of √2 / 2 is 45 degrees. -/
theorem arccos_half_sqrt_two_degrees : Real.arccos (Real.sqrt 2 / 2) * (180 / Real.pi) = 45 := by
  have hpi : Real.pi ≠ 0 := Real.pi_ne_zero
  have hpos : 0 < Real.pi := Real.pi_pos
  rw [← Real.cos_pi_div_four, Real.arccos_cos (by positivity) (by linarith)]
  field_simp
  ring

/-- Signed angle of the diagonal direction ahead and to the right: 45 degrees. -/
theorem CalculatePushDirection_diag_right :
    CalculatePushDirection ⟨Real.sqrt 2 / 2, Real.sqrt 2 / 2, 0⟩ ⟨0, 0, 0⟩ = 45 := by
  rw [CalculatePushDirection_planar_unit _ _ half_sqrt_two_unit,
    if_neg (not_lt.mpr (by positivity)), arccos_half_sqrt_two_degrees]

/-- Signed angle of the diagonal direction ahead and to the left: -45 degrees. -/
theorem CalculatePushDirection_diag_left :
    CalculatePushDirection ⟨Real.sqrt 2 / 2, -(Real.sqrt 2 / 2), 0⟩ ⟨0, 0, 0⟩ = -45 := by
  have hs : 0 < Real.sqrt 2 / 2 := by positivity
  rw [CalculatePushDirection_planar_unit _ _ half_sqrt_two_unit_neg,
    if_pos (by linarith), arccos_half_sqrt_two_degrees]

/-- The inverse square root of 2 is √2 / 2. -/
theorem InvSqrt_two : FMath.InvSqrt ((1 : ℝ) * 1 + 1 * 1) = Real.sqrt 2 / 2 := by
  have h : Real.sqrt 2 * Real.sqrt 2 = 2 := Real.mul_self_sqrt (by norm_num)
  have hne : Real.sqrt 2 ≠ 0 := by
    intro h0
    rw [h0] at h
    norm_num at h
  unfold FMath.InvSqrt
  rw [show ((1 : ℝ) * 1 + 1 * 1) = 2 by norm_num]
  field_simp

/-- The planar offset from the origin to the actor at (1, 1, 0). -/
theorem planar_offset_diag_right :
    ((ActorAt (1 : ℝ) 1 0).ActorLocation.sub (ActorAt (0 : ℝ) 0 0).ActorLocation).GetSafeNormal2D
      UE_SMALL_NUMBER = ⟨Real.sqrt 2 / 2, Real.sqrt 2 / 2, 0⟩ := by
  simp only [ActorAt, FVector.sub, sub_zero, FVector.GetSafeNormal2D]
  rw [if_neg (by norm_num), if_neg (by norm_num [UE_SMALL_NUMBER]), InvSqrt_two]
  simp only [one_mul]

/-- The planar offset from the origin to the actor at (1, -1, 0). -/
theorem planar_offset_diag_left :
    ((ActorAt (1 : ℝ) (-1) 0).ActorLocation.sub
      (ActorAt (0 : ℝ) 0 0).ActorLocation).GetSafeNormal2D
      UE_SMALL_NUMBER = ⟨Real.sqrt 2 / 2, -(Real.sqrt 2 / 2), 0⟩ := by
  simp only [ActorAt, FVector.sub, sub_zero, FVector.GetSafeNormal2D]
  rw [if_neg (by norm_num), if_neg (by norm_num [UE_SMALL_NUMBER]),
    show ((1 : ℝ) * 1 + (-1) * (-1)) = 1 * 1 + 1 * 1 by norm_num, InvSqrt_two]
  simp only [one_mul, neg_mul]

/-- C6: for an actor pair whose planar offset is not nearly zero, with `a` the
signed angle from `CalculatePushDirection`, `GetPushDirection_8Way` returns
Forward when `|a| < 22.5`; ForwardRight (`a > 0`) or ForwardLeft (`a < 0`)
when `22.5 < |a| < 67.5`; Right or Left when `67.5 < |a| < 112.5`;
BackwardRight or BackwardLeft when `112.5 < |a| < 157.5`; Backward when
`|a| > 157.5`; in particular 45 gives ForwardRight, -45 ForwardLeft and 0
Forward. -/
theorem GetPushDirection_8Way_spec (FromActor ToActor : AActor ℝ) (a : ℝ)
    (hvalid : ((FromActor.ActorLocation.sub ToActor.ActorLocation).GetSafeNormal2D
      UE_SMALL_NUMBER).IsNearlyZero UE_KINDA_SMALL_NUMBER = false)
    (ha : a = CalculatePushDirection
      ((FromActor.ActorLocation.sub ToActor.ActorLocation).GetSafeNormal2D UE_SMALL_NUMBER)
      ToActor.ActorRotation) :
    (|a| < 22.5 → (GetPushDirection_8Way FromActor ToActor).1 = EPushCardinal_8Way.Forward)
    ∧ (22.5 < |a| → |a| < 67.5 → 0 < a →
        (GetPushDirection_8Way FromActor ToActor).1 = EPushCardinal_8Way.ForwardRight)
    ∧ (22.5 < |a| → |a| < 67.5 → a < 0 →
        (GetPushDirection_8Way FromActor ToActor).1 = EPushCardinal_8Way.ForwardLeft)
    ∧ (67.5 < |a| → |a| < 112.5 → 0 < a →
        (GetPushDirection_8Way FromActor ToActor).1 = EPushCardinal_8Way.Right)
    ∧ (67.5 < |a| → |a| < 112.5 → a < 0 →
        (GetPushDirection_8Way FromActor ToActor).1 = EPushCardinal_8Way.Left)
    ∧ (112.5 < |a| → |a| < 157.5 → 0 < a →
        (GetPushDirection_8Way FromActor ToActor).1 = EPushCardinal_8Way.BackwardRight)
    ∧ (112.5 < |a| → |a| < 157.5 → a < 0 →
        (GetPushDirection_8Way FromActor ToActor).1 = EPushCardinal_8Way.BackwardLeft)
    ∧ (157.5 < |a| → (GetPushDirection_8Way FromActor ToActor).1 = EPushCardinal_8Way.Backward)
    ∧ (a = 45 → (GetPushDirection_8Way FromActor ToActor).1 = EPushCardinal_8Way.ForwardRight)
    ∧ (a = -45 → (GetPushDirection_8Way FromActor ToActor).1 = EPushCardinal_8Way.ForwardLeft)
    ∧ (a = 0 → (GetPushDirection_8Way FromActor ToActor).1 = EPushCardinal_8Way.Forward) := by
  rw [GetPushDirection_8Way_of_valid FromActor ToActor a hvalid ha]
  refine ⟨?_, ?_, ?_, ?_, ?_, ?_, ?_, ?_, ?_, ?_, ?_⟩
  · intro h
    rw [if_neg (by rintro ⟨h1, _⟩; linarith), if_pos h.le]
  · intro h1 h2 h3
    rw [if_neg (by rintro ⟨h4, _⟩; linarith), if_neg (by linarith), if_neg (by linarith),
      if_pos h2.le, if_pos h3]
  · intro h1 h2 h3
    rw [if_neg (by rintro ⟨h4, _⟩; linarith), if_neg (by linarith), if_neg (by linarith),
      if_pos h2.le, if_neg (not_lt.mpr h3.le)]
  · intro h1 h2 h3
    rw [if_pos ⟨h1.le, h2.le⟩, if_pos h3]
  · intro h1 h2 h3
    rw [if_pos ⟨h1.le, h2.le⟩, if_neg (not_lt.mpr h3.le)]
  · intro h1 h2 h3
    rw [if_neg (by rintro ⟨_, h4⟩; linarith), if_neg (by linarith), if_neg (by linarith),
      if_neg (by linarith), if_pos h1.le, if_pos h3]
  · intro h1 h2 h3
    rw [if_neg (by rintro ⟨_, h4⟩; linarith), if_neg (by linarith), if_neg (by linarith),
      if_neg (by linarith), if_pos h1.le, if_neg (not_lt.mpr h3.le)]
  · intro h
    rw [if_neg (by rintro ⟨_, h4⟩; linarith), if_neg (by linarith), if_pos h.le]
  · intro h
    rw [h]; norm_num
  · intro h
    rw [h]; norm_num
  · intro h
    rw [h]; norm_num

/-- Witness for C6: with an unrotated actor at the origin, an actor at
(1, 1, 0) is classified ForwardRight, one at (1, -1, 0) ForwardLeft and one at
(1, 0, 0) Forward. -/
theorem GetPushDirection_8Way_spec_witness :
    (GetPushDirection_8Way (ActorAt 1 1 0) (ActorAt 0 0 0)).1 = EPushCardinal_8Way.ForwardRight
    ∧ (GetPushDirection_8Way (ActorAt 1 (-1) 0) (ActorAt 0 0 0)).1
        = EPushCardinal_8Way.ForwardLeft
    ∧ (GetPushDirection_8Way (ActorAt 1 0 0) (ActorAt 0 0 0)).1 = EPushCardinal_8Way.Forward :=
  ⟨(GetPushDirection_8Way_spec (ActorAt 1 1 0) (ActorAt 0 0 0) 45
      (by rw [planar_offset_diag_right]
          exact IsNearlyZero_of_planar_unit _ _ 0 half_sqrt_two_unit)
      (by rw [planar_offset_diag_right]
          exact CalculatePushDirection_diag_right.symm)).2.2.2.2.2.2.2.2.1 rfl,
   (GetPushDirection_8Way_spec (ActorAt 1 (-1) 0) (ActorAt 0 0 0) (-45)
      (by rw [planar_offset_diag_left]
          exact IsNearlyZero_of_planar_unit _ _ 0 half_sqrt_two_unit_neg)
      (by rw [planar_offset_diag_left]
          exact CalculatePushDirection_diag_left.symm)).2.2.2.2.2.2.2.2.2.1 rfl,
   (GetPushDirection_8Way_spec (ActorAt 1 0 0) (ActorAt 0 0 0) 0
      (by rw [planar_offset_of_unit 1 0 (by norm_num)]
          exact IsNearlyZero_of_planar_unit 1 0 0 (by norm_num))
      (by rw [planar_offset_of_unit 1 0 (by norm_num)]
          exact CalculatePushDirection_ahead.symm)).2.2.2.2.2.2.2.2.2.2 rfl⟩

/-- C7: `GetPushDirection_4Way` and `GetPushDirection_8Way` set the validity
flag to InvalidDirection exactly when the normalized planar offset from the
to-actor to the from-actor is nearly zero, and then both return Forward;
otherwise the flag is ValidDirection. Coincident positions are such a case. -/
theorem GetPushDirection_validity_spec (FromActor ToActor : AActor ℝ) :
    ((GetPushDirection_4Way FromActor ToActor).2 = EValidPushDirection.InvalidDirection
      ↔ ((FromActor.ActorLocation.sub ToActor.ActorLocation).GetSafeNormal2D
          UE_SMALL_NUMBER).IsNearlyZero UE_KINDA_SMALL_NUMBER = true)
    ∧ ((GetPushDirection_8Way FromActor ToActor).2 = EValidPushDirection.InvalidDirection
      ↔ ((FromActor.ActorLocation.sub ToActor.ActorLocation).GetSafeNormal2D
          UE_SMALL_NUMBER).IsNearlyZero UE_KINDA_SMALL_NUMBER = true)
    ∧ (((FromActor.ActorLocation.sub ToActor.ActorLocation).GetSafeNormal2D
          UE_SMALL_NUMBER).IsNearlyZero UE_KINDA_SMALL_NUMBER = true →
        GetPushDirection_4Way FromActor ToActor
          = (EPushCardinal_4Way.Forward, EValidPushDirection.InvalidDirection)
        ∧ GetPushDirection_8Way FromActor ToActor
          = (EPushCardinal_8Way.Forward, EValidPushDirection.InvalidDirection))
    ∧ (((FromActor.ActorLocation.sub ToActor.ActorLocation).GetSafeNormal2D
          UE_SMALL_NUMBER).IsNearlyZero UE_KINDA_SMALL_NUMBER = false →
        (GetPushDirection_4Way FromActor ToActor).2 = EValidPushDirection.ValidDirection
        ∧ (GetPushDirection_8Way FromActor ToActor).2 = EValidPushDirection.ValidDirection)
    ∧ (FromActor.ActorLocation = ToActor.ActorLocation →
        ((FromActor.ActorLocation.sub ToActor.ActorLocation).GetSafeNormal2D
          UE_SMALL_NUMBER).IsNearlyZero UE_KINDA_SMALL_NUMBER = true) := by
  have h4t : ((FromActor.ActorLocation.sub ToActor.ActorLocation).GetSafeNormal2D
        UE_SMALL_NUMBER).IsNearlyZero UE_KINDA_SMALL_NUMBER = true →
      GetPushDirection_4Way FromActor ToActor
        = (EPushCardinal_4Way.Forward, EValidPushDirection.InvalidDirection) := by
    intro h
    unfold GetPushDirection_4Way
    simp only [h, if_true]
  have h8t : ((FromActor.ActorLocation.sub ToActor.ActorLocation).GetSafeNormal2D
        UE_SMALL_NUMBER).IsNearlyZero UE_KINDA_SMALL_NUMBER = true →
      GetPushDirection_8Way FromActor ToActor
        = (EPushCardinal_8Way.Forward, EValidPushDirection.InvalidDirection) := by
    intro h
    unfold GetPushDirection_8Way
    simp only [h, if_true]
  have h4f : ((FromActor.ActorLocation.sub ToActor.ActorLocation).GetSafeNormal2D
        UE_SMALL_NUMBER).IsNearlyZero UE_KINDA_SMALL_NUMBER = false →
      (GetPushDirection_4Way FromActor ToActor).2 = EValidPushDirection.ValidDirection := by
    intro h
    rw [GetPushDirection_4Way_of_valid FromActor ToActor _ h rfl]
    split_ifs <;> rfl
  have h8f : ((FromActor.ActorLocation.sub ToActor.ActorLocation).GetSafeNormal2D
        UE_SMALL_NUMBER).IsNearlyZero UE_KINDA_SMALL_NUMBER = false →
      (GetPushDirection_8Way FromActor ToActor).2 = EValidPushDirection.ValidDirection := by
    intro h
    rw [GetPushDirection_8Way_of_valid FromActor ToActor _ h rfl]
    split_ifs <;> rfl
  refine ⟨⟨fun h => ?_, fun h => ?_⟩, ⟨fun h => ?_, fun h => ?_⟩,
    fun h => ⟨h4t h, h8t h⟩, fun h => ⟨h4f h, h8f h⟩, fun h => ?_⟩
  · by_contra hn
    rw [h4f (Bool.eq_false_iff.mpr hn)] at h
    exact absurd h (by decide)
  · rw [h4t h]
  · by_contra hn
    rw [h8f (Bool.eq_false_iff.mpr hn)] at h
    exact absurd h (by decide)
  · rw [h8t h]
  · rw [h]
    simp [FVector.sub, FVector.GetSafeNormal2D, FVector.IsNearlyZero, UE_SMALL_NUMBER,
      UE_KINDA_SMALL_NUMBER]

/-- Witness for C7: two actors at the same position (1, 2, 3) are classified
Forward with the direction flagged invalid by both classifiers, and an actor
to the right of another is flagged valid by both. -/
theorem GetPushDirection_validity_spec_witness :
    (GetPushDirection_4Way (ActorAt 1 2 3) (ActorAt 1 2 3)
        = (EPushCardinal_4Way.Forward, EValidPushDirection.InvalidDirection)
      ∧ GetPushDirection_8Way (ActorAt 1 2 3) (ActorAt 1 2 3)
        = (EPushCardinal_8Way.Forward, EValidPushDirection.InvalidDirection))
    ∧ ((GetPushDirection_4Way (ActorAt 0 1 0) (ActorAt 0 0 0)).2
        = EValidPushDirection.ValidDirection
      ∧ (GetPushDirection_8Way (ActorAt 0 1 0) (ActorAt 0 0 0)).2
        = EValidPushDirection.ValidDirection) :=
  ⟨(GetPushDirection_validity_spec (ActorAt 1 2 3) (ActorAt 1 2 3)).2.2.1
      ((GetPushDirection_validity_spec (ActorAt 1 2 3) (ActorAt 1 2 3)).2.2.2.2 rfl),
   (GetPushDirection_validity_spec (ActorAt 0 1 0) (ActorAt 0 0 0)).2.2.2.1
      (by rw [planar_offset_of_unit 0 1 (by norm_num)]
          exact IsNearlyZero_of_planar_unit 0 1 0 (by norm_num))⟩

/-! ### Target discovery -/

/-- C9: `GatherPushOptions` returns true if and only if the ability-to-grant is
set, the pusher pawn is non-null and the requesting avatar of the query is
valid. When it returns false the option builder is unchanged. When it returns
true exactly one option is added, whose ability is the given one, whose pushee
location is the requesting avatar's location, whose pusher location is the
pusher pawn's location and whose forward vector is the pusher pawn's forward
vector. -/
theorem GatherPushOptions_spec {α : Type} (PushAbilityToGrant : Option UClassPtr)
    (PusherPawn : Option (APawn α)) (PushQuery : FPushQuery α)
    (OptionBuilder : FPushOptionBuilder α) :
    ((GatherPushOptions PushAbilityToGrant PusherPawn PushQuery OptionBuilder).1 = true
      ↔ PushAbilityToGrant ≠ none ∧ PusherPawn ≠ none ∧ PushQuery.RequestingAvatar ≠ none)
    ∧ ((GatherPushOptions PushAbilityToGrant PusherPawn PushQuery OptionBuilder).1 = false →
        (GatherPushOptions PushAbilityToGrant PusherPawn PushQuery OptionBuilder).2
          = OptionBuilder)
    ∧ ((GatherPushOptions PushAbilityToGrant PusherPawn PushQuery OptionBuilder).1 = true →
        ∃ Pusher RequestingAvatar,
          PusherPawn = some Pusher ∧ PushQuery.RequestingAvatar = some RequestingAvatar
          ∧ (GatherPushOptions PushAbilityToGrant PusherPawn PushQuery OptionBuilder).2.Options
            = OptionBuilder.Options ++
                [{ PushAbilityToGrant := PushAbilityToGrant
                   PusheeActorLocation := RequestingAvatar.ActorLocation
                   PusheeForwardVector := Pusher.ActorForwardVector
                   PusherActorLocation := Pusher.ActorLocation }]) := by
  obtain ⟨Avatar⟩ := PushQuery
  cases PushAbilityToGrant <;> cases PusherPawn <;> cases Avatar <;>
    simp [GatherPushOptions, FPushOptionBuilder.AddPushOption]

/-- Witness for C9: with ability 7, the pawn on the incline as pusher and an
avatar at (5, 6, 7), one option is added to an empty builder; with no ability
the builder stays empty. -/
theorem GatherPushOptions_spec_witness :
    (∃ Pusher RequestingAvatar,
      some (InclinePawn : APawn ℚ) = some Pusher
      ∧ (⟨some (ActorAt 5 6 7)⟩ : FPushQuery ℚ).RequestingAvatar = some RequestingAvatar
      ∧ (GatherPushOptions (some 7) (some (InclinePawn : APawn ℚ)) ⟨some (ActorAt 5 6 7)⟩
          ⟨[]⟩).2.Options
        = [] ++ [{ PushAbilityToGrant := some 7
                   PusheeActorLocation := RequestingAvatar.ActorLocation
                   PusheeForwardVector := Pusher.ActorForwardVector
                   PusherActorLocation := Pusher.ActorLocation }])
    ∧ (GatherPushOptions none (some (InclinePawn : APawn ℚ)) ⟨some (ActorAt 5 6 7)⟩ ⟨[]⟩).2
        = ⟨[]⟩ :=
  ⟨(GatherPushOptions_spec (some 7) (some (InclinePawn : APawn ℚ)) ⟨some (ActorAt 5 6 7)⟩
      ⟨[]⟩).2.2 rfl,
   (GatherPushOptions_spec none (some (InclinePawn : APawn ℚ)) ⟨some (ActorAt 5 6 7)⟩
      ⟨[]⟩).2.1 rfl⟩

/-- `AddUnique` keeps a duplicate-free array duplicate-free. -/
theorem AddUnique_nodup {β : Type} [DecidableEq β] (Array : List β) (Item : β)
    (h : Array.Nodup) : (AddUnique Array Item).Nodup := by
  unfold AddUnique
  split_ifs with hm
  · exact h
  · rw [List.nodup_append]
    refine ⟨h, List.nodup_singleton Item, ?_⟩
    intro a ha hb
    rw [List.mem_singleton] at hb
    exact hm (hb ▸ ha)

/-- `AddUnique` only ever extends the array at its end, by nothing or by the
item. -/
theorem AddUnique_extends {β : Type} [DecidableEq β] (Array : List β) (Item : β) :
    ∃ Added, AddUnique Array Item = Array ++ Added ∧ ∀ x ∈ Added, x = Item := by
  unfold AddUnique
  split_ifs with hm
  · exact ⟨[], by simp, by simp⟩
  · exact ⟨[Item], rfl, by simp⟩

/-- One iteration of the loop of `AppendPushTargetsFromOverlapResults`. -/
theorem AppendPushTargets_step (Implements : UObjectPtr → Bool) (Overlap : FOverlapResult)
    (Rest : List FOverlapResult) (Out : List TScriptInterface) :
    AppendPushTargetsFromOverlapResults Implements (Overlap :: Rest) Out
      = AppendPushTargetsFromOverlapResults Implements Rest
          (if (TScriptInterface.ofObject Implements Overlap.Component).isSet then
            AddUnique
              (if (TScriptInterface.ofObject Implements Overlap.Actor).isSet then
                AddUnique Out (TScriptInterface.ofObject Implements Overlap.Actor)
              else Out)
              (TScriptInterface.ofObject Implements Overlap.Component)
          else
            (if (TScriptInterface.ofObject Implements Overlap.Actor).isSet then
              AddUnique Out (TScriptInterface.ofObject Implements Overlap.Actor)
            else Out)) := by
  simp only [AppendPushTargetsFromOverlapResults, List.foldl_cons]

/-- Loop invariant of `AppendPushTargetsFromOverlapResults`: the array stays
duplicate-free and grows only at its end, by pusher-capable actors or
components of the overlaps. -/
theorem AppendPushTargets_invariant (Implements : UObjectPtr → Bool)
    (OverlapResults : List FOverlapResult) :
    ∀ Out : List TScriptInterface, Out.Nodup →
      (AppendPushTargetsFromOverlapResults Implements OverlapResults Out).Nodup
      ∧ ∃ Added,
          AppendPushTargetsFromOverlapResults Implements OverlapResults Out = Out ++ Added
          ∧ ∀ T ∈ Added, T.isSet = true
              ∧ ∃ Overlap ∈ OverlapResults,
                  T = TScriptInterface.ofObject Implements Overlap.Actor
                  ∨ T = TScriptInterface.ofObject Implements Overlap.Component := by
  induction OverlapResults with
  | nil =>
    intro Out h
    exact ⟨h, [], by simp [AppendPushTargetsFromOverlapResults], by simp⟩
  | cons Overlap Rest ih =>
    intro Out h
    rw [AppendPushTargets_step]
    -- the array after the actor of this overlap has been considered
    have hA : ∃ Mid : List TScriptInterface, Mid.Nodup ∧
        Mid = (if (TScriptInterface.ofObject Implements Overlap.Actor).isSet then
                AddUnique Out (TScriptInterface.ofObject Implements Overlap.Actor)
              else Out)
        ∧ ∃ Added, Mid = Out ++ Added ∧ ∀ T ∈ Added, T.isSet = true
            ∧ T = TScriptInterface.ofObject Implements Overlap.Actor := by
      by_cases hs : (TScriptInterface.ofObject Implements Overlap.Actor).isSet = true
      · obtain ⟨Added, hAdd, hOnly⟩ :=
          AddUnique_extends Out (TScriptInterface.ofObject Implements Overlap.Actor)
        refine ⟨_, ?_, rfl, Added, ?_, ?_⟩
        · rw [if_pos hs]; exact AddUnique_nodup _ _ h
        · rw [if_pos hs]; exact hAdd
        · intro T hT
          rw [hOnly T hT]; exact ⟨hs, rfl⟩
      · refine ⟨_, ?_, rfl, [], ?_, ?_⟩
        · rw [if_neg hs]; exact h
        · rw [if_neg hs]; simp
        · simp
    obtain ⟨Mid, hMidNodup, hMidEq, AddedA, hMidApp, hAOnly⟩ := hA
    rw [← hMidEq]
    -- the array after the component of this overlap has been considered
    have hC : ∃ Last : List TScriptInterface, Last.Nodup ∧
        Last = (if (TScriptInterface.ofObject Implements Overlap.Component).isSet then
                AddUnique Mid (TScriptInterface.ofObject Implements Overlap.Component)
              else Mid)
        ∧ ∃ Added, Last = Mid ++ Added ∧ ∀ T ∈ Added, T.isSet = true
            ∧ T = TScriptInterface.ofObject Implements Overlap.Component := by
      by_cases hs : (TScriptInterface.ofObject Implements Overlap.Component).isSet = true
      · obtain ⟨Added, hAdd, hOnly⟩ :=
          AddUnique_extends Mid (TScriptInterface.ofObject Implements Overlap.Component)
        refine ⟨_, ?_, rfl, Added, ?_, ?_⟩
        · rw [if_pos hs]; exact AddUnique_nodup _ _ hMidNodup
        · rw [if_pos hs]; exact hAdd
        · intro T hT
          rw [hOnly T hT]; exact ⟨hs, rfl⟩
      · refine ⟨_, ?_, rfl, [], ?_, ?_⟩
        · rw [if_neg hs]; exact hMidNodup
        · rw [if_neg hs]; simp
        · simp
    obtain ⟨Last, hFinNodup, hFinEq, AddedC, hFinApp, hCOnly⟩ := hC
    rw [← hFinEq]
    obtain ⟨hNodup, AddedRest, hRestApp, hRestOnly⟩ := ih Last hFinNodup
    refine ⟨hNodup, AddedA ++ AddedC ++ AddedRest, ?_, ?_⟩
    · rw [hRestApp, hFinApp, hMidApp]; simp
    · intro T hT
      rw [List.mem_append, List.mem_append] at hT
      rcases hT with (hT | hT) | hT
      · exact ⟨(hAOnly T hT).1, Overlap, List.mem_cons_self _ _, Or.inl (hAOnly T hT).2⟩
      · exact ⟨(hCOnly T hT).1, Overlap, List.mem_cons_self _ _, Or.inr (hCOnly T hT).2⟩
      · obtain ⟨hset, O, hO, hor⟩ := hRestOnly T hT
        exact ⟨hset, O, List.mem_cons_of_mem _ hO, hor⟩

/-- C10: for every list of overlap results and every output array that is
duplicate-free on entry, `AppendPushTargetsFromOverlapResults` leaves the array
duplicate-free, keeps the entries already present, in their order, at the
front, and appends only pusher-capable actors or components of the overlaps. -/
theorem AppendPushTargetsFromOverlapResults_spec (Implements : UObjectPtr → Bool)
    (OverlapResults : List FOverlapResult) (OutPushTargets : List TScriptInterface)
    (hNodup : OutPushTargets.Nodup) :
    (AppendPushTargetsFromOverlapResults Implements OverlapResults OutPushTargets).Nodup
    ∧ ∃ Added,
        AppendPushTargetsFromOverlapResults Implements OverlapResults OutPushTargets
          = OutPushTargets ++ Added
        ∧ ∀ T ∈ Added, T.isSet = true
            ∧ ∃ Overlap ∈ OverlapResults,
                T = TScriptInterface.ofObject Implements Overlap.Actor
                ∨ T = TScriptInterface.ofObject Implements Overlap.Component :=
  AppendPushTargets_invariant Implements OverlapResults OutPushTargets hNodup

/-- Witness for C10: objects with an even address implement the pusher
interface; the array holds object 4 on entry; the overlaps hit (2, 3), (2, 4)
and (null, 2). Object 2 is appended once, objects 3 and 4 are not appended. -/
theorem AppendPushTargetsFromOverlapResults_spec_witness :
    (AppendPushTargetsFromOverlapResults (fun n => n % 2 == 0)
        [⟨some 2, some 3⟩, ⟨some 2, some 4⟩, ⟨none, some 2⟩] [⟨some 4, some 4⟩]).Nodup
    ∧ AppendPushTargetsFromOverlapResults (fun n => n % 2 == 0)
        [⟨some 2, some 3⟩, ⟨some 2, some 4⟩, ⟨none, some 2⟩] [⟨some 4, some 4⟩]
      = [⟨some 4, some 4⟩, ⟨some 2, some 2⟩] :=
  ⟨(AppendPushTargetsFromOverlapResults_spec (fun n => n % 2 == 0)
      [⟨some 2, some 3⟩, ⟨some 2, some 4⟩, ⟨none, some 2⟩] [⟨some 4, some 4⟩]
      (by decide)).1,
   by decide⟩

/-- C11 (evaluation at the failing input): on the actor 1 of `MixedActorGraph`,
which owns a pushee-only component 2 and a pusher-only component 3,
`GetPushTargetsFromActor` appends component 2 with a null interface pointer,
an entry that is not pusher-capable, and does not append the pusher-capable
component 3; the sibling `AppendPushTargetsFromHitResult` appends exactly
component 3. -/
theorem GetPushTargetsFromActor_appends_pushee_component :
    GetPushTargetsFromActor MixedActorGraph (some 1) [] = [⟨some 2, none⟩]
    ∧ (⟨some 2, none⟩ : TScriptInterface).isSet = false
    ∧ TScriptInterface.ofObject MixedActorGraph.ImplementsPusherTarget (some 3)
        ∉ GetPushTargetsFromActor MixedActorGraph (some 1) []
    ∧ AppendPushTargetsFromHitResult MixedActorGraph (some 1) [] = [⟨some 3, some 3⟩] := by
  decide

/-- C18: `GetPusherTarget` and `GetPusheeInstigator` return no capability for a
null entity; return the entity itself when it implements the capability,
whatever components it owns; otherwise return the attached pusher (pushee)
component when one exists (the first the engine finds, which implements the
capability); and return no capability when the entity does not implement it
and owns no such component. -/
theorem GetPusherTarget_spec (G : FObjectGraph) (Actor : UObjectPtr) :
    (GetPusherTarget G none = none ∧ GetPusheeInstigator G none = none)
    ∧ (G.ImplementsPusherTarget Actor = true → GetPusherTarget G (some Actor) = some Actor)
    ∧ (G.ImplementsPusheeInstigator Actor = true →
        GetPusheeInstigator G (some Actor) = some Actor)
    ∧ (∀ Component, G.ImplementsPusherTarget Actor = false →
        (G.Components Actor).find? G.IsPusherComponent = some Component →
        G.ImplementsPusherTarget Component = true →
        GetPusherTarget G (some Actor) = some Component)
    ∧ (∀ Component, G.ImplementsPusheeInstigator Actor = false →
        (G.Components Actor).find? G.IsPusheeComponent = some Component →
        G.ImplementsPusheeInstigator Component = true →
        GetPusheeInstigator G (some Actor) = some Component)
    ∧ (G.ImplementsPusherTarget Actor = false →
        (∀ Component ∈ G.Components Actor, G.IsPusherComponent Component = false) →
        GetPusherTarget G (some Actor) = none)
    ∧ (G.ImplementsPusheeInstigator Actor = false →
        (∀ Component ∈ G.Components Actor, G.IsPusheeComponent Component = false) →
        GetPusheeInstigator G (some Actor) = none) := by
  refine ⟨⟨rfl, rfl⟩, ?_, ?_, ?_, ?_, ?_, ?_⟩
  · intro h
    simp [GetPusherTarget, h]
  · intro h
    simp [GetPusheeInstigator, h]
  · intro Component h hfind hc
    simp [GetPusherTarget, h, hfind, hc]
  · intro Component h hfind hc
    simp [GetPusheeInstigator, h, hfind, hc]
  · intro h hnone
    have hfind : (G.Components Actor).find? G.IsPusherComponent = none := by
      rw [List.find?_eq_none]
      intro x hx
      simp [hnone x hx]
    simp [GetPusherTarget, h, hfind]
  · intro h hnone
    have hfind : (G.Components Actor).find? G.IsPusheeComponent = none := by
      rw [List.find?_eq_none]
      intro x hx
      simp [hnone x hx]
    simp [GetPusheeInstigator, h, hfind]

/-- Witness for C18 on `MixedActorGraph`: the pusher component 3 resolves to
itself although it owns nothing; the actor 1 resolves to its pusher component
3 and to its pushee component 2; the component 2, which is no pusher and owns
no component, resolves to no pusher capability. -/
theorem GetPusherTarget_spec_witness :
    GetPusherTarget MixedActorGraph (some 3) = some 3
    ∧ GetPusherTarget MixedActorGraph (some 1) = some 3
    ∧ GetPusheeInstigator MixedActorGraph (some 1) = some 2
    ∧ GetPusherTarget MixedActorGraph (some 2) = none :=
  ⟨(GetPusherTarget_spec MixedActorGraph 3).2.1 (by decide),
   (GetPusherTarget_spec MixedActorGraph 1).2.2.2.1 3 (by decide) (by decide) (by decide),
   (GetPusherTarget_spec MixedActorGraph 1).2.2.2.2.1 2 (by decide) (by decide) (by decide),
   (GetPusherTarget_spec MixedActorGraph 2).2.2.2.2.2.1 (by decide) (by decide)⟩

/-! ### Adaptive scan controller -/

/-- The safe normal of a vector is the zero vector or a vector of unit length. -/
theorem GetSafeNormal_zero_or_unit (V : FVector ℝ) :
    V.GetSafeNormal UE_SMALL_NUMBER = ⟨0, 0, 0⟩
    ∨ (V.GetSafeNormal UE_SMALL_NUMBER).X * (V.GetSafeNormal UE_SMALL_NUMBER).X
        + (V.GetSafeNormal UE_SMALL_NUMBER).Y * (V.GetSafeNormal UE_SMALL_NUMBER).Y
        + (V.GetSafeNormal UE_SMALL_NUMBER).Z * (V.GetSafeNormal UE_SMALL_NUMBER).Z = 1 := by
  unfold FVector.GetSafeNormal
  simp only
  split_ifs with h1 h2
  · exact Or.inr h1
  · exact Or.inl rfl
  · right
    have hs : 0 < V.X * V.X + V.Y * V.Y + V.Z * V.Z := by
      have ht : (0 : ℝ) < UE_SMALL_NUMBER := by norm_num [UE_SMALL_NUMBER]
      linarith [not_lt.mp h2]
    have hq : Real.sqrt (V.X * V.X + V.Y * V.Y + V.Z * V.Z)
        * Real.sqrt (V.X * V.X + V.Y * V.Y + V.Z * V.Z)
        = V.X * V.X + V.Y * V.Y + V.Z * V.Z := Real.mul_self_sqrt hs.le
    have hne : Real.sqrt (V.X * V.X + V.Y * V.Y + V.Z * V.Z) ≠ 0 :=
      (Real.sqrt_pos.mpr hs).ne'
    simp only [FMath.InvSqrt]
    field_simp

/-- A vector of unit length is not nearly zero at tolerance 0.1 and its length
exceeds 0.1. -/
theorem unit_not_nearlyZero (N : FVector ℝ) (h : N.X * N.X + N.Y * N.Y + N.Z * N.Z = 1) :
    N.IsNearlyZero (1 / 10) = false ∧ 1 / 10 < N.Size := by
  constructor
  · simp only [FVector.IsNearlyZero, Bool.and_eq_false_imp, Bool.and_eq_true,
      decide_eq_true_eq, decide_eq_false_iff_not, not_le]
    rintro ⟨hx, hy⟩
    by_contra hz
    rw [not_lt] at hz
    rw [abs_le] at hx hy hz
    nlinarith [hx.1, hx.2, hy.1, hy.2, hz.1, hz.2]
  · unfold FVector.Size
    rw [h, Real.sqrt_one]
    norm_num

/-- The zero vector is nearly zero at tolerance 0.1 and has length 0. -/
theorem zero_nearlyZero :
    (⟨0, 0, 0⟩ : FVector ℝ).IsNearlyZero (1 / 10) = true ∧ (⟨0, 0, 0⟩ : FVector ℝ).Size = 0 := by
  constructor
  · simp [FVector.IsNearlyZero]
  · simp [FVector.Size]

/-- C14: `IsPusheeAccelerating(acceleration)` is true if and only if the length
of the safely-normalized acceleration exceeds 0.1. An acceleration whose safe
normal is the zero vector (in particular one of squared length below 1e-8) is
not accelerating, and every other acceleration is. -/
theorem IsPusheeAccelerating_spec (Acceleration : FVector ℝ) :
    (IsPusheeAccelerating Acceleration = true
      ↔ 1 / 10 < (Acceleration.GetSafeNormal UE_SMALL_NUMBER).Size)
    ∧ (Acceleration.GetSafeNormal UE_SMALL_NUMBER = ⟨0, 0, 0⟩ →
        IsPusheeAccelerating Acceleration = false)
    ∧ (Acceleration.GetSafeNormal UE_SMALL_NUMBER ≠ ⟨0, 0, 0⟩ →
        IsPusheeAccelerating Acceleration = true)
    ∧ (Acceleration.X * Acceleration.X + Acceleration.Y * Acceleration.Y
          + Acceleration.Z * Acceleration.Z < UE_SMALL_NUMBER →
        IsPusheeAccelerating Acceleration = false) := by
  have hzero : Acceleration.GetSafeNormal UE_SMALL_NUMBER = ⟨0, 0, 0⟩ →
      IsPusheeAccelerating Acceleration = false := by
    intro h
    unfold IsPusheeAccelerating
    rw [h, zero_nearlyZero.1]
    rfl
  have hunit : Acceleration.GetSafeNormal UE_SMALL_NUMBER ≠ ⟨0, 0, 0⟩ →
      IsPusheeAccelerating Acceleration = true := by
    intro h
    rcases GetSafeNormal_zero_or_unit Acceleration with h0 | h1
    · exact absurd h0 h
    · unfold IsPusheeAccelerating
      rw [(unit_not_nearlyZero _ h1).1]
      rfl
  refine ⟨?_, hzero, hunit, ?_⟩
  · rcases GetSafeNormal_zero_or_unit Acceleration with h0 | h1
    · rw [hzero h0, h0, zero_nearlyZero.2]
      constructor
      · intro h; exact absurd h (by decide)
      · intro h; norm_num at h
    · have hne : Acceleration.GetSafeNormal UE_SMALL_NUMBER ≠ ⟨0, 0, 0⟩ := by
        intro h0
        rw [h0] at h1
        norm_num at h1
      rw [hunit hne]
      exact ⟨fun _ => (unit_not_nearlyZero _ h1).2, fun _ => rfl⟩
  · intro hs
    apply hzero
    unfold FVector.GetSafeNormal
    simp only
    have hlt : (UE_SMALL_NUMBER : ℝ) < 1 := by norm_num [UE_SMALL_NUMBER]
    rw [if_neg (by linarith), if_pos hs]

/-- Witness for C14: the zero acceleration is not accelerating, the
acceleration (2, 0, 0) is. -/
theorem IsPusheeAccelerating_spec_witness :
    IsPusheeAccelerating ⟨0, 0, 0⟩ = false ∧ IsPusheeAccelerating ⟨2, 0, 0⟩ = true :=
  ⟨(IsPusheeAccelerating_spec ⟨0, 0, 0⟩).2.2.2 (by norm_num [UE_SMALL_NUMBER]),
   (IsPusheeAccelerating_spec ⟨2, 0, 0⟩).2.2.1 (by
      unfold FVector.GetSafeNormal
      simp only
      rw [if_neg (by norm_num), if_neg (by norm_num [UE_SMALL_NUMBER])]
      intro h
      have hx := congrArg FVector.X h
      simp only [FMath.InvSqrt] at hx
      have hpos : 0 < Real.sqrt ((2 : ℝ) * 2 + 0 * 0 + 0 * 0) :=
        Real.sqrt_pos.mpr (by norm_num)
      have : (2 : ℝ) * (1 / Real.sqrt ((2 : ℝ) * 2 + 0 * 0 + 0 * 0)) > 0 := by positivity
      linarith)⟩

/-- Normalizing a safe normal again changes nothing. -/
theorem GetSafeNormal_idem (V : FVector ℝ) :
    (V.GetSafeNormal UE_SMALL_NUMBER).GetSafeNormal UE_SMALL_NUMBER
      = V.GetSafeNormal UE_SMALL_NUMBER := by
  rcases GetSafeNormal_zero_or_unit V with h0 | h1
  · rw [h0]
    unfold FVector.GetSafeNormal
    simp only
    rw [if_neg (by norm_num), if_pos (by norm_num [UE_SMALL_NUMBER])]
  · generalize V.GetSafeNormal UE_SMALL_NUMBER = N at h1
    unfold FVector.GetSafeNormal
    simp only
    rw [if_pos h1]

/-- The zero acceleration is not accelerating. -/
theorem IsPusheeAccelerating_zero : IsPusheeAccelerating ⟨0, 0, 0⟩ = false := by
  unfold IsPusheeAccelerating FVector.GetSafeNormal
  simp only
  rw [if_neg (by norm_num), if_pos (by norm_num [UE_SMALL_NUMBER]), zero_nearlyZero.1]
  rfl

/-- The safe normal of a vector whose squared length reaches the tolerance has
unit length. -/
theorem GetSafeNormal_unit_of_le (V : FVector ℝ)
    (h : UE_SMALL_NUMBER ≤ V.X * V.X + V.Y * V.Y + V.Z * V.Z) :
    (V.GetSafeNormal UE_SMALL_NUMBER).X * (V.GetSafeNormal UE_SMALL_NUMBER).X
      + (V.GetSafeNormal UE_SMALL_NUMBER).Y * (V.GetSafeNormal UE_SMALL_NUMBER).Y
      + (V.GetSafeNormal UE_SMALL_NUMBER).Z * (V.GetSafeNormal UE_SMALL_NUMBER).Z = 1 := by
  rcases GetSafeNormal_zero_or_unit V with h0 | h1
  · exfalso
    have ht : (0 : ℝ) < UE_SMALL_NUMBER := by norm_num [UE_SMALL_NUMBER]
    have hs : 0 < V.X * V.X + V.Y * V.Y + V.Z * V.Z := lt_of_lt_of_le ht h
    unfold FVector.GetSafeNormal at h0
    simp only at h0
    split_ifs at h0 with h1 h2
    · rw [h0] at hs
      norm_num at hs
    · exact absurd h (not_le.mpr h2)
    · have hq : 0 < Real.sqrt (V.X * V.X + V.Y * V.Y + V.Z * V.Z) := Real.sqrt_pos.mpr hs
      have hinv : 0 < FMath.InvSqrt (V.X * V.X + V.Y * V.Y + V.Z * V.Z) := by
        unfold FMath.InvSqrt
        positivity
      have hx := congrArg FVector.X h0
      have hy := congrArg FVector.Y h0
      have hz := congrArg FVector.Z h0
      simp only at hx hy hz
      have ex : V.X = 0 := (mul_eq_zero.mp hx).resolve_right hinv.ne'
      have ey : V.Y = 0 := (mul_eq_zero.mp hy).resolve_right hinv.ne'
      have ez : V.Z = 0 := (mul_eq_zero.mp hz).resolve_right hinv.ne'
      rw [ex, ey, ez] at hs
      norm_num at hs
  · exact h1

/-- An acceleration is accelerating exactly when its squared length reaches
the tolerance 1e-8 of the safe normal. -/
theorem IsPusheeAccelerating_iff_sq (Acceleration : FVector ℝ) :
    IsPusheeAccelerating Acceleration = true
      ↔ UE_SMALL_NUMBER ≤ Acceleration.X * Acceleration.X + Acceleration.Y * Acceleration.Y
          + Acceleration.Z * Acceleration.Z := by
  constructor
  · intro hacc
    by_contra hlt
    rw [not_le] at hlt
    have hzero : Acceleration.GetSafeNormal UE_SMALL_NUMBER = ⟨0, 0, 0⟩ := by
      unfold FVector.GetSafeNormal
      simp only
      have hone : (UE_SMALL_NUMBER : ℝ) < 1 := by norm_num [UE_SMALL_NUMBER]
      rw [if_neg (by linarith), if_pos hlt]
    unfold IsPusheeAccelerating at hacc
    rw [hzero, zero_nearlyZero.1] at hacc
    exact absurd hacc (by decide)
  · intro hle
    unfold IsPusheeAccelerating
    rw [(unit_not_nearlyZero _ (GetSafeNormal_unit_of_le Acceleration hle)).1]
    rfl

/-- The acceleration (2, 0, 0) is accelerating. -/
theorem IsPusheeAccelerating_two : IsPusheeAccelerating ⟨2, 0, 0⟩ = true := by
  rw [IsPusheeAccelerating_iff_sq]
  norm_num [UE_SMALL_NUMBER]

/-- C15: `GetPushPawnScanRate` returns `ScanRateAccel` if the pushee is
accelerating and `ScanRate` otherwise; `GetPushPawnScanRange` returns
`baseScanRange * ScanRangeAccelScalar` if the pushee is accelerating and
`baseScanRange * ScanRangeScalar` otherwise; this holds for the overload taking
an acceleration vector, for the overload taking a pushee interface and for the
overload taking a pawn. A null pushee, and a pawn for which no pushee
capability is resolved, count as not accelerating. A non-null pushee, and a
pawn whose pushee capability resolves to an object, are accelerating exactly
when the acceleration vector of that pushee is, that is when its squared
length reaches 1e-8. -/
theorem GetPushPawnScan_spec (G : FObjectGraph) (Interface : UObjectPtr → IPusheeInstigator ℝ)
    (Pushee : Option (IPusheeInstigator ℝ)) (Pawn : Option UObjectPtr) (baseScanRange : ℝ)
    (ScanParams : FPushPawnScanParams ℝ) :
    (GetPushPawnScanRate_Pushee Pushee ScanParams
        = if IsPusheeAccelerating_Pushee Pushee = true then ScanParams.ScanRateAccel
          else ScanParams.ScanRate)
    ∧ (GetPushPawnScanRange_Pushee Pushee baseScanRange ScanParams
        = if IsPusheeAccelerating_Pushee Pushee = true
          then baseScanRange * ScanParams.ScanRangeAccelScalar
          else baseScanRange * ScanParams.ScanRangeScalar)
    ∧ (GetPushPawnScanRate_Pawn G Interface Pawn ScanParams
        = if IsPusheeAccelerating_Pawn G Interface Pawn = true then ScanParams.ScanRateAccel
          else ScanParams.ScanRate)
    ∧ (GetPushPawnScanRange_Pawn G Interface Pawn baseScanRange ScanParams
        = if IsPusheeAccelerating_Pawn G Interface Pawn = true
          then baseScanRange * ScanParams.ScanRangeAccelScalar
          else baseScanRange * ScanParams.ScanRangeScalar)
    ∧ (IsPusheeAccelerating_Pushee none = false
        ∧ GetPushPawnScanRate_Pushee none ScanParams = ScanParams.ScanRate
        ∧ GetPushPawnScanRange_Pushee none baseScanRange ScanParams
            = baseScanRange * ScanParams.ScanRangeScalar)
    ∧ (GetPusheeInstigator G Pawn = none →
        IsPusheeAccelerating_Pawn G Interface Pawn = false
        ∧ GetPushPawnScanRate_Pawn G Interface Pawn ScanParams = ScanParams.ScanRate
        ∧ GetPushPawnScanRange_Pawn G Interface Pawn baseScanRange ScanParams
            = baseScanRange * ScanParams.ScanRangeScalar)
    ∧ (∀ P : IPusheeInstigator ℝ,
        IsPusheeAccelerating_Pushee (some P) = IsPusheeAccelerating P.PusheeAcceleration)
    ∧ (∀ P : UObjectPtr, GetPusheeInstigator G Pawn = some P →
        IsPusheeAccelerating_Pawn G Interface Pawn
          = IsPusheeAccelerating (Interface P).PusheeAcceleration)
    ∧ (∀ P : IPusheeInstigator ℝ,
        GetPushPawnScanRate_Pushee (some P) ScanParams
            = (if IsPusheeAccelerating P.PusheeAcceleration = true then ScanParams.ScanRateAccel
                else ScanParams.ScanRate)
        ∧ GetPushPawnScanRange_Pushee (some P) baseScanRange ScanParams
            = (if IsPusheeAccelerating P.PusheeAcceleration = true
                then baseScanRange * ScanParams.ScanRangeAccelScalar
                else baseScanRange * ScanParams.ScanRangeScalar))
    ∧ (∀ P : UObjectPtr, GetPusheeInstigator G Pawn = some P →
        GetPushPawnScanRate_Pawn G Interface Pawn ScanParams
            = (if IsPusheeAccelerating (Interface P).PusheeAcceleration = true
                then ScanParams.ScanRateAccel else ScanParams.ScanRate)
        ∧ GetPushPawnScanRange_Pawn G Interface Pawn baseScanRange ScanParams
            = (if IsPusheeAccelerating (Interface P).PusheeAcceleration = true
                then baseScanRange * ScanParams.ScanRangeAccelScalar
                else baseScanRange * ScanParams.ScanRangeScalar))
    ∧ (∀ Acceleration : FVector ℝ,
        (IsPusheeAccelerating Acceleration = true
          ↔ UE_SMALL_NUMBER ≤ Acceleration.X * Acceleration.X
              + Acceleration.Y * Acceleration.Y + Acceleration.Z * Acceleration.Z)
        ∧ GetPushPawnScanRate Acceleration ScanParams
            = (if UE_SMALL_NUMBER ≤ Acceleration.X * Acceleration.X
                  + Acceleration.Y * Acceleration.Y + Acceleration.Z * Acceleration.Z
                then ScanParams.ScanRateAccel else ScanParams.ScanRate)
        ∧ GetPushPawnScanRange Acceleration baseScanRange ScanParams
            = (if UE_SMALL_NUMBER ≤ Acceleration.X * Acceleration.X
                  + Acceleration.Y * Acceleration.Y + Acceleration.Z * Acceleration.Z
                then baseScanRange * ScanParams.ScanRangeAccelScalar
                else baseScanRange * ScanParams.ScanRangeScalar)) := by
  have hpushee : ∀ P : IPusheeInstigator ℝ,
      IsPusheeAccelerating (GetPushPawnAcceleration (some P))
        = IsPusheeAccelerating P.PusheeAcceleration := by
    intro P
    simp only [GetPushPawnAcceleration, IsPusheeAccelerating, GetSafeNormal_idem]
  have hpawn : ∀ P : UObjectPtr, GetPusheeInstigator G Pawn = some P →
      IsPusheeAccelerating (GetPushPawnAcceleration_Pawn G Interface Pawn)
        = IsPusheeAccelerating (Interface P).PusheeAcceleration := by
    intro P hP
    simp only [GetPushPawnAcceleration_Pawn, hP, IsPusheeAccelerating, GetSafeNormal_idem]
  refine ⟨?_, ?_, ?_, ?_, ⟨?_, ?_, ?_⟩, ?_, ?_, ?_, ?_, ?_, ?_⟩
  rotate_left 9
  · intro P hP
    exact hpawn P hP
  · intro P
    constructor
    · simp only [GetPushPawnScanRate_Pushee, GetPushPawnScanRate, hpushee P]
    · simp only [GetPushPawnScanRange_Pushee, GetPushPawnScanRange, hpushee P]
      split_ifs <;> rfl
  · intro P hP
    constructor
    · simp only [GetPushPawnScanRate_Pawn, GetPushPawnScanRate, hpawn P hP]
    · simp only [GetPushPawnScanRange_Pawn, GetPushPawnScanRange, hpawn P hP]
      split_ifs <;> rfl
  · intro Acceleration
    refine ⟨IsPusheeAccelerating_iff_sq Acceleration, ?_, ?_⟩
    · simp only [GetPushPawnScanRate, IsPusheeAccelerating_iff_sq]
    · simp only [GetPushPawnScanRange, IsPusheeAccelerating_iff_sq]
      split_ifs <;> rfl
  · simp only [GetPushPawnScanRate_Pushee, GetPushPawnScanRate, IsPusheeAccelerating_Pushee]
  · simp only [GetPushPawnScanRange_Pushee, GetPushPawnScanRange, IsPusheeAccelerating_Pushee]
    split_ifs <;> rfl
  · simp only [GetPushPawnScanRate_Pawn, GetPushPawnScanRate, IsPusheeAccelerating_Pawn]
  · simp only [GetPushPawnScanRange_Pawn, GetPushPawnScanRange, IsPusheeAccelerating_Pawn]
    split_ifs <;> rfl
  · exact IsPusheeAccelerating_zero
  · simp only [GetPushPawnScanRate_Pushee, GetPushPawnScanRate, GetPushPawnAcceleration,
      IsPusheeAccelerating_zero, Bool.false_eq_true, if_false]
  · simp only [GetPushPawnScanRange_Pushee, GetPushPawnScanRange, GetPushPawnAcceleration,
      IsPusheeAccelerating_zero, Bool.false_eq_true, if_false]
  · intro h
    refine ⟨?_, ?_, ?_⟩
    · simp only [IsPusheeAccelerating_Pawn, GetPushPawnAcceleration_Pawn, h,
        IsPusheeAccelerating_zero]
    · simp only [GetPushPawnScanRate_Pawn, GetPushPawnScanRate, GetPushPawnAcceleration_Pawn, h,
        IsPusheeAccelerating_zero, Bool.false_eq_true, if_false]
    · simp only [GetPushPawnScanRange_Pawn, GetPushPawnScanRange, GetPushPawnAcceleration_Pawn,
        h, IsPusheeAccelerating_zero, Bool.false_eq_true, if_false]
  · intro P
    simp only [IsPusheeAccelerating_Pushee, GetPushPawnAcceleration, IsPusheeAccelerating,
      GetSafeNormal_idem]

/-- Witness for C15, with scan rates 1/2 and 1/10, range scalars 2 and 3 and
base range 100. In `MixedActorGraph` the pawn 1 resolves to its pushee
component 2, whose acceleration (2, 0, 0) is accelerating: scan rate 1/10 and
scan range 100 * 3. The pawn 3 resolves to no pushee capability: scan rate 1/2
and scan range 100 * 2, whatever the interface reports. The accelerating
pushee passed by interface gets 1/10 and 100 * 3, the pushee at rest 1/2 and
100 * 2. -/
theorem GetPushPawnScan_spec_witness :
    (GetPushPawnScanRate_Pawn MixedActorGraph (fun _ => AcceleratingPushee) (some 1)
        ⟨1 / 2, 1 / 10, 2, 3⟩ = 1 / 10
      ∧ GetPushPawnScanRange_Pawn MixedActorGraph (fun _ => AcceleratingPushee) (some 1) 100
        ⟨1 / 2, 1 / 10, 2, 3⟩ = 100 * 3)
    ∧ (IsPusheeAccelerating_Pawn MixedActorGraph (fun _ => AcceleratingPushee) (some 3) = false
      ∧ GetPushPawnScanRate_Pawn MixedActorGraph (fun _ => AcceleratingPushee) (some 3)
          ⟨1 / 2, 1 / 10, 2, 3⟩ = 1 / 2
      ∧ GetPushPawnScanRange_Pawn MixedActorGraph (fun _ => AcceleratingPushee) (some 3) 100
          ⟨1 / 2, 1 / 10, 2, 3⟩ = 100 * 2)
    ∧ (GetPushPawnScanRate_Pushee (some AcceleratingPushee) ⟨1 / 2, 1 / 10, 2, 3⟩ = 1 / 10
      ∧ GetPushPawnScanRange_Pushee (some AcceleratingPushee) 100 ⟨1 / 2, 1 / 10, 2, 3⟩
          = 100 * 3)
    ∧ (GetPushPawnScanRate_Pushee (some InclinePushee) ⟨1 / 2, 1 / 10, 2, 3⟩ = 1 / 2
      ∧ GetPushPawnScanRange_Pushee (some InclinePushee) 100 ⟨1 / 2, 1 / 10, 2, 3⟩
          = 100 * 2) := by
  refine ⟨?_, ?_, ?_, ?_⟩
  · have h := (GetPushPawnScan_spec MixedActorGraph (fun _ => AcceleratingPushee) none (some 1)
      100 ⟨1 / 2, 1 / 10, 2, 3⟩).2.2.2.2.2.2.2.2.2.1 2 (by decide)
    simpa [AcceleratingPushee, IsPusheeAccelerating_two] using h
  · exact (GetPushPawnScan_spec MixedActorGraph (fun _ => AcceleratingPushee) none (some 3) 100
      ⟨1 / 2, 1 / 10, 2, 3⟩).2.2.2.2.2.1 (by decide)
  · have h := (GetPushPawnScan_spec MixedActorGraph (fun _ => AcceleratingPushee) none (some 1)
      100 ⟨1 / 2, 1 / 10, 2, 3⟩).2.2.2.2.2.2.2.2.1 AcceleratingPushee
    simpa [AcceleratingPushee, IsPusheeAccelerating_two] using h
  · have h := (GetPushPawnScan_spec MixedActorGraph (fun _ => AcceleratingPushee) none (some 1)
      100 ⟨1 / 2, 1 / 10, 2, 3⟩).2.2.2.2.2.2.2.2.1 InclinePushee
    simpa [InclinePushee, IsPusheeAccelerating_zero] using h

/-! ### Base scan range -/

/-- C17 (evaluation at the failing input): three actors of one class, whose
class-default root is a capsule of radius 34 and half height 88, get different
results from `GetMaxDefaultCollisionShapeSize` without a shape-kind override,
depending on the live root component: 88 when the live root is a capsule, 0
when the live root is a scene component of another class, and a fatal
`CastChecked` failure when the live root is a sphere. -/
theorem GetMaxDefaultCollisionShapeSize_depends_on_live_root :
    (CapsuleClassActor (USceneComponent.Capsule (34 : ℚ) 88)).DefaultRootComponent
        = (CapsuleClassActor (USceneComponent.Other : USceneComponent ℚ)).DefaultRootComponent
    ∧ GetMaxDefaultCollisionShapeSize
        (some (CapsuleClassActor (USceneComponent.Capsule (34 : ℚ) 88)))
        EPushCollisionType.None = some 88
    ∧ GetMaxDefaultCollisionShapeSize
        (some (CapsuleClassActor (USceneComponent.Other : USceneComponent ℚ)))
        EPushCollisionType.None = some 0
    ∧ GetMaxDefaultCollisionShapeSize
        (some (CapsuleClassActor (USceneComponent.Sphere (50 : ℚ))))
        EPushCollisionType.None = none := by
  refine ⟨rfl, ?_, ?_, ?_⟩
  · simp [GetMaxDefaultCollisionShapeSize, GetDefaultPusheeCollisionShape,
      GetPusheeCollisionShapeType, CapsuleClassActor, FCollisionShape.IsNearlyZero,
      UE_KINDA_SMALL_NUMBER]
    norm_num
  · simp [GetMaxDefaultCollisionShapeSize, GetDefaultPusheeCollisionShape,
      GetPusheeCollisionShapeType, CapsuleClassActor, FCollisionShape.IsNearlyZero]
  · simp [GetMaxDefaultCollisionShapeSize, GetDefaultPusheeCollisionShape,
      GetPusheeCollisionShapeType, CapsuleClassActor]

/-! ### Event payload -/

/-- C12: for every event payload whose first segment is present (a push
target data), `GetPushDataFromEventData` outputs the distance of the first
segment unchanged; when the second segment is absent it outputs
`strengthScalar = 1` and `overrideStrength = false`; when the second (strength)
segment is present it outputs that segment's strength scalar and override flag
verbatim. The call does not fail in either case. -/
theorem GetPushDataFromEventData_spec (EventData : FGameplayEventData ℝ) (bForce2D : Bool)
    (PushTargetData : FPushPawnAbilityTargetData ℝ)
    (hfirst : EventData.GetTargetData 0
      = some (FGameplayAbilityTargetData.PushPawn PushTargetData)) :
    (EventData.GetTargetData 1 = none →
      GetPushDataFromEventData EventData bForce2D
        = some (if bForce2D = true then PushTargetData.Direction.GetSafeNormal2D UE_SMALL_NUMBER
                else PushTargetData.Direction.GetSafeNormal UE_SMALL_NUMBER,
            PushTargetData.Distance, 1, false))
    ∧ (∀ PushStrengthTargetData : FPushPawnStrengthTargetData ℝ,
        EventData.GetTargetData 1
            = some (FGameplayAbilityTargetData.Strength PushStrengthTargetData) →
        GetPushDataFromEventData EventData bForce2D
          = some (if bForce2D = true
                    then PushTargetData.Direction.GetSafeNormal2D UE_SMALL_NUMBER
                  else PushTargetData.Direction.GetSafeNormal UE_SMALL_NUMBER,
              PushTargetData.Distance, PushStrengthTargetData.StrengthScalar,
              PushStrengthTargetData.bOverrideStrength)) := by
  constructor
  · intro h
    simp only [GetPushDataFromEventData, hfirst, h]
  · intro S h
    simp only [GetPushDataFromEventData, hfirst, h]

/-- Witness for C12: a payload with only the first segment (direction
(1, 0, 0), distance 5, strength 3) yields distance 5, strength scalar 1 and no
override; with a second segment (strength 2, override set) it yields strength
scalar 2 and the override. -/
theorem GetPushDataFromEventData_spec_witness :
    GetPushDataFromEventData
        ⟨[some (FGameplayAbilityTargetData.PushPawn ⟨⟨1, 0, 0⟩, 5, 3⟩)]⟩ false
      = some (if false = true then (⟨1, 0, 0⟩ : FVector ℝ).GetSafeNormal2D UE_SMALL_NUMBER
              else (⟨1, 0, 0⟩ : FVector ℝ).GetSafeNormal UE_SMALL_NUMBER, 5, 1, false)
    ∧ GetPushDataFromEventData
        ⟨[some (FGameplayAbilityTargetData.PushPawn ⟨⟨1, 0, 0⟩, 5, 3⟩),
          some (FGameplayAbilityTargetData.Strength ⟨2, true⟩)]⟩ false
      = some (if false = true then (⟨1, 0, 0⟩ : FVector ℝ).GetSafeNormal2D UE_SMALL_NUMBER
              else (⟨1, 0, 0⟩ : FVector ℝ).GetSafeNormal UE_SMALL_NUMBER, 5, 2, true) :=
  ⟨(GetPushDataFromEventData_spec
      ⟨[some (FGameplayAbilityTargetData.PushPawn ⟨⟨1, 0, 0⟩, 5, 3⟩)]⟩ false
      ⟨⟨1, 0, 0⟩, 5, 3⟩ rfl).1 rfl,
   (GetPushDataFromEventData_spec
      ⟨[some (FGameplayAbilityTargetData.PushPawn ⟨⟨1, 0, 0⟩, 5, 3⟩),
        some (FGameplayAbilityTargetData.Strength ⟨2, true⟩)]⟩ false
      ⟨⟨1, 0, 0⟩, 5, 3⟩ rfl).2 ⟨2, true⟩ rfl⟩

/-! ### Net-sync throttle -/

/-- `ShouldWaitForNetSync` spelled out as a proposition. -/
theorem ShouldWaitForNetSync_iff {α : Type} [LinearOrderedField α]
    (Ability : UPushPawn_Scan_Base α) (Now : α) :
    ShouldWaitForNetSync Ability Now = true ↔
      Ability.bEnableWaitForNetSync = true ∧
        ((Ability.MaxPushesUntilNetSync ≠ 0
            ∧ Ability.MaxPushesUntilNetSync ≤ Ability.TriggeredPushesSinceLastNetSync
            ∧ Ability.MinNetSyncDelay ≤ Now - Ability.LastPushTime)
          ∨ (Ability.NetSyncDelayAfterPush ≠ 0
            ∧ Ability.NetSyncDelayAfterPush ≤ Now - Ability.LastPushTime)
          ∨ (Ability.NetSyncDelayWithoutPush ≠ 0
            ∧ Ability.NetSyncDelayWithoutPush ≤ Now - Ability.LastNetSyncTime)) := by
  simp only [ShouldWaitForNetSync, Bool.and_eq_true, Bool.or_eq_true, decide_eq_true_eq,
    ge_iff_le, and_assoc, or_assoc]

/-- Pushes change neither the configuration nor `LastNetSyncTime`. -/
theorem TriggerPush_foldl_keeps {α : Type} [LinearOrderedField α] (PushTimes : List α) :
    ∀ Ability : UPushPawn_Scan_Base α,
      (PushTimes.foldl TriggerPush Ability).bEnableWaitForNetSync
          = Ability.bEnableWaitForNetSync
      ∧ (PushTimes.foldl TriggerPush Ability).NetSyncDelayWithoutPush
          = Ability.NetSyncDelayWithoutPush
      ∧ (PushTimes.foldl TriggerPush Ability).LastNetSyncTime = Ability.LastNetSyncTime := by
  induction PushTimes with
  | nil => intro Ability; exact ⟨rfl, rfl, rfl⟩
  | cons t rest ih =>
    intro Ability
    rw [List.foldl_cons]
    obtain ⟨h1, h2, h3⟩ := ih (TriggerPush Ability t)
    exact ⟨h1, h2, h3⟩

/-- C19 (counterexample): with the default configuration, six pushes the last
of which happened at time 0, `ShouldWaitForNetSync` is true at time 1 (count
threshold reached and `MinNetSyncDelay` passed); after one further push at
time 3/2 it is false at time 3/2, although `ConsumeWaitForNetSync` was not
called. -/
theorem ShouldWaitForNetSync_not_monotonic_under_pushes :
    ShouldWaitForNetSync (DefaultScanAbility 6 (0 : ℚ) 0) 1 = true
    ∧ (1 : ℚ) ≤ 3 / 2
    ∧ ShouldWaitForNetSync (TriggerPush (DefaultScanAbility 6 (0 : ℚ) 0) (3 / 2)) (3 / 2)
        = false := by
  refine ⟨?_, by norm_num, ?_⟩
  · rw [ShouldWaitForNetSync_iff]
    norm_num [DefaultScanAbility]
  · rw [Bool.eq_false_iff, Ne, ShouldWaitForNetSync_iff]
    norm_num [DefaultScanAbility, TriggerPush]

/-- C19 (amended): once any threshold is satisfied at time `t`,
`ShouldWaitForNetSync` stays true at every later time as long as the state is
unchanged (no push, no `ConsumeWaitForNetSync`); and when it is the
time-since-last-sync threshold that is satisfied at time `t`, it stays true at
every later time whatever pushes occur in between, until
`ConsumeWaitForNetSync` is called. -/
theorem ShouldWaitForNetSync_monotonic {α : Type} [LinearOrderedField α]
    (Ability : UPushPawn_Scan_Base α) (t later : α) (hle : t ≤ later) :
    (ShouldWaitForNetSync Ability t = true → ShouldWaitForNetSync Ability later = true)
    ∧ (∀ PushTimes : List α,
        Ability.bEnableWaitForNetSync = true →
        Ability.NetSyncDelayWithoutPush ≠ 0 →
        Ability.NetSyncDelayWithoutPush ≤ t - Ability.LastNetSyncTime →
        ShouldWaitForNetSync (PushTimes.foldl TriggerPush Ability) later = true) := by
  constructor
  · rw [ShouldWaitForNetSync_iff, ShouldWaitForNetSync_iff]
    rintro ⟨he, h⟩
    refine ⟨he, ?_⟩
    rcases h with ⟨h1, h2, h3⟩ | ⟨h1, h2⟩ | ⟨h1, h2⟩
    · exact Or.inl ⟨h1, h2, by linarith⟩
    · exact Or.inr (Or.inl ⟨h1, by linarith⟩)
    · exact Or.inr (Or.inr ⟨h1, by linarith⟩)
  · intro PushTimes he hne hc
    obtain ⟨k1, k2, k3⟩ := TriggerPush_foldl_keeps PushTimes Ability
    rw [ShouldWaitForNetSync_iff, k1, k2, k3]
    exact ⟨he, Or.inr (Or.inr ⟨hne, by linarith⟩)⟩

/-- Witness for C19 (amended): with the default configuration, six pushes the
last at time 0, the check is true at time 1 and stays true at time 20; with
the last sync 12 seconds back at time 12, it is true at time 20 even after
pushes at times 13 and 19. -/
theorem ShouldWaitForNetSync_monotonic_witness :
    ShouldWaitForNetSync (DefaultScanAbility 6 (0 : ℚ) 0) 20 = true
    ∧ ShouldWaitForNetSync
        (([13, 19] : List ℚ).foldl TriggerPush (DefaultScanAbility 0 (0 : ℚ) 0)) 20 = true :=
  ⟨(ShouldWaitForNetSync_monotonic (DefaultScanAbility 6 (0 : ℚ) 0) 1 20 (by norm_num)).1
      (by rw [ShouldWaitForNetSync_iff]; norm_num [DefaultScanAbility]),
   (ShouldWaitForNetSync_monotonic (DefaultScanAbility 0 (0 : ℚ) 0) 12 20 (by norm_num)).2
      [13, 19] rfl (by norm_num [DefaultScanAbility]) (by norm_num [DefaultScanAbility])⟩

/-- C20 (counterexample): with the default configuration and the last push at
time 0, calling `ConsumeWaitForNetSync` at time 10 and then
`ShouldWaitForNetSync` at time 10 returns true, although
`NetSyncDelayWithoutPush` has not elapsed since the sync: the 5 seconds of
`NetSyncDelayAfterPush` have passed since the last push. -/
theorem ShouldWaitForNetSync_after_consume_counterexample :
    ShouldWaitForNetSync (ConsumeWaitForNetSync (DefaultScanAbility 3 (0 : ℚ) 0) 10) 10 = true
    ∧ (ConsumeWaitForNetSync (DefaultScanAbility 3 (0 : ℚ) 0) 10).TriggeredPushesSinceLastNetSync
        = 0
    ∧ (ConsumeWaitForNetSync (DefaultScanAbility 3 (0 : ℚ) 0) 10).LastNetSyncTime = 10
    ∧ (10 : ℚ) - (ConsumeWaitForNetSync (DefaultScanAbility 3 (0 : ℚ) 0) 10).LastNetSyncTime
        < (DefaultScanAbility 3 (0 : ℚ) 0).NetSyncDelayWithoutPush := by
  refine ⟨?_, rfl, rfl, ?_⟩
  · rw [ShouldWaitForNetSync_iff]
    norm_num [DefaultScanAbility, ConsumeWaitForNetSync]
  · norm_num [DefaultScanAbility, ConsumeWaitForNetSync]

/-- C20 (amended): `ConsumeWaitForNetSync` resets the counter to 0 and sets
`LastNetSyncTime` to now; `ShouldWaitForNetSync` called right after it, at the
same time and with no further pushes, returns false provided
`NetSyncDelayAfterPush` is disabled or has not elapsed since the last push
(the thresholds `MaxPushesUntilNetSync` and `NetSyncDelayWithoutPush` being
non-negative, as the editor clamps them). -/
theorem ShouldWaitForNetSync_after_consume {α : Type} [LinearOrderedField α]
    (Ability : UPushPawn_Scan_Base α) (now : α)
    (hMax : 0 ≤ Ability.MaxPushesUntilNetSync)
    (hWithout : 0 ≤ Ability.NetSyncDelayWithoutPush)
    (hAfter : Ability.NetSyncDelayAfterPush = 0
      ∨ now - Ability.LastPushTime < Ability.NetSyncDelayAfterPush) :
    (ConsumeWaitForNetSync Ability now).TriggeredPushesSinceLastNetSync = 0
    ∧ (ConsumeWaitForNetSync Ability now).LastNetSyncTime = now
    ∧ ShouldWaitForNetSync (ConsumeWaitForNetSync Ability now) now = false := by
  refine ⟨rfl, rfl, ?_⟩
  rw [Bool.eq_false_iff, Ne, ShouldWaitForNetSync_iff]
  simp only [ConsumeWaitForNetSync, sub_self]
  rintro ⟨_, ⟨h1, h2, _⟩ | ⟨h1, h2⟩ | ⟨h1, h2⟩⟩
  · exact h1 (le_antisymm h2 hMax)
  · rcases hAfter with h0 | hlt
    · exact h1 h0
    · exact absurd h2 (not_le.mpr hlt)
  · exact h1 (le_antisymm h2 hWithout)

/-- Witness for C20 (amended): with the default configuration, three pushes the
last at time 8, a sync consumed at time 10 is followed by a false check at
time 10. -/
theorem ShouldWaitForNetSync_after_consume_witness :
    ShouldWaitForNetSync (ConsumeWaitForNetSync (DefaultScanAbility 3 (8 : ℚ) 0) 10) 10
      = false :=
  (ShouldWaitForNetSync_after_consume (DefaultScanAbility 3 (8 : ℚ) 0) 10
    (by norm_num [DefaultScanAbility]) (by norm_num [DefaultScanAbility])
    (Or.inr (by norm_num [DefaultScanAbility]))).2.2

/-! ### Wire payload -/

/-- Rounding `32767 * x` to the nearest integer, for `x` in `[-1, 1]`, gives
an integer in `[-32767, 32767]` within one half of `32767 * x`. -/
theorem RoundToInt_scaled_bounds {α : Type} [LinearOrderedField α] [FloorRing α] (x : α)
    (hx : |x| ≤ 1) :
    -32767 ≤ FMath.RoundToInt (32767 * x) ∧ FMath.RoundToInt (32767 * x) ≤ 32767
    ∧ |((FMath.RoundToInt (32767 * x) : Int) : α) - 32767 * x| ≤ 1 / 2 := by
  unfold FMath.RoundToInt
  rw [abs_le] at hx
  have h1 : ((⌊32767 * x + 1 / 2⌋ : Int) : α) ≤ 32767 * x + 1 / 2 := Int.floor_le _
  have h2 : 32767 * x + 1 / 2 < ((⌊32767 * x + 1 / 2⌋ : Int) : α) + 1 := Int.lt_floor_add_one _
  refine ⟨?_, ?_, ?_⟩
  · have h : ((-32768 : Int) : α) < ((⌊32767 * x + 1 / 2⌋ : Int) : α) := by
      push_cast
      linarith [hx.1]
    have h3 := Int.cast_lt.mp h
    omega
  · have h : ((⌊32767 * x + 1 / 2⌋ : Int) : α) < ((32768 : Int) : α) := by
      push_cast
      linarith [hx.2]
    have h3 := Int.cast_lt.mp h
    omega
  · rw [abs_le]
    constructor <;> linarith

/-- The archive after `WriteFixedCompressedFloat<1, 16>` on a saving archive:
one more integer field, whose value is the rounded `32767 * x` plus the bias
32768 when that lies in the 16-bit range. -/
theorem WriteFixedCompressedFloat_saving {α : Type} [LinearOrderedField α] [FloorRing α]
    (x : α) (e : Bool) (items : List (FArchiveItem α)) :
    ∃ q : Nat,
      (WriteFixedCompressedFloat 1 16 x ⟨true, e, items⟩).2
        = ⟨true, e, items ++ [FArchiveItem.Int q]⟩
      ∧ (|x| ≤ 1 → (q : Int) = FMath.RoundToInt (32767 * x) + 32768) := by
  refine ⟨_, rfl, fun hx => ?_⟩
  obtain ⟨hlo, hhi, _⟩ := RoundToInt_scaled_bounds x hx
  have hcast : (((2 ^ (16 - 1) - 1) / 1 : Nat) : α) = 32767 := by norm_num
  have hgt : ¬ ((1 : Nat) > 2 ^ (16 - 1) - 1) := by norm_num
  have hbias : ((2 ^ (16 - 1) : Nat) : Int) = 32768 := by norm_num
  simp only [hcast, if_neg hgt, hbias]
  generalize FMath.RoundToInt (32767 * x) = n at hlo hhi
  have hmod : (n + 32768) % 2 ^ 32 = n + 32768 :=
    Int.emod_eq_of_lt (by omega) (by omega)
  have hnat : ((n + 32768).toNat : Int) = n + 32768 := Int.toNat_of_nonneg (by omega)
  have hle : ¬ ((n + 32768).toNat > 2 ^ 16 - 1) := by omega
  rw [hmod, if_neg hle]
  exact hnat

/-- The value and archive after `ReadFixedCompressedFloat<1, 16>` on a loading
archive whose next field is the integer `q`. -/
theorem ReadFixedCompressedFloat_loading {α : Type} [LinearOrderedField α] [FloorRing α]
    (q : Nat) (e : Bool) (rest : List (FArchiveItem α)) :
    ReadFixedCompressedFloat 1 16 (⟨false, e, FArchiveItem.Int q :: rest⟩ : FArchive α)
      = ((((q : Int) - 32768 : Int) : α) * (1 / 32767), ⟨false, e, rest⟩) := by
  have hgt : ¬ ((1 : Nat) > 2 ^ (16 - 1) - 1) := by norm_num
  have hcast : (((2 ^ (16 - 1) - 1) / 1 : Nat) : α) = 32767 := by norm_num
  have hbias : ((2 ^ (16 - 1) : Nat) : Int) = 32768 := by norm_num
  simp only [ReadFixedCompressedFloat, FArchive.SerializeInt, if_neg hgt, hcast, hbias,
    Bool.false_eq_true, if_false]

/-- Reading back a component written by `WriteFixedCompressedFloat<1, 16>`:
for a value in `[-1, 1]` the error is at most `1 / 65534`. -/
theorem quantize_roundtrip_error {α : Type} [LinearOrderedField α] [FloorRing α] (x : α)
    (q : Nat) (hx : |x| ≤ 1) (hq : (q : Int) = FMath.RoundToInt (32767 * x) + 32768) :
    |(((q : Int) - 32768 : Int) : α) * (1 / 32767) - x| ≤ 1 / 65534 := by
  obtain ⟨_, _, herr⟩ := RoundToInt_scaled_bounds x hx
  rw [hq, add_sub_cancel_right]
  rw [abs_le] at herr ⊢
  constructor
  · linarith [herr.1]
  · linarith [herr.2]

/-- The archive after writing a payload into an empty saving archive: the
three quantized direction components, then the distance, then the strength
scalar. -/
theorem NetSerialize_saving {α : Type} [LinearOrderedField α] [FloorRing α]
    (Data : FPushPawnAbilityTargetData α) :
    ∃ qx qy qz : Nat,
      (FVector_NetQuantizeNormal.NetSerialize Data.Direction ⟨true, false, []⟩).2.2
        = ⟨true, false, [FArchiveItem.Int qx, FArchiveItem.Int qy, FArchiveItem.Int qz]⟩
      ∧ (Data.NetSerialize ⟨true, false, []⟩).2.1
        = ⟨true, false, [FArchiveItem.Int qx, FArchiveItem.Int qy, FArchiveItem.Int qz,
            FArchiveItem.Float Data.Distance, FArchiveItem.Float Data.StrengthScalar]⟩
      ∧ (|Data.Direction.X| ≤ 1 → (qx : Int) = FMath.RoundToInt (32767 * Data.Direction.X) + 32768)
      ∧ (|Data.Direction.Y| ≤ 1 → (qy : Int) = FMath.RoundToInt (32767 * Data.Direction.Y) + 32768)
      ∧ (|Data.Direction.Z| ≤ 1 →
          (qz : Int) = FMath.RoundToInt (32767 * Data.Direction.Z) + 32768) := by
  obtain ⟨qx, hx, hqx⟩ := WriteFixedCompressedFloat_saving Data.Direction.X false []
  obtain ⟨qy, hy, hqy⟩ :=
    WriteFixedCompressedFloat_saving Data.Direction.Y false ([] ++ [FArchiveItem.Int qx])
  obtain ⟨qz, hz, hqz⟩ :=
    WriteFixedCompressedFloat_saving Data.Direction.Z false
      ([] ++ [FArchiveItem.Int qx] ++ [FArchiveItem.Int qy])
  have hdir : (FVector_NetQuantizeNormal.NetSerialize Data.Direction ⟨true, false, []⟩).2.2
      = ⟨true, false, [FArchiveItem.Int qx, FArchiveItem.Int qy, FArchiveItem.Int qz]⟩ := by
    simp only [FVector_NetQuantizeNormal.NetSerialize, SerializeFixedVector, if_true, hx, hy, hz]
    rfl
  refine ⟨qx, qy, qz, hdir, ?_, hqx, hqy, hqz⟩
  simp only [FPushPawnAbilityTargetData.NetSerialize, hdir, FArchive.SerializeFloat, if_true]
  rfl

/-- The payload and archive after reading five fields written by
`NetSerialize`. -/
theorem NetSerialize_loading {α : Type} [LinearOrderedField α] [FloorRing α]
    (Initial : FPushPawnAbilityTargetData α) (qx qy qz : Nat) (Distance StrengthScalar : α) :
    Initial.NetSerialize ⟨false, false,
        [FArchiveItem.Int qx, FArchiveItem.Int qy, FArchiveItem.Int qz,
          FArchiveItem.Float Distance, FArchiveItem.Float StrengthScalar]⟩
      = (⟨⟨(((qx : Int) - 32768 : Int) : α) * (1 / 32767),
            (((qy : Int) - 32768 : Int) : α) * (1 / 32767),
            (((qz : Int) - 32768 : Int) : α) * (1 / 32767)⟩, Distance, StrengthScalar⟩,
          ⟨false, false, []⟩, true, true) := by
  simp only [FPushPawnAbilityTargetData.NetSerialize, FVector_NetQuantizeNormal.NetSerialize,
    SerializeFixedVector, Bool.false_eq_true, if_false, ReadFixedCompressedFloat_loading,
    FArchive.SerializeFloat]

/-- C13 (amended): writing a payload with `NetSerialize` into an empty archive
writes the direction first, then the distance, then the strength scalar;
reading those fields back with `NetSerialize` consumes all of them without
error and reproduces distance and strength scalar exactly, and reproduces
every direction component that lies in `[-1, 1]` (as the components of a
normalized direction do) within the quantization tolerance `1 / 65534`. -/
theorem NetSerialize_roundtrip {α : Type} [LinearOrderedField α] [FloorRing α]
    (Data Initial : FPushPawnAbilityTargetData α) :
    (Data.NetSerialize ⟨true, false, []⟩).2.1.Items
        = (FVector_NetQuantizeNormal.NetSerialize Data.Direction ⟨true, false, []⟩).2.2.Items
          ++ [FArchiveItem.Float Data.Distance, FArchiveItem.Float Data.StrengthScalar]
    ∧ (Initial.NetSerialize
        ⟨false, false, (Data.NetSerialize ⟨true, false, []⟩).2.1.Items⟩).2.1
        = ⟨false, false, []⟩
    ∧ (Initial.NetSerialize
        ⟨false, false, (Data.NetSerialize ⟨true, false, []⟩).2.1.Items⟩).1.Distance
        = Data.Distance
    ∧ (Initial.NetSerialize
        ⟨false, false, (Data.NetSerialize ⟨true, false, []⟩).2.1.Items⟩).1.StrengthScalar
        = Data.StrengthScalar
    ∧ (|Data.Direction.X| ≤ 1 →
        |(Initial.NetSerialize
            ⟨false, false, (Data.NetSerialize ⟨true, false, []⟩).2.1.Items⟩).1.Direction.X
          - Data.Direction.X| ≤ 1 / 65534)
    ∧ (|Data.Direction.Y| ≤ 1 →
        |(Initial.NetSerialize
            ⟨false, false, (Data.NetSerialize ⟨true, false, []⟩).2.1.Items⟩).1.Direction.Y
          - Data.Direction.Y| ≤ 1 / 65534)
    ∧ (|Data.Direction.Z| ≤ 1 →
        |(Initial.NetSerialize
            ⟨false, false, (Data.NetSerialize ⟨true, false, []⟩).2.1.Items⟩).1.Direction.Z
          - Data.Direction.Z| ≤ 1 / 65534) := by
  obtain ⟨qx, qy, qz, hdir, hsave, hqx, hqy, hqz⟩ := NetSerialize_saving Data
  have hload := NetSerialize_loading Initial qx qy qz Data.Distance Data.StrengthScalar
  rw [hsave, hdir]
  dsimp only
  rw [hload]
  refine ⟨rfl, rfl, rfl, rfl, ?_, ?_, ?_⟩
  · intro h; exact quantize_roundtrip_error _ qx h (hqx h)
  · intro h; exact quantize_roundtrip_error _ qy h (hqy h)
  · intro h; exact quantize_roundtrip_error _ qz h (hqz h)

/-- Witness for C13 (amended): the payload with direction (0, 0, 1), distance
5 and strength scalar 3 reads back with its Z component within `1 / 65534`. -/
theorem NetSerialize_roundtrip_witness :
    |((⟨⟨0, 0, 0⟩, 0, 1⟩ : FPushPawnAbilityTargetData ℚ).NetSerialize
        ⟨false, false,
          ((⟨⟨0, 0, 1⟩, 5, 3⟩ : FPushPawnAbilityTargetData ℚ).NetSerialize
            ⟨true, false, []⟩).2.1.Items⟩).1.Direction.Z
      - (⟨⟨0, 0, 1⟩, 5, 3⟩ : FPushPawnAbilityTargetData ℚ).Direction.Z| ≤ 1 / 65534 :=
  (NetSerialize_roundtrip (⟨⟨0, 0, 1⟩, 5, 3⟩ : FPushPawnAbilityTargetData ℚ)
    ⟨⟨0, 0, 0⟩, 0, 1⟩).2.2.2.2.2.2 (by norm_num)

/-- Writing the component 2 with `WriteFixedCompressedFloat<1, 16>`: the biased
value 98302 exceeds the 16-bit range and is clamped to 65535. -/
theorem WriteFixedCompressedFloat_two :
    (WriteFixedCompressedFloat 1 16 (2 : ℚ) ⟨true, false, []⟩).2
      = ⟨true, false, [FArchiveItem.Int 65535]⟩ := by
  have hfloor : FMath.RoundToInt ((32767 : ℚ) * 2) = 65534 := by
    unfold FMath.RoundToInt
    rw [Int.floor_eq_iff]
    constructor <;> norm_num
  have hgt : ¬ ((1 : Nat) > 2 ^ (16 - 1) - 1) := by norm_num
  have hcast : (((2 ^ (16 - 1) - 1) / 1 : Nat) : ℚ) = 32767 := by norm_num
  have hbias : ((2 ^ (16 - 1) : Nat) : Int) = 32768 := by norm_num
  simp only [WriteFixedCompressedFloat, FArchive.SerializeInt, hcast, if_neg hgt, hbias, hfloor,
    if_true]
  norm_num

/-- C13 (counterexample): the payload with direction (2, 0, 0) reads back with
direction X equal to 1: the component is clamped to the range of the
quantized normal, an error of 1, far beyond the quantization tolerance. -/
theorem NetSerialize_roundtrip_counterexample :
    ((⟨⟨0, 0, 0⟩, 0, 1⟩ : FPushPawnAbilityTargetData ℚ).NetSerialize
        ⟨false, false,
          ((⟨⟨2, 0, 0⟩, 5, 3⟩ : FPushPawnAbilityTargetData ℚ).NetSerialize
            ⟨true, false, []⟩).2.1.Items⟩).1.Direction.X = 1
    ∧ ¬ (|(1 : ℚ) - (⟨⟨2, 0, 0⟩, 5, 3⟩ : FPushPawnAbilityTargetData ℚ).Direction.X|
          ≤ 1 / 65534) := by
  constructor
  · obtain ⟨qy, hy, _⟩ :=
      WriteFixedCompressedFloat_saving (0 : ℚ) false [FArchiveItem.Int 65535]
    obtain ⟨qz, hz, _⟩ :=
      WriteFixedCompressedFloat_saving (0 : ℚ) false
        ([FArchiveItem.Int 65535] ++ [FArchiveItem.Int qy])
    have hsave : ((⟨⟨2, 0, 0⟩, 5, 3⟩ : FPushPawnAbilityTargetData ℚ).NetSerialize
        ⟨true, false, []⟩).2.1.Items
        = [FArchiveItem.Int 65535, FArchiveItem.Int qy, FArchiveItem.Int qz,
            FArchiveItem.Float 5, FArchiveItem.Float 3] := by
      simp only [FPushPawnAbilityTargetData.NetSerialize, FVector_NetQuantizeNormal.NetSerialize,
        SerializeFixedVector, if_true, WriteFixedCompressedFloat_two, hy, hz,
        FArchive.SerializeFloat]
      rfl
    rw [hsave, NetSerialize_loading]
    norm_num
  · norm_num

/-! ### Net-sync thresholds -/

/-- C21: each net-sync threshold is disabled by the value 0. With
`MaxPushesUntilNetSync = 0` the result of `ShouldWaitForNetSync` is decided by
the two time conditions alone, with `NetSyncDelayAfterPush = 0` by the count
condition and the time-since-last-sync condition alone, with
`NetSyncDelayWithoutPush = 0` by the count condition and the
time-since-last-push condition alone; with all three set to 0, or with
`bEnableWaitForNetSync` false, the result is false at every time. -/
theorem ShouldWaitForNetSync_disabled {α : Type} [LinearOrderedField α]
    (Ability : UPushPawn_Scan_Base α) (Now : α) :
    (Ability.MaxPushesUntilNetSync = 0 →
      (ShouldWaitForNetSync Ability Now = true ↔
        Ability.bEnableWaitForNetSync = true ∧
          ((Ability.NetSyncDelayAfterPush ≠ 0
              ∧ Ability.NetSyncDelayAfterPush ≤ Now - Ability.LastPushTime)
            ∨ (Ability.NetSyncDelayWithoutPush ≠ 0
              ∧ Ability.NetSyncDelayWithoutPush ≤ Now - Ability.LastNetSyncTime))))
    ∧ (Ability.NetSyncDelayAfterPush = 0 →
      (ShouldWaitForNetSync Ability Now = true ↔
        Ability.bEnableWaitForNetSync = true ∧
          ((Ability.MaxPushesUntilNetSync ≠ 0
              ∧ Ability.MaxPushesUntilNetSync ≤ Ability.TriggeredPushesSinceLastNetSync
              ∧ Ability.MinNetSyncDelay ≤ Now - Ability.LastPushTime)
            ∨ (Ability.NetSyncDelayWithoutPush ≠ 0
              ∧ Ability.NetSyncDelayWithoutPush ≤ Now - Ability.LastNetSyncTime))))
    ∧ (Ability.NetSyncDelayWithoutPush = 0 →
      (ShouldWaitForNetSync Ability Now = true ↔
        Ability.bEnableWaitForNetSync = true ∧
          ((Ability.MaxPushesUntilNetSync ≠ 0
              ∧ Ability.MaxPushesUntilNetSync ≤ Ability.TriggeredPushesSinceLastNetSync
              ∧ Ability.MinNetSyncDelay ≤ Now - Ability.LastPushTime)
            ∨ (Ability.NetSyncDelayAfterPush ≠ 0
              ∧ Ability.NetSyncDelayAfterPush ≤ Now - Ability.LastPushTime))))
    ∧ (Ability.MaxPushesUntilNetSync = 0 → Ability.NetSyncDelayAfterPush = 0 →
        Ability.NetSyncDelayWithoutPush = 0 → ShouldWaitForNetSync Ability Now = false)
    ∧ (Ability.bEnableWaitForNetSync = false → ShouldWaitForNetSync Ability Now = false) := by
  refine ⟨fun h => ?_, fun h => ?_, fun h => ?_, fun h1 h2 h3 => ?_, fun h => ?_⟩
  · rw [ShouldWaitForNetSync_iff]
    simp [h]
  · rw [ShouldWaitForNetSync_iff]
    simp [h]
  · rw [ShouldWaitForNetSync_iff]
    simp [h]
  · rw [Bool.eq_false_iff, Ne, ShouldWaitForNetSync_iff]
    simp [h1, h2, h3]
  · rw [Bool.eq_false_iff, Ne, ShouldWaitForNetSync_iff]
    simp [h]

/-- Witness for C21: with the header defaults but all three thresholds set to
0, seven pushes and the last push and sync at time 0, the check is false at
time 100; with the defaults and net-sync switched off it is false as well. -/
theorem ShouldWaitForNetSync_disabled_witness :
    ShouldWaitForNetSync
        ({ DefaultScanAbility 7 (0 : ℚ) 0 with
            MaxPushesUntilNetSync := 0, NetSyncDelayAfterPush := 0,
            NetSyncDelayWithoutPush := 0 }) 100 = false
    ∧ ShouldWaitForNetSync
        ({ DefaultScanAbility 7 (0 : ℚ) 0 with bEnableWaitForNetSync := false }) 100 = false :=
  ⟨(ShouldWaitForNetSync_disabled
      ({ DefaultScanAbility 7 (0 : ℚ) 0 with
          MaxPushesUntilNetSync := 0, NetSyncDelayAfterPush := 0,
          NetSyncDelayWithoutPush := 0 }) 100).2.2.2.1 rfl rfl rfl,
   (ShouldWaitForNetSync_disabled
      ({ DefaultScanAbility 7 (0 : ℚ) 0 with bEnableWaitForNetSync := false }) 100).2.2.2.2 rfl⟩

/-! ### Strength: the simple entry point -/

/-- C24: `GetPushStrengthSimple` agrees with `GetPushStrength`: for every
pushee, distance, strength scalar, optional velocity curve, optional distance
curve and state of the console variables, it equals `GetPushStrength` on the
params holding the same scalar and curves. -/
theorem GetPushStrengthSimple_eq_GetPushStrength (CVars : FPushPawnCVars) (Pushee : APawn ℝ)
    (velocityCurve distanceCurve : Option (ℝ → ℝ)) (distance scalar : ℝ) :
    GetPushStrengthSimple CVars Pushee velocityCurve distanceCurve distance scalar
      = GetPushStrength CVars Pushee distance
          { StrengthScalar := scalar
            VelocityToStrengthCurve := velocityCurve
            DistanceToStrengthCurve := distanceCurve } := by
  unfold GetPushStrengthSimple GetPushStrength
  rfl

/-! ### Direction classifier: boundaries and return sites -/

/-- The actor at (1, 1, 0), at a signed angle of exactly 45 degrees from an
unrotated actor at the origin, is classified Right by the 4-way classifier. -/
theorem GetPushDirection_4Way_diag_right :
    GetPushDirection_4Way (ActorAt 1 1 0) (ActorAt 0 0 0)
      = (EPushCardinal_4Way.Right, EValidPushDirection.ValidDirection) := by
  rw [GetPushDirection_4Way_of_valid (ActorAt 1 1 0) (ActorAt 0 0 0) 45
    (by rw [planar_offset_diag_right]
        exact IsNearlyZero_of_planar_unit _ _ 0 half_sqrt_two_unit)
    (by rw [planar_offset_diag_right]
        exact CalculatePushDirection_diag_right.symm)]
  norm_num

/-- C22 (counterexample): the actor at (1, 1, 0) has a planar offset that is
not nearly zero and a signed angle of exactly 45 degrees, so `|a| <= 45`, and
`GetPushDirection_4Way` returns Right, not Forward. -/
theorem GetPushDirection_4Way_boundary_counterexample :
    (((ActorAt (1 : ℝ) 1 0).ActorLocation.sub
        (ActorAt (0 : ℝ) 0 0).ActorLocation).GetSafeNormal2D
        UE_SMALL_NUMBER).IsNearlyZero UE_KINDA_SMALL_NUMBER = false
    ∧ |CalculatePushDirection
        (((ActorAt (1 : ℝ) 1 0).ActorLocation.sub
          (ActorAt (0 : ℝ) 0 0).ActorLocation).GetSafeNormal2D UE_SMALL_NUMBER)
        (ActorAt (0 : ℝ) 0 0).ActorRotation| ≤ 45
    ∧ (GetPushDirection_4Way (ActorAt 1 1 0) (ActorAt 0 0 0)).1 = EPushCardinal_4Way.Right
    ∧ (GetPushDirection_4Way (ActorAt 1 1 0) (ActorAt 0 0 0)).1 ≠ EPushCardinal_4Way.Forward := by
  refine ⟨?_, ?_, ?_, ?_⟩
  · rw [planar_offset_diag_right]
    exact IsNearlyZero_of_planar_unit _ _ 0 half_sqrt_two_unit
  · rw [planar_offset_diag_right]
    show |CalculatePushDirection ⟨Real.sqrt 2 / 2, Real.sqrt 2 / 2, 0⟩ ⟨0, 0, 0⟩| ≤ 45
    rw [CalculatePushDirection_diag_right]
    norm_num
  · rw [GetPushDirection_4Way_diag_right]
  · rw [GetPushDirection_4Way_diag_right]
    decide

/-- C22 (amended): for an actor pair whose planar offset is not nearly zero,
with `a` the signed angle, `GetPushDirection_4Way` returns Forward when
`|a| < 45`; at the boundary it returns Right when `a = 45` and Left when
`a = -45`. -/
theorem GetPushDirection_4Way_boundary (FromActor ToActor : AActor ℝ) (a : ℝ)
    (hvalid : ((FromActor.ActorLocation.sub ToActor.ActorLocation).GetSafeNormal2D
      UE_SMALL_NUMBER).IsNearlyZero UE_KINDA_SMALL_NUMBER = false)
    (ha : a = CalculatePushDirection
      ((FromActor.ActorLocation.sub ToActor.ActorLocation).GetSafeNormal2D UE_SMALL_NUMBER)
      ToActor.ActorRotation) :
    (|a| < 45 → (GetPushDirection_4Way FromActor ToActor).1 = EPushCardinal_4Way.Forward)
    ∧ (a = 45 → (GetPushDirection_4Way FromActor ToActor).1 = EPushCardinal_4Way.Right)
    ∧ (a = -45 → (GetPushDirection_4Way FromActor ToActor).1 = EPushCardinal_4Way.Left) := by
  rw [GetPushDirection_4Way_of_valid FromActor ToActor a hvalid ha]
  refine ⟨fun h => ?_, fun h => ?_, fun h => ?_⟩
  · rw [if_neg (by rintro ⟨h1, _⟩; linarith), if_pos h.le]
  · rw [h]; norm_num
  · rw [h]; norm_num

/-- Witness for C22 (amended): the actor at (1, 1, 0), at exactly 45 degrees,
is classified Right, and the actor at (1, 0, 0), at 0 degrees, Forward. -/
theorem GetPushDirection_4Way_boundary_witness :
    (GetPushDirection_4Way (ActorAt 1 1 0) (ActorAt 0 0 0)).1 = EPushCardinal_4Way.Right
    ∧ (GetPushDirection_4Way (ActorAt 1 0 0) (ActorAt 0 0 0)).1 = EPushCardinal_4Way.Forward :=
  ⟨(GetPushDirection_4Way_boundary (ActorAt 1 1 0) (ActorAt 0 0 0) 45
      (by rw [planar_offset_diag_right]
          exact IsNearlyZero_of_planar_unit _ _ 0 half_sqrt_two_unit)
      (by rw [planar_offset_diag_right]
          exact CalculatePushDirection_diag_right.symm)).2.1 rfl,
   (GetPushDirection_4Way_boundary (ActorAt 1 0 0) (ActorAt 0 0 0) 0
      (by rw [planar_offset_of_unit 1 0 (by norm_num)]
          exact IsNearlyZero_of_planar_unit 1 0 0 (by norm_num))
      (by rw [planar_offset_of_unit 1 0 (by norm_num)]
          exact CalculatePushDirection_ahead.symm)).1 (by norm_num)⟩

/-- C25: for every base rotation and every direction that is not nearly zero
but whose X and Y components are zero (a purely vertical direction), the 2D
safe normal is the zero vector, both dot products are 0, and
`CalculatePushDirection` returns exactly 90 degrees, not 0. -/
theorem CalculatePushDirection_vertical (Direction : FVector ℝ) (BaseRotation : FRotator ℝ)
    (hx : Direction.X = 0) (hy : Direction.Y = 0)
    (hnz : Direction.IsNearlyZero UE_KINDA_SMALL_NUMBER = false) :
    Direction.GetSafeNormal2D UE_SMALL_NUMBER = ⟨0, 0, 0⟩
    ∧ FVector.DotProduct (FRotationMatrix BaseRotation).XAxis
        (Direction.GetSafeNormal2D UE_SMALL_NUMBER) = 0
    ∧ FVector.DotProduct (FRotationMatrix BaseRotation).YAxis
        (Direction.GetSafeNormal2D UE_SMALL_NUMBER) = 0
    ∧ CalculatePushDirection Direction BaseRotation = 90
    ∧ CalculatePushDirection Direction BaseRotation ≠ 0 := by
  have hn : Direction.GetSafeNormal2D UE_SMALL_NUMBER = ⟨0, 0, 0⟩ := by
    unfold FVector.GetSafeNormal2D
    simp only [hx, hy]
    rw [if_neg (by norm_num), if_pos (by norm_num [UE_SMALL_NUMBER])]
  have hfwd : FVector.DotProduct (FRotationMatrix BaseRotation).XAxis
      (Direction.GetSafeNormal2D UE_SMALL_NUMBER) = 0 := by
    rw [hn]; simp [FVector.DotProduct]
  have hright : FVector.DotProduct (FRotationMatrix BaseRotation).YAxis
      (Direction.GetSafeNormal2D UE_SMALL_NUMBER) = 0 := by
    rw [hn]; simp [FVector.DotProduct]
  have h90 : CalculatePushDirection Direction BaseRotation = 90 := by
    have hpi : Real.pi ≠ 0 := Real.pi_ne_zero
    rw [CalculatePushDirection_of_not_nearlyZero Direction BaseRotation hnz, hfwd, hright,
      if_neg (lt_irrefl 0), FMath.Acos_eq_arccos, Real.arccos_zero]
    unfold FMath.RadiansToDegrees
    field_simp
    ring
  refine ⟨hn, hfwd, hright, h90, ?_⟩
  rw [h90]
  norm_num

/-- Witness for C25: the direction straight up, (0, 0, 1), against the base
rotation (10, 20, 30), gives 90 degrees. -/
theorem CalculatePushDirection_vertical_witness :
    CalculatePushDirection ⟨0, 0, 1⟩ ⟨10, 20, 30⟩ = 90 :=
  (CalculatePushDirection_vertical ⟨0, 0, 1⟩ ⟨10, 20, 30⟩ rfl rfl
    (by
      simp only [FVector.IsNearlyZero, UE_KINDA_SMALL_NUMBER, Bool.and_eq_false_imp,
        Bool.and_eq_true, decide_eq_true_eq, decide_eq_false_iff_not, not_le]
      intro _
      norm_num)).2.2.2.1

/-- A real number that fails the first, fourth and fifth range check of the
8-way classifier does not exist. -/
theorem range_checks_exhaustive (r : ℝ) (h1 : ¬ (r ≥ 67.5 ∧ r ≤ 112.5)) (h4 : ¬ r ≤ 67.5)
    (h5 : ¬ r ≥ 112.5) : False := by
  rw [not_le] at h4
  rw [ge_iff_le, not_le] at h5
  exact h1 ⟨h4.le, h5.le⟩

/-- The actor at (1, 0, 0), straight ahead of an unrotated actor at the
origin, is classified Forward by the 8-way classifier. -/
theorem GetPushDirection_8Way_ahead :
    GetPushDirection_8Way (ActorAt 1 0 0) (ActorAt 0 0 0)
      = (EPushCardinal_8Way.Forward, EValidPushDirection.ValidDirection) := by
  rw [GetPushDirection_8Way_of_valid (ActorAt 1 0 0) (ActorAt 0 0 0) 0
    (by rw [planar_offset_of_unit 1 0 (by norm_num)]
        exact IsNearlyZero_of_planar_unit 1 0 0 (by norm_num))
    (by rw [planar_offset_of_unit 1 0 (by norm_num)]
        exact CalculatePushDirection_ahead.symm)]
  norm_num

/-- C23: in `GetPushDirection_8Way` the five range checks are exhaustive. The
traced copy of the function computes the same result and validity flag, the
return statement it reports is never the trailing default of line 396 but
always the early return of line 357 or one of the five range checks, and the
result Forward is produced only when the direction is invalid (nearly zero) or
`|a| <= 22.5`. -/
theorem GetPushDirection_8Way_exhaustive (FromActor ToActor : AActor ℝ) :
    ((GetPushDirection_8Way_Traced FromActor ToActor).1,
        (GetPushDirection_8Way_Traced FromActor ToActor).2.1)
      = GetPushDirection_8Way FromActor ToActor
    ∧ (GetPushDirection_8Way_Traced FromActor ToActor).2.2 ≠ 396
    ∧ (GetPushDirection_8Way_Traced FromActor ToActor).2.2 ∈ [357, 368, 374, 380, 386, 392]
    ∧ ((GetPushDirection_8Way FromActor ToActor).1 = EPushCardinal_8Way.Forward →
        ((FromActor.ActorLocation.sub ToActor.ActorLocation).GetSafeNormal2D
            UE_SMALL_NUMBER).IsNearlyZero UE_KINDA_SMALL_NUMBER = true
        ∨ |CalculatePushDirection
            ((FromActor.ActorLocation.sub ToActor.ActorLocation).GetSafeNormal2D UE_SMALL_NUMBER)
            ToActor.ActorRotation| ≤ 22.5) := by
  have hsite : (GetPushDirection_8Way_Traced FromActor ToActor).2.2
      ∈ [357, 368, 374, 380, 386, 392] := by
    unfold GetPushDirection_8Way_Traced
    simp only
    split_ifs
    all_goals first
      | exact (range_checks_exhaustive _ ‹_› ‹_› ‹_›).elim
      | simp
  refine ⟨?_, ?_, hsite, ?_⟩
  · unfold GetPushDirection_8Way_Traced GetPushDirection_8Way
    simp only
    split_ifs <;> rfl
  · intro h
    rw [h] at hsite
    simp at hsite
  · intro hfwd
    by_cases hz : ((FromActor.ActorLocation.sub ToActor.ActorLocation).GetSafeNormal2D
        UE_SMALL_NUMBER).IsNearlyZero UE_KINDA_SMALL_NUMBER = true
    · exact Or.inl hz
    · right
      rw [GetPushDirection_8Way_of_valid FromActor ToActor _ (Bool.eq_false_iff.mpr hz) rfl]
        at hfwd
      by_contra hn
      split_ifs at hfwd
      all_goals first
        | exact absurd hfwd (by decide)
        | exact hn ‹_›
        | exact range_checks_exhaustive _ ‹_› ‹_› ‹_›

/-- Witness for C23: the actor at (1, 0, 0) is classified Forward, its
direction is valid, so its signed angle is within 22.5 degrees. -/
theorem GetPushDirection_8Way_exhaustive_witness :
    (((ActorAt (1 : ℝ) 0 0).ActorLocation.sub
        (ActorAt (0 : ℝ) 0 0).ActorLocation).GetSafeNormal2D
        UE_SMALL_NUMBER).IsNearlyZero UE_KINDA_SMALL_NUMBER = true
    ∨ |CalculatePushDirection
        (((ActorAt (1 : ℝ) 0 0).ActorLocation.sub
          (ActorAt (0 : ℝ) 0 0).ActorLocation).GetSafeNormal2D UE_SMALL_NUMBER)
        (ActorAt (0 : ℝ) 0 0).ActorRotation| ≤ 22.5 :=
  (GetPushDirection_8Way_exhaustive (ActorAt 1 0 0) (ActorAt 0 0 0)).2.2.2
    (by rw [GetPushDirection_8Way_ahead])

end PushPawn
